import Mathlib

/-!
# MDFU client bootloader (PIC32CM MC00): frame codec, FTP engine, command processor

Shallow embedding of

* `Bootloader/.../com_adapter/com_adapter.c` (UART escaped-delimiter codec),
* `Bootloader_SPI/.../core/ftp/bl_ftp.c` (FTP command/response engine),
* `Bootloader/.../core/bl_core.c` (unlock / write command processor),
* `Bootloader_MI_ARB/.../core/bl_image_manager.c`, `bl_app_verify.c`, `bl_memory.c`,
  `bl_core.c` and `example/bl_example.c` (image manager, verifier, flash copy, start-up),
* `Bootloader_UART/.../core/bl_app_verify.c` (verifier of the single-image build),
* `Bootloader_I2C/.../com_adapter/com_adapter.c` (response framing of the I2C adapter),

followed by theorems about them.

Conventions. Bytes and machine words are natural numbers; every place where the C
arithmetic can wrap carries an explicit `%`.  C arrays are lists, read with
`List.getD _ _ 0` and written with `List.set`.  Peripheral registers and other
hardware answers are explicit inputs of the functions that consult them.
-/

namespace MDFU

/-! ## Communication adapter result codes (com_adapter.h) -/

/-- Return codes of the communication adapter layer, `com_adapter_result_t`. -/
inductive com_adapter_result_t
  | COM_PASS
  | COM_FAIL
  | COM_INVALID_ARG
  | COM_BUFFER_ERROR
  | COM_BUSY
  | COM_TRANSPORT_FAILURE
  | COM_SEND_COMPLETE
  deriving DecidableEq, Repr

open com_adapter_result_t

/-! ## UART frame codec (Bootloader/.../com_adapter.c) -/

/-- Special character for identifying the start of the frame. -/
def START_OF_PACKET_BYTE : Nat := 0x56

/-- Special character for identifying the end of the frame. -/
def END_OF_PACKET_BYTE : Nat := 0x9E

/-- Special character for identifying an escaped byte in the command data. -/
def ESCAPE_BYTE : Nat := 0xCC

/-- Length of the frame check field in bytes. -/
def FRAME_CHECK_SIZE : Nat := 2

/-- Body of the `while` loop of `FrameCheckCalculate` for the counter value
`numBytesChecksummed`: the `uint16_t` accumulator receives the byte itself at an
even index and the byte shifted left by 8 at an odd index. -/
def frameCheckStep (ftpData : List Nat) (checksum numBytesChecksummed : Nat) : Nat :=
  if numBytesChecksummed % 2 = 0 then
    (checksum + ftpData.getD numBytesChecksummed 0) % 65536
  else
    (checksum + ftpData.getD numBytesChecksummed 0 * 256) % 65536

/-- The function `FrameCheckCalculate(ftpData, bufferLength)`: the loop runs the counter
over `0 .. bufferLength - 1` (the counter is a `uint16_t` and so is `bufferLength`, so
it never wraps) and the result is the 16-bit complement of the accumulator. -/
def FrameCheckCalculate (ftpData : List Nat) (bufferLength : Nat) : Nat :=
  65535 - (List.range bufferLength).foldl (frameCheckStep ftpData) 0

/-- What the USART receiver offers to one call of `COM_FrameTransfer`: nothing
(`SERCOM1_USART_ReceiverIsReady()` is false), or a byte together with whether
`SERCOM1_USART_ErrorGet()` is non-zero after reading it. -/
inductive UartRx
  | notReady
  | byte (data : Nat) (error : Bool)
  deriving DecidableEq, Repr

/-- The static variables of the UART adapter together with the two objects the caller
passes by pointer (`receiveBufferPtr`, `receiveIndexPtr`). -/
structure UartDecoder where
  MaxBufferLength : Nat
  isReceiveWindowOpen : Bool
  isEscapedByte : Bool
  receiveBuffer : List Nat
  receiveIndex : Nat
  deriving DecidableEq, Repr

/-- The frame check sequence stored in the buffer in front of index `receiveIndex`:
low byte at `receiveIndex - 2`, high byte right after it.  The index expression
`*receiveIndexPtr - FRAME_CHECK_SIZE` is computed in 32-bit unsigned arithmetic. -/
def frameCheckSequenceRead (receiveBuffer : List Nat) (receiveIndex : Nat) : Nat :=
  let start := (receiveIndex + 4294967296 - FRAME_CHECK_SIZE) % 4294967296
  let lowByte := receiveBuffer.getD start 0
  let highByte := receiveBuffer.getD (start + 1) 0
  (highByte * 256 + lowByte) % 65536

/-- The function `COM_FrameTransfer` of the UART adapter, for non-NULL pointers. -/
def COM_FrameTransfer (rx : UartRx) (d : UartDecoder) : com_adapter_result_t × UartDecoder :=
  match rx with
  | UartRx.notReady => (COM_FAIL, d)
  | UartRx.byte _ true => (COM_FAIL, d)
  | UartRx.byte nextByte false =>
    if nextByte = START_OF_PACKET_BYTE then
      (COM_BUSY, { d with isReceiveWindowOpen := true, isEscapedByte := false, receiveIndex := 0 })
    else if d.isReceiveWindowOpen then
      if nextByte = END_OF_PACKET_BYTE then
        let fcs := FrameCheckCalculate d.receiveBuffer
          ((d.receiveIndex + 65536 - FRAME_CHECK_SIZE) % 65536)
        let frameCheckSequence := frameCheckSequenceRead d.receiveBuffer d.receiveIndex
        if fcs = frameCheckSequence then
          (COM_PASS, { d with isReceiveWindowOpen := false })
        else
          (COM_TRANSPORT_FAILURE, { d with isReceiveWindowOpen := false })
      else if nextByte = ESCAPE_BYTE then
        (COM_BUSY, { d with isEscapedByte := true })
      else
        let nextByte1 := if d.isEscapedByte then 255 - nextByte else nextByte
        if d.receiveIndex < d.MaxBufferLength then
          (COM_BUSY, { d with
            isEscapedByte := false
            receiveBuffer := d.receiveBuffer.set d.receiveIndex nextByte1
            receiveIndex := (d.receiveIndex + 1) % 65536 })
        else
          (COM_BUFFER_ERROR, { d with isEscapedByte := false, isReceiveWindowOpen := false })
    else
      (COM_FAIL, d)

/-- Feeding a byte stream into `COM_FrameTransfer`, one error-free byte per call;
returns the result of every call in order and the final decoder state. -/
def feedBytes : UartDecoder → List Nat → List com_adapter_result_t × UartDecoder
  | d, [] => ([], d)
  | d, b :: bs =>
    let r := COM_FrameTransfer (UartRx.byte b false) d
    let rest := feedBytes r.2 bs
    (r.1 :: rest.1, rest.2)

/-- The function `DataSend`: writes one byte to the transmitter.  `sent` is the list of
bytes written so far; `txError k` tells whether `SERCOM1_USART_ErrorGet()` is non-zero
after the write number `k`. -/
def DataSend (txError : Nat → Bool) (sent : List Nat) (data : Nat) :
    com_adapter_result_t × List Nat :=
  (if txError sent.length then COM_FAIL else COM_PASS, sent ++ [data])

/-- The `while (sentByteCount < responseLength + FRAME_CHECK_SIZE)` loop of
`COM_FrameSet`.  `sentByteCount` is a `uint16_t`; the bound is computed in 32 bits.
Returns the bytes on the wire when the loop is left (by its condition or by `break`),
`none` when the fuel runs out first. -/
def frameSetLoop (txError : Nat → Bool) (responseBuffer : List Nat)
    (responseLength frameCheck : Nat) : Nat → Nat → List Nat → Option (List Nat)
  | fuel, sentByteCount, sent =>
    if sentByteCount < responseLength + FRAME_CHECK_SIZE then
      match fuel with
      | 0 => none
      | fuel1 + 1 =>
        let nextByte :=
          if sentByteCount = responseLength then frameCheck % 256
          else if sentByteCount = responseLength + 1 then (frameCheck / 256) % 256
          else responseBuffer.getD sentByteCount 0
        if nextByte = START_OF_PACKET_BYTE ∨ nextByte = END_OF_PACKET_BYTE
            ∨ nextByte = ESCAPE_BYTE then
          let e := DataSend txError sent ESCAPE_BYTE
          if e.1 ≠ COM_PASS then some e.2
          else
            let s := DataSend txError e.2 (255 - nextByte)
            if s.1 ≠ COM_PASS then some s.2
            else frameSetLoop txError responseBuffer responseLength frameCheck fuel1
              ((sentByteCount + 1) % 65536) s.2
        else
          let s := DataSend txError sent nextByte
          if s.1 ≠ COM_PASS then some s.2
          else frameSetLoop txError responseBuffer responseLength frameCheck fuel1
            ((sentByteCount + 1) % 65536) s.2
    else some sent

/-- The function `COM_FrameSet` of the UART adapter, for a non-NULL buffer: the result
code and the bytes written to the transmitter, or `none` when the loop needs more than
`fuel` iterations. -/
def COM_FrameSet (fuel : Nat) (txError : Nat → Bool) (responseBuffer : List Nat)
    (responseLength : Nat) : Option (com_adapter_result_t × List Nat) :=
  if responseLength = 0 then some (COM_INVALID_ARG, [])
  else
    let frameCheck := FrameCheckCalculate responseBuffer responseLength
    let s := DataSend txError [] START_OF_PACKET_BYTE
    if s.1 = COM_PASS then
      match frameSetLoop txError responseBuffer responseLength frameCheck fuel 0 s.2 with
      | none => none
      | some sent => some (DataSend txError sent END_OF_PACKET_BYTE)
    else some s

/-- The function `COM_Initialize` of the UART adapter for a non-zero length: the
decoder state it leaves, given the caller's buffer and index. -/
def COM_Initialize (maximumBufferLength : Nat) (receiveBuffer : List Nat)
    (receiveIndex : Nat) : UartDecoder :=
  { MaxBufferLength := maximumBufferLength
    isReceiveWindowOpen := false
    isEscapedByte := false
    receiveBuffer := receiveBuffer
    receiveIndex := receiveIndex }

/-- Sum of the bytes of `buf` at the even indices below `n`. -/
def evenIndexSum (buf : List Nat) (n : Nat) : Nat :=
  (((List.range n).filter (fun i => i % 2 = 0)).map (fun i => buf.getD i 0)).sum

/-- Sum of the bytes of `buf` at the odd indices below `n`. -/
def oddIndexSum (buf : List Nat) (n : Nat) : Nat :=
  (((List.range n).filter (fun i => i % 2 = 1)).map (fun i => buf.getD i 0)).sum

/-! ## Bootloader core (Bootloader/.../core/bl_core.c, bl_core.h, bl_config.h) -/

/-- Result codes of the bootloader, `bl_result_t` (bl_result_type.h is not among the
sources; the constructors are the code names the sources use). -/
inductive bl_result_t
  | BL_PASS
  | BL_FAIL
  | BL_BUSY
  | BL_ERROR_UNKNOWN_COMMAND
  | BL_ERROR_VERIFICATION_FAIL
  | BL_ERROR_ADDRESS_OUT_OF_RANGE
  | BL_ERROR_COMMAND_PROCESSING
  | BL_ERROR_BUFFER_OVERLOAD
  | BL_ERROR_BUFFER_UNDERLOAD
  | BL_ERROR_FRAME_VALIDATION_FAIL
  | BL_ERROR_COMMUNICATION_FAIL
  | BL_ERROR_INVALID_ARGUMENTS
  | BL_ERROR_ROLLBACK_FAILURE
  deriving DecidableEq, Repr

open bl_result_t

/-- Build-time constants that are declared outside the sources at hand: the flash
geometry of plib_nvmctrl.h and whether com_adapter.h of the variant defines
`MULTI_STAGE_RESPONSE`. -/
structure BuildConfig where
  NVMCTRL_FLASH_PAGESIZE : Nat
  NVMCTRL_FLASH_ROWSIZE : Nat
  MULTI_STAGE_RESPONSE : Bool
  deriving DecidableEq, Repr

/-- Major version of the image format understood by the core. -/
def BL_IMAGE_FORMAT_MAJOR_VERSION : Nat := 0x1

/-- Minor version of the image format understood by the core. -/
def BL_IMAGE_FORMAT_MINOR_VERSION : Nat := 0x0

/-- Start of the application memory space. -/
def BL_APPLICATION_START_ADDRESS : Nat := 0x1000

/-- End of the application memory space. -/
def BL_APPLICATION_END_ADDRESS : Nat := 0x1FFFF

/-- Start of the application download space. -/
def BL_STAGING_IMAGE_START : Nat := BL_APPLICATION_START_ADDRESS

/-- End of the application download space. -/
def BL_STAGING_IMAGE_END : Nat := BL_APPLICATION_END_ADDRESS

/-- Block type code of the unlock (metadata) block. -/
def UNLOCK_BOOTLOADER : Nat := 0x01

/-- Block type code of the flash data block. -/
def WRITE_FLASH : Nat := 0x02

/-- Total size of the operational block header part. -/
def BL_COMMAND_HEADER_SIZE : Nat := 4

/-- Total size of the basic block header part. -/
def BL_BLOCK_HEADER_SIZE : Nat := 3

/-- Maximum number of bytes the bootloader can hold inside of its process buffer. -/
def BL_WRITE_BYTE_LENGTH (cfg : BuildConfig) : Nat := cfg.NVMCTRL_FLASH_PAGESIZE

/-- Maximum length of data the bootloader can receive in each operational block. -/
def BL_MAX_BUFFER_SIZE (cfg : BuildConfig) : Nat :=
  BL_BLOCK_HEADER_SIZE + BL_COMMAND_HEADER_SIZE + BL_WRITE_BYTE_LENGTH cfg

/-- A `memcpy` of two bytes into a `uint16_t` (little-endian target). -/
def le16 (buf : List Nat) (i : Nat) : Nat :=
  buf.getD i 0 + 256 * buf.getD (i + 1) 0

/-- A `memcpy` of four bytes into a `uint32_t` (little-endian target). -/
def le32 (buf : List Nat) (i : Nat) : Nat :=
  buf.getD i 0 + 256 * buf.getD (i + 1) 0 + 65536 * buf.getD (i + 2) 0
    + 16777216 * buf.getD (i + 3) 0

/-- A `memcpy(&dst[0], &src[srcOffset], n)`; bytes that would land behind the end of
`dst` are not stored. -/
def blockCopy (dst src : List Nat) (srcOffset n : Nat) : List Nat :=
  (List.range (min n dst.length)).map (fun i => src.getD (srcOffset + i) 0) ++ dst.drop n

/-- A `memcpy(&buffer[offset], data, |data|)`. -/
def memcpyAt : List Nat → Nat → List Nat → List Nat
  | buffer, _, [] => buffer
  | buffer, offset, v :: vs => memcpyAt (buffer.set offset v) (offset + 1) vs

/-- The flash primitives of plib_nvmctrl that change the device. -/
inductive NvmOp
  | RegionUnlock (address : Nat)
  | RowErase (address : Nat)
  | PageWrite (data : List Nat) (address : Nat)
  | RegionLock (address : Nat)
  deriving DecidableEq, Repr

/-- The metadata packet `bl_unlock_boot_metadata_t` without its block header. -/
structure bl_unlock_boot_metadata_t where
  imageVersionPatch : Nat
  imageVersionMinor : Nat
  imageVersionMajor : Nat
  deviceId : Nat
  maxPayloadSize : Nat
  startAddress : Nat
  deriving DecidableEq, Repr

/-- The static variables of bl_core.c, and the flash primitives invoked so far
(oldest first). -/
structure CoreState where
  bootloaderCoreUnlocked : Bool
  writeBuffer : List Nat
  nvmOps : List NvmOp
  deriving DecidableEq, Repr

/-- The `memcpy` sequence at the head of `BootloaderProcessorUnlock`. -/
def metadataPacketRead (bufferPtr : List Nat) : bl_unlock_boot_metadata_t :=
  { imageVersionPatch := bufferPtr.getD 3 0
    imageVersionMinor := bufferPtr.getD 4 0
    imageVersionMajor := bufferPtr.getD 5 0
    deviceId := le32 bufferPtr 6
    maxPayloadSize := le16 bufferPtr 10
    startAddress := le32 bufferPtr 12 }

/-- The function `DownloadAreaErase`: the `while (address < BL_STAGING_IMAGE_END)` loop,
`address` being a `uint32_t`.  Returns the extended trace of flash primitives, `none`
when the loop needs more than `fuel` iterations. -/
def DownloadAreaErase (cfg : BuildConfig) : Nat → Nat → List NvmOp → Option (List NvmOp)
  | fuel, address, ops =>
    if address < BL_STAGING_IMAGE_END then
      match fuel with
      | 0 => none
      | fuel1 + 1 =>
        DownloadAreaErase cfg fuel1 ((address + cfg.NVMCTRL_FLASH_ROWSIZE) % 4294967296)
          (ops ++ [NvmOp.RegionUnlock address, NvmOp.RowErase address, NvmOp.RegionLock address])
    else some ops

/-- The status `commandStatus` of `BootloaderProcessorUnlock` after its five checks;
`deviceIdRegister` is the word `NVMCTRL_Read` delivers from
`BL_DEVICE_ID_START_ADDRESS_U`. -/
def unlockCommandStatus (cfg : BuildConfig) (deviceIdRegister : Nat)
    (metadataPacket : bl_unlock_boot_metadata_t) : bl_result_t :=
  let commandStatus0 := BL_FAIL
  let commandStatus1 :=
    if metadataPacket.imageVersionMajor ≠ BL_IMAGE_FORMAT_MAJOR_VERSION then
      BL_ERROR_VERIFICATION_FAIL
    else if metadataPacket.imageVersionMinor > BL_IMAGE_FORMAT_MINOR_VERSION then
      BL_ERROR_VERIFICATION_FAIL
    else commandStatus0
  let deviceId := deviceIdRegister &&& 0xFFFFF0FF
  let commandStatus2 :=
    if deviceId ≠ metadataPacket.deviceId then BL_ERROR_VERIFICATION_FAIL else commandStatus1
  let commandStatus3 :=
    if metadataPacket.maxPayloadSize ≠ BL_WRITE_BYTE_LENGTH cfg then BL_ERROR_VERIFICATION_FAIL
    else commandStatus2
  let commandStatus4 :=
    if metadataPacket.startAddress ≠ BL_APPLICATION_START_ADDRESS then
      BL_ERROR_VERIFICATION_FAIL
    else commandStatus3
  commandStatus4

/-- The function `BootloaderProcessorUnlock`. -/
def BootloaderProcessorUnlock (cfg : BuildConfig) (fuel : Nat) (deviceIdRegister : Nat)
    (bufferPtr : List Nat) (c : CoreState) : Option (bl_result_t × CoreState) :=
  let metadataPacket := metadataPacketRead bufferPtr
  let commandStatus := unlockCommandStatus cfg deviceIdRegister metadataPacket
  if commandStatus ≠ BL_ERROR_VERIFICATION_FAIL then
    match DownloadAreaErase cfg fuel BL_STAGING_IMAGE_START c.nvmOps with
    | none => none
    | some ops => some (BL_PASS, { c with bootloaderCoreUnlocked := true, nvmOps := ops })
  else some (commandStatus, c)

/-- The length `commandLength - BL_COMMAND_HEADER_SIZE - BL_BLOCK_HEADER_SIZE` handed to
`memcpy` in the write path, computed in 32-bit unsigned arithmetic. -/
def writeCopyLength (commandLength : Nat) : Nat :=
  (commandLength + 4294967296 - BL_COMMAND_HEADER_SIZE - BL_BLOCK_HEADER_SIZE) % 4294967296

/-- The function `BL_BootCommandProcess`; `pageWriteStatus` is what `NVMCTRL_PageWrite`
returns. -/
def BL_BootCommandProcess (cfg : BuildConfig) (fuel : Nat) (deviceIdRegister : Nat)
    (pageWriteStatus : Bool) (bootDataPtr : List Nat) (commandLength : Nat) (c : CoreState) :
    Option (bl_result_t × CoreState) :=
  let blockType := bootDataPtr.getD 2 0
  if blockType = UNLOCK_BOOTLOADER then
    BootloaderProcessorUnlock cfg fuel deviceIdRegister bootDataPtr c
  else if blockType = WRITE_FLASH then
    if c.bootloaderCoreUnlocked then
      let startAddress := le32 bootDataPtr BL_BLOCK_HEADER_SIZE
      let stagingAreaOffset :=
        (BL_STAGING_IMAGE_START + 4294967296 - BL_APPLICATION_START_ADDRESS) % 4294967296
      let destination := (startAddress + stagingAreaOffset) % 4294967296
      if destination ≥ BL_STAGING_IMAGE_START then
        let writeBuffer := blockCopy c.writeBuffer bootDataPtr
          (BL_COMMAND_HEADER_SIZE + BL_BLOCK_HEADER_SIZE) (writeCopyLength commandLength)
        let ops := c.nvmOps ++ [NvmOp.RegionUnlock destination,
          NvmOp.PageWrite writeBuffer destination, NvmOp.RegionLock destination]
        some (if pageWriteStatus then BL_PASS else BL_ERROR_COMMAND_PROCESSING,
          { c with writeBuffer := writeBuffer, nvmOps := ops })
      else some (BL_ERROR_ADDRESS_OUT_OF_RANGE, c)
    else some (BL_ERROR_UNKNOWN_COMMAND, c)
  else some (BL_ERROR_UNKNOWN_COMMAND, c)

/-- The function `BL_Initialize`. -/
def BL_Initialize (c : CoreState) : bl_result_t × CoreState :=
  (BL_PASS, { c with bootloaderCoreUnlocked := false })

/-! ## FTP engine (Bootloader_SPI/.../core/ftp/bl_ftp.c) -/

/-- Length of the command data field in bytes. -/
def COMMAND_DATA_SIZE : Nat := 1

/-- Length of the sequence data field in bytes. -/
def SEQUENCE_DATA_SIZE : Nat := 1

/-- Length of the largest possible response in bytes. -/
def MAX_RESPONSE_SIZE : Nat := 25

/-- Length of a Type-Length-Value object header in bytes. -/
def TLV_HEADER_SIZE : Nat := 2

/-- Length of the frame bytes the FTP buffer must reserve for the transport layer. -/
def COM_FRAME_BYTE_COUNT : Nat := FRAME_CHECK_SIZE

/-- Length of the largest possible data transfer in bytes. -/
def MAX_TRANSFER_SIZE (cfg : BuildConfig) : Nat :=
  BL_MAX_BUFFER_SIZE cfg + SEQUENCE_DATA_SIZE + COMMAND_DATA_SIZE + COM_FRAME_BYTE_COUNT

/-- Length of the smallest possible transfer in bytes. -/
def MIN_TRANSFER_SIZE : Nat := 2

/-- Number of buffers supported for reception. -/
def PACKET_BUFFER_COUNT : Nat := 1

/-- Mask of the Retry bit. -/
def RETRY_TRANSFER_bm : Nat := 0x40

/-- Mask of the Sync bit. -/
def SYNC_TRANSFER_bm : Nat := 0x80

/-- Mask of the sequence number field. -/
def SEQUENCE_NUMBER_bm : Nat := 0x3F

/-- Maximum value of the sequence field. -/
def MAX_SEQUENCE_VALUE : Nat := 31

/-- Index of the status or command byte. -/
def FTP_BYTE_INDEX : Nat := 1

/-- Index of the sequence byte. -/
def SEQUENCE_BYTE_INDEX : Nat := 0

/-- Index of the start of the file transfer data. -/
def FILE_DATA_INDEX : Nat := COMMAND_DATA_SIZE + SEQUENCE_DATA_SIZE

/-- Command code `FTP_GET_CLIENT_INFO` of `ftp_command_t`. -/
def FTP_GET_CLIENT_INFO : Nat := 0x01

/-- Command code `FTP_START_TRANSFER` of `ftp_command_t`. -/
def FTP_START_TRANSFER : Nat := 0x02

/-- Command code `FTP_WRITE_CHUNK` of `ftp_command_t`. -/
def FTP_WRITE_CHUNK : Nat := 0x03

/-- Command code `FTP_GET_IMAGE_STATE` of `ftp_command_t`. -/
def FTP_GET_IMAGE_STATE : Nat := 0x04

/-- Command code `FTP_END_TRANSFER` of `ftp_command_t`. -/
def FTP_END_TRANSFER : Nat := 0x05

/-- Status code `FTP_COMMAND_SUCCESS` of `ftp_response_status_t`. -/
def FTP_COMMAND_SUCCESS : Nat := 0x01

/-- Status code `FTP_COMMAND_NOT_SUPPORTED` of `ftp_response_status_t`. -/
def FTP_COMMAND_NOT_SUPPORTED : Nat := 0x02

/-- Status code `FTP_COMMAND_NOT_AUTHORIZED` of `ftp_response_status_t`. -/
def FTP_COMMAND_NOT_AUTHORIZED : Nat := 0x03

/-- Status code `FTP_COMMAND_NOT_EXECUTED` of `ftp_response_status_t`. -/
def FTP_COMMAND_NOT_EXECUTED : Nat := 0x04

/-- Status code `FTP_ABORT_TRANSFER` of `ftp_response_status_t`. -/
def FTP_ABORT_TRANSFER : Nat := 0x05

/-- Abort code `FTP_GENERIC_ERROR` of `ftp_abort_code_t`. -/
def FTP_GENERIC_ERROR : Nat := 0x00

/-- Abort code `FTP_INVALID_FILE_ERROR` of `ftp_abort_code_t`. -/
def FTP_INVALID_FILE_ERROR : Nat := 0x01

/-- Abort code `FTP_ADDRESS_ERROR` of `ftp_abort_code_t`. -/
def FTP_ADDRESS_ERROR : Nat := 0x03

/-- Abort code `FTP_WRITE_ERROR` of `ftp_abort_code_t`. -/
def FTP_WRITE_ERROR : Nat := 0x05

/-- Transport failure code `FTP_INTEGRITY_CHECK_ERROR`. -/
def FTP_INTEGRITY_CHECK_ERROR : Nat := 0x00

/-- Transport failure code `FTP_COMMAND_TOO_LONG_ERROR`. -/
def FTP_COMMAND_TOO_LONG_ERROR : Nat := 0x01

/-- Transport failure code `FTP_COMMAND_TOO_SHORT_ERROR`. -/
def FTP_COMMAND_TOO_SHORT_ERROR : Nat := 0x02

/-- Transport failure code `FTP_INVALID_SEQUENCE_NUMBER_ERROR`. -/
def FTP_INVALID_SEQUENCE_NUMBER_ERROR : Nat := 0x03

/-- Image state code `FTP_IMAGE_VALID`. -/
def FTP_IMAGE_VALID : Nat := 0x01

/-- Image state code `FTP_IMAGE_INVALID`. -/
def FTP_IMAGE_INVALID : Nat := 0x02

/-- The structure `ftp_parser_helper_t`. -/
structure ftp_parser_helper_t where
  lastSequenceNumber : Nat
  currentSequenceNumber : Nat
  nextSequenceNumber : Nat
  responseRequired : Bool
  resendRequired : Bool
  deriving DecidableEq, Repr

/-- The static variables of bl_ftp.c, the state of the core it drives, and a count of
the calls of `OperationalBlockExecute` made so far. -/
structure FtpState where
  ftpHelper : ftp_parser_helper_t
  FTP_RECEIVE_BUFFER : List Nat
  FTP_RESPONSE_BUFFER : List Nat
  FTP_RETRY_BUFFER : List Nat
  resetPending : Bool
  isComBusy : Bool
  ftpReceiveCount : Nat
  ftpResponseLength : Nat
  core : CoreState
  dispatchCount : Nat
  deriving DecidableEq, Repr

/-- What the environment does during one call of `FTP_Task`: the result of
`COM_FrameTransfer` and the receive buffer and count it leaves behind, the result
`COM_FrameSet` gives if it is called, the result of `BL_ImageVerify`, the device id word
read from the NVM controller and the status of `NVMCTRL_PageWrite`. -/
structure TaskEnv where
  comResult : com_adapter_result_t
  receiveBuffer : List Nat
  receiveCount : Nat
  frameSetResult : com_adapter_result_t
  imageVerifyResult : bl_result_t
  deviceIdRegister : Nat
  pageWriteStatus : Bool
  deriving DecidableEq, Repr

/-- One call of `COM_FrameSet` as seen from the engine: the first `responseLength`
bytes of the buffer handed over, and `responseLength`. -/
structure FrameSetCall where
  bytes : List Nat
  responseLength : Nat
  deriving DecidableEq, Repr

/-- How a call of `FTP_Task` ends: in `NVIC_SystemReset()` (no return), or by returning
a result, leaving a state and having called `COM_FrameSet` at most once. -/
inductive TaskOutcome
  | deviceReset
  | returned (processResult : bl_result_t) (st : FtpState) (frameSet : Option FrameSetCall)
  deriving DecidableEq, Repr

/-- The function `ResponseSet` applied to one of the response buffers: the new buffer
and the new `ftpResponseLength`.  `responsePayload = none` is the NULL payload. -/
def ResponseSet (buffer : List Nat) (responsePayload : Option (List Nat))
    (responseStatus sequenceByte responsePayloadLength : Nat) : List Nat × Nat :=
  let ftpResponseLength :=
    (responsePayloadLength + SEQUENCE_DATA_SIZE + COMMAND_DATA_SIZE) % 65536
  let buffer1 := buffer.set SEQUENCE_BYTE_INDEX (sequenceByte % 256)
  let buffer2 := buffer1.set FTP_BYTE_INDEX (responseStatus % 256)
  match responsePayload with
  | some payload => (memcpyAt buffer2 FILE_DATA_INDEX (payload.take responsePayloadLength),
      ftpResponseLength)
  | none => (buffer2, ftpResponseLength)

/-- The function `ParserDataReset`. -/
def ParserDataReset (cfg : BuildConfig) (s : FtpState) : FtpState :=
  { s with ftpReceiveCount := 0
           FTP_RECEIVE_BUFFER := List.replicate (MAX_TRANSFER_SIZE cfg) 0 }

/-- The retry response every transport error path builds in `FTP_RETRY_BUFFER`. -/
def retryResponseSet (s : FtpState) (transportStatusResult : Nat) : FtpState :=
  let r := ResponseSet s.FTP_RETRY_BUFFER (some [transportStatusResult])
    FTP_COMMAND_NOT_EXECUTED (s.ftpHelper.nextSequenceNumber ^^^ RETRY_TRANSFER_bm) 1
  { s with FTP_RETRY_BUFFER := r.1, ftpResponseLength := r.2 }

/-- The function `SequenceNumberValidate`. -/
def SequenceNumberValidate (s : FtpState) : Bool × FtpState :=
  let sequenceByte := s.FTP_RECEIVE_BUFFER.getD SEQUENCE_BYTE_INDEX 0
  let currentSequenceNumber := sequenceByte &&& SEQUENCE_NUMBER_bm
  let s1 := { s with ftpHelper := { s.ftpHelper with
    currentSequenceNumber := currentSequenceNumber } }
  let syncRequested := (sequenceByte &&& SYNC_TRANSFER_bm) ≠ 0
  if syncRequested then
    (true, { s1 with ftpHelper := { s1.ftpHelper with
      lastSequenceNumber := currentSequenceNumber
      nextSequenceNumber := (currentSequenceNumber + 1) &&& MAX_SEQUENCE_VALUE } })
  else if currentSequenceNumber = s1.ftpHelper.nextSequenceNumber then
    (true, { s1 with ftpHelper := { s1.ftpHelper with
      lastSequenceNumber := currentSequenceNumber
      nextSequenceNumber := (currentSequenceNumber + 1) &&& MAX_SEQUENCE_VALUE } })
  else if currentSequenceNumber = s1.ftpHelper.lastSequenceNumber then
    (false, { s1 with ftpHelper := { s1.ftpHelper with responseRequired := true } })
  else
    let s2 := { s1 with ftpHelper := { s1.ftpHelper with resendRequired := true } }
    (false, retryResponseSet s2 FTP_INVALID_SEQUENCE_NUMBER_ERROR)

/-- The function `AbortCodeGet`. -/
def AbortCodeGet (targetStatus : bl_result_t) : Nat :=
  match targetStatus with
  | BL_ERROR_VERIFICATION_FAIL => FTP_INVALID_FILE_ERROR
  | BL_ERROR_ADDRESS_OUT_OF_RANGE => FTP_ADDRESS_ERROR
  | BL_ERROR_COMMAND_PROCESSING => FTP_WRITE_ERROR
  | BL_ERROR_UNKNOWN_COMMAND => FTP_INVALID_FILE_ERROR
  | _ => FTP_GENERIC_ERROR

/-- The function `TLVAppend` writing at `offset` of the response buffer: the new buffer
and the number of bytes appended (a `uint8_t`). -/
def TLVAppend (buffer : List Nat) (offset dataType : Nat) (valueBuffer : List Nat) :
    List Nat × Nat :=
  let dataLength := valueBuffer.length
  let buffer1 := memcpyAt buffer offset [dataType, dataLength]
  (memcpyAt buffer1 (offset + TLV_HEADER_SIZE) valueBuffer, (dataLength + TLV_HEADER_SIZE) % 256)

/-- The function `ClientInfoResponseSet`. -/
def ClientInfoResponseSet (cfg : BuildConfig) (s : FtpState) : FtpState :=
  let maxPayloadSize := BL_MAX_BUFFER_SIZE cfg % 65536
  let discoveryData := [maxPayloadSize % 256, maxPayloadSize / 256, PACKET_BUFFER_COUNT]
  let ftpVersionData := [0x01, 0x02, 0x00]
  let generalCommandTimeoutData := [0x00, 0x64, 0x00]
  let minimumInterMessageDelayData := [0x60, 0xE3, 0x16, 0x00]
  let ftpResponseLength := 3 + 3 + 3 + 4 + SEQUENCE_DATA_SIZE + COMMAND_DATA_SIZE
    + TLV_HEADER_SIZE * 4
  let b0 := s.FTP_RESPONSE_BUFFER.set SEQUENCE_BYTE_INDEX s.ftpHelper.currentSequenceNumber
  let b1 := b0.set FTP_BYTE_INDEX FTP_COMMAND_SUCCESS
  let fileDataOffset0 := FILE_DATA_INDEX
  let t1 := TLVAppend b1 fileDataOffset0 0x01 ftpVersionData
  let fileDataOffset1 := (fileDataOffset0 + t1.2) % 65536
  let t2 := TLVAppend t1.1 fileDataOffset1 0x02 discoveryData
  let fileDataOffset2 := (fileDataOffset1 + t2.2) % 65536
  let t3 := TLVAppend t2.1 fileDataOffset2 0x03 generalCommandTimeoutData
  let fileDataOffset3 := (fileDataOffset2 + t3.2) % 65536
  let t4 := TLVAppend t3.1 fileDataOffset3 0x04 minimumInterMessageDelayData
  { s with FTP_RESPONSE_BUFFER := t4.1, ftpResponseLength := ftpResponseLength }

/-- The response `OperationalBlockExecute` builds in `FTP_RESPONSE_BUFFER` through
`ResponseSet`, tagged with the current sequence number. -/
def responseSet (s : FtpState) (responsePayload : Option (List Nat))
    (responseStatus responsePayloadLength : Nat) : FtpState :=
  let r := ResponseSet s.FTP_RESPONSE_BUFFER responsePayload responseStatus
    s.ftpHelper.currentSequenceNumber responsePayloadLength
  { s with FTP_RESPONSE_BUFFER := r.1, ftpResponseLength := r.2 }

/-- The function `OperationalBlockExecute`; every call is counted in `dispatchCount`.
`none` when the staging erase of an accepted unlock block runs out of fuel. -/
def OperationalBlockExecute (cfg : BuildConfig) (fuel : Nat) (env : TaskEnv) (s0 : FtpState) :
    Option (bl_result_t × FtpState) :=
  let s := { s0 with dispatchCount := s0.dispatchCount + 1 }
  let command := s.FTP_RECEIVE_BUFFER.getD FTP_BYTE_INDEX 0
  if command = FTP_GET_CLIENT_INFO then
    some (BL_PASS, ClientInfoResponseSet cfg s)
  else if command = FTP_GET_IMAGE_STATE then
    let processResult := env.imageVerifyResult
    let isImageValid := if processResult = BL_PASS then FTP_IMAGE_VALID else FTP_IMAGE_INVALID
    some (processResult, responseSet s (some [isImageValid]) FTP_COMMAND_SUCCESS 1)
  else if command = FTP_START_TRANSFER then
    let s1 := { s with core := (BL_Initialize s.core).2 }
    some (BL_PASS, responseSet s1 none FTP_COMMAND_SUCCESS 0)
  else if command = FTP_WRITE_CHUNK then
    let commandLength := (s.ftpReceiveCount + 4294967296 - COMMAND_DATA_SIZE
      - SEQUENCE_DATA_SIZE - FRAME_CHECK_SIZE) % 4294967296 % 65536
    match BL_BootCommandProcess cfg fuel env.deviceIdRegister env.pageWriteStatus
        (s.FTP_RECEIVE_BUFFER.drop FILE_DATA_INDEX) commandLength s.core with
    | none => none
    | some (processResult, core1) =>
      let s1 := { s with core := core1 }
      if processResult = BL_PASS then
        some (processResult, responseSet s1 none FTP_COMMAND_SUCCESS 0)
      else
        some (processResult,
          responseSet s1 (some [AbortCodeGet processResult]) FTP_ABORT_TRANSFER 1)
  else if command = FTP_END_TRANSFER then
    let s1 := responseSet s none FTP_COMMAND_SUCCESS 0
    let s2 := { s1 with resetPending := true }
    let s3 := if cfg.MULTI_STAGE_RESPONSE then { s2 with isComBusy := true } else s2
    some (BL_PASS, s3)
  else
    some (BL_ERROR_UNKNOWN_COMMAND, responseSet s none FTP_COMMAND_NOT_SUPPORTED 0)

/-- The part of `FTP_Task` between the call of `COM_FrameTransfer` and the sending of
the response: the `if / else if` chain on `comResult`. -/
def ftpTaskReceive (cfg : BuildConfig) (fuel : Nat) (env : TaskEnv) (s : FtpState) :
    Option (bl_result_t × FtpState) :=
  if env.comResult = COM_BUFFER_ERROR then
    let s1 := { s with ftpHelper := { s.ftpHelper with resendRequired := true } }
    some (BL_ERROR_BUFFER_OVERLOAD,
      ParserDataReset cfg (retryResponseSet s1 FTP_COMMAND_TOO_LONG_ERROR))
  else if env.comResult = COM_PASS then
    if s.ftpReceiveCount < MIN_TRANSFER_SIZE then
      let s1 := { s with ftpHelper := { s.ftpHelper with resendRequired := true } }
      some (BL_ERROR_BUFFER_UNDERLOAD,
        ParserDataReset cfg (retryResponseSet s1 FTP_COMMAND_TOO_SHORT_ERROR))
    else
      let v := SequenceNumberValidate s
      if v.1 then
        match OperationalBlockExecute cfg fuel env v.2 with
        | none => none
        | some (processResult, s1) =>
          some (processResult, ParserDataReset cfg
            { s1 with ftpHelper := { s1.ftpHelper with responseRequired := true } })
      else some (BL_ERROR_FRAME_VALIDATION_FAIL, ParserDataReset cfg v.2)
  else if env.comResult = COM_TRANSPORT_FAILURE then
    let s1 := { s with ftpHelper := { s.ftpHelper with resendRequired := true } }
    some (BL_ERROR_FRAME_VALIDATION_FAIL, retryResponseSet s1 FTP_INTEGRITY_CHECK_ERROR)
  else if env.comResult = COM_BUSY then
    some (BL_BUSY, s)
  else if cfg.MULTI_STAGE_RESPONSE ∧ env.comResult = COM_SEND_COMPLETE then
    some (BL_BUSY, { s with isComBusy := false })
  else some (BL_ERROR_COMMUNICATION_FAIL, s)

/-- The tail of `FTP_Task`: `COM_FrameSet` on the retry buffer when `resendRequired`,
else on the response buffer when `responseRequired`. -/
def ftpTaskSend (env : TaskEnv) (processResult : bl_result_t) (s : FtpState) : TaskOutcome :=
  if s.ftpHelper.resendRequired then
    let call : FrameSetCall :=
      { bytes := s.FTP_RETRY_BUFFER.take s.ftpResponseLength
        responseLength := s.ftpResponseLength }
    let processResult1 :=
      if env.frameSetResult ≠ COM_PASS then BL_ERROR_COMMUNICATION_FAIL else processResult
    TaskOutcome.returned processResult1
      { s with ftpHelper := { s.ftpHelper with resendRequired := false } } (some call)
  else if s.ftpHelper.responseRequired then
    let call : FrameSetCall :=
      { bytes := s.FTP_RESPONSE_BUFFER.take s.ftpResponseLength
        responseLength := s.ftpResponseLength }
    let processResult1 :=
      if env.frameSetResult ≠ COM_PASS then BL_ERROR_COMMUNICATION_FAIL else processResult
    TaskOutcome.returned processResult1
      { s with ftpHelper := { s.ftpHelper with responseRequired := false } } (some call)
  else TaskOutcome.returned processResult s none

/-- The function `FTP_Task`.  `none` when the model runs out of fuel. -/
def FTP_Task (cfg : BuildConfig) (fuel : Nat) (env : TaskEnv) (s : FtpState) :
    Option TaskOutcome :=
  if ¬ s.isComBusy ∧ s.resetPending then some TaskOutcome.deviceReset
  else
    let s1 := { s with FTP_RECEIVE_BUFFER := env.receiveBuffer
                       ftpReceiveCount := env.receiveCount }
    match ftpTaskReceive cfg fuel env s1 with
    | none => none
    | some (processResult, s2) => some (ftpTaskSend env processResult s2)

/-- The statically initialised variables of bl_ftp.c and bl_core.c after reset. -/
def FtpState.initial (cfg : BuildConfig) : FtpState :=
  { ftpHelper :=
      { lastSequenceNumber := 0
        currentSequenceNumber := 0
        nextSequenceNumber := 1
        responseRequired := false
        resendRequired := false }
    FTP_RECEIVE_BUFFER := List.replicate (MAX_TRANSFER_SIZE cfg) 0
    FTP_RESPONSE_BUFFER := List.replicate MAX_RESPONSE_SIZE 0
    FTP_RETRY_BUFFER := List.replicate MAX_RESPONSE_SIZE 0
    resetPending := false
    isComBusy := false
    ftpReceiveCount := 0
    ftpResponseLength := 0
    core :=
      { bootloaderCoreUnlocked := false
        writeBuffer := List.replicate (BL_WRITE_BYTE_LENGTH cfg) 0
        nvmOps := [] }
    dispatchCount := 0 }

/-- The engine states reachable from the initial state by calls of `FTP_Task` that
return. -/
inductive Reachable (cfg : BuildConfig) : FtpState → Prop
  | initial : Reachable cfg (FtpState.initial cfg)
  | step (fuel : Nat) (env : TaskEnv) (s : FtpState) (processResult : bl_result_t)
      (t : FtpState) (frameSet : Option FrameSetCall) :
      Reachable cfg s →
      FTP_Task cfg fuel env s = some (TaskOutcome.returned processResult t frameSet) →
      Reachable cfg t

/-- The bytes `COM_FrameSet` puts on the wire for one frame byte: a byte equal to one of
the three special characters is sent as the escape character followed by its
complement. -/
def escapeByte (b : Nat) : List Nat :=
  if b = START_OF_PACKET_BYTE ∨ b = END_OF_PACKET_BYTE ∨ b = ESCAPE_BYTE then
    [ESCAPE_BYTE, 255 - b]
  else [b]

/-- The frame body of a payload: the payload followed by the low and the high byte of
its frame check. -/
def frameBody (payload : List Nat) : List Nat :=
  payload ++ [FrameCheckCalculate payload payload.length % 256,
    (FrameCheckCalculate payload payload.length / 256) % 256]

/-! ## Image manager and verifier of the multi-image build
(Bootloader_MI_ARB/.../core/bl_image_manager.c, bl_app_verify.c) -/

/-- Constants of the multi-image build whose declarations (bl_config.h and
bl_image_manager types of that variant) are not among the sources: the image geometry,
the image ids, the feature switches, `sizeof (bl_footer_data_t)` and
`HASH_DATA_OFFSET`. -/
structure ImageConfig where
  BL_APPLICATION_START_ADDRESS : Nat
  BL_APPLICATION_END_ADDRESS : Nat
  BL_IMAGE_PARTITION_SIZE : Nat
  BL_APPLICATION_IMAGE_COUNT : Nat
  BL_STAGING_IMAGE_ID : Nat
  BL_BACKUP_IMAGE_ID : Nat
  BL_ANTI_ROLLBACK_ENABLED : Bool
  BL_RESTORATION_FROM_BACKUP_ENABLED : Bool
  footerSize : Nat
  HASH_DATA_OFFSET : Nat
  deriving DecidableEq, Repr

/-- Modelled from the spec: the image id enumeration is not among the sources; slot 0
is the execution slot. -/
def IMAGE_0 : Nat := 0

/-- The footer record `bl_footer_data_t`, with the fields the sources access. -/
structure bl_footer_data_t where
  applicationId : Nat
  applicationVersion : Nat
  verificationEndAddress : Nat
  verificationStartAddress : Nat
  verificationData : Nat
  deriving DecidableEq, Repr

/-- Result codes of the memory helper, `bl_mem_result_t` (bl_memory.h). -/
inductive bl_mem_result_t
  | BL_MEM_PASS
  | BL_MEM_FAIL
  | BL_MEM_INVALID_ARG
  deriving DecidableEq, Repr

open bl_mem_result_t

/-- What the hardware answers to the readers of the flash: `footerAt a` is the footer
record delivered by `NVMCTRL_Read` of `sizeof (bl_footer_data_t)` bytes at `a`, `wordAt a`
the 32-bit word delivered by `NVMCTRL_Read` of 4 bytes at `a` (`none` when the read
reports failure), and `crcEngine start length seed` the value `DSU_CRCCalculate` leaves
in the variable it is given. -/
structure NvmView where
  footerAt : Nat → Option bl_footer_data_t
  wordAt : Nat → Option Nat
  crcEngine : Nat → Nat → Nat → Nat

/-- The footer record with every field zero, the initial value of the work records. -/
def zeroFooter : bl_footer_data_t :=
  { applicationId := 0
    applicationVersion := 0
    verificationEndAddress := 0
    verificationStartAddress := 0
    verificationData := 0 }

/-- The function `BL_ApplicationStartAddressGet`. -/
def BL_ApplicationStartAddressGet (icfg : ImageConfig) (imageId : Nat) : Nat :=
  if imageId < icfg.BL_APPLICATION_IMAGE_COUNT then
    (icfg.BL_APPLICATION_START_ADDRESS + icfg.BL_IMAGE_PARTITION_SIZE * imageId) % 4294967296
  else 0

/-- The function `BL_ApplicationFooterStartAddressGet`. -/
def BL_ApplicationFooterStartAddressGet (icfg : ImageConfig) (imageId : Nat) : Nat :=
  if imageId < icfg.BL_APPLICATION_IMAGE_COUNT then
    ((icfg.BL_APPLICATION_END_ADDRESS + 1) + icfg.BL_IMAGE_PARTITION_SIZE * imageId
      + 4294967296 - icfg.footerSize % 4294967296) % 4294967296
  else 0

/-- The function `BL_ApplicationFooterRead`: the result and the record left in
`*footerData`, which keeps its value when the read fails. -/
def BL_ApplicationFooterRead (nvm : NvmView) (icfg : ImageConfig) (appId : Nat)
    (footerData : bl_footer_data_t) : bl_mem_result_t × bl_footer_data_t :=
  let footerAddressStart := BL_ApplicationFooterStartAddressGet icfg appId
  match nvm.footerAt footerAddressStart with
  | some workFooterData => (BL_MEM_PASS, workFooterData)
  | none => (BL_MEM_FAIL, footerData)

/-- The function `BL_ApplicationVersionGet`. -/
def BL_ApplicationVersionGet (nvm : NvmView) (icfg : ImageConfig) (imageId : Nat) : Nat :=
  (BL_ApplicationFooterRead nvm icfg imageId zeroFooter).2.applicationVersion

/-- The function `BL_ApplicationDownloadIdGet`:
`(uint8_t)(workFooterData.applicationId & 0xFFU)`. -/
def BL_ApplicationDownloadIdGet (nvm : NvmView) (icfg : ImageConfig) (imageId : Nat) : Nat :=
  ((BL_ApplicationFooterRead nvm icfg imageId zeroFooter).2.applicationId &&& 0xFF) % 256

/-- The function `BL_ApplicationExecutionIdGet`:
`(uint8_t)(workFooterData.applicationId & 0xFF00U)`. -/
def BL_ApplicationExecutionIdGet (nvm : NvmView) (icfg : ImageConfig) (imageId : Nat) : Nat :=
  ((BL_ApplicationFooterRead nvm icfg imageId zeroFooter).2.applicationId &&& 0xFF00) % 256

/-- The function `BL_ApplicationIsVersionValid`. -/
def BL_ApplicationIsVersionValid (imageVersion : Nat) : Bool :=
  imageVersion ≠ 0xFFFFFFFF && imageVersion ≠ 0x00000000

/-- The function `BL_ApplicationRollbackCheck`. -/
def BL_ApplicationRollbackCheck (nvm : NvmView) (icfg : ImageConfig) (imageId : Nat) : Bool :=
  let targetImageId := BL_ApplicationDownloadIdGet nvm icfg imageId
  if targetImageId ≠ imageId then
    let newVersion := BL_ApplicationVersionGet nvm icfg imageId
    let oldImageVersion := BL_ApplicationVersionGet nvm icfg targetImageId
    let oldVersionIsValid := BL_ApplicationIsVersionValid oldImageVersion
    let newVersionIsValid := BL_ApplicationIsVersionValid newVersion
    if oldVersionIsValid = true ∧ newVersionIsValid = true then
      decide (newVersion > oldImageVersion)
    else if oldVersionIsValid = false ∧ newVersionIsValid = true then true
    else false
  else false

namespace MultiImage

/-- The function `CRC32_Calculate`: the value left in `*crc`. -/
def CRC32_Calculate (nvm : NvmView) (startAddress length crc : Nat) : Nat :=
  nvm.crcEngine startAddress length crc

/-- The function `CRC32_Validate` of the multi-image build; the reference word keeps
its initial value 0 when the read fails. -/
def CRC32_Validate (nvm : NvmView) (startAddress length refAddress : Nat) : bl_result_t :=
  let crc := CRC32_Calculate nvm startAddress length 0xFFFFFFFF
  let refCRC := (nvm.wordAt refAddress).getD 0
  if refCRC = 0 ∨ crc = 0 ∨ refCRC = 0xFFFFFFFF ∨ crc = 0xFFFFFFFF then
    BL_ERROR_INVALID_ARGUMENTS
  else if refCRC ≠ crc then BL_ERROR_VERIFICATION_FAIL
  else BL_PASS

/-- The function `BL_ImageVerifyById`. -/
def BL_ImageVerifyById (nvm : NvmView) (icfg : ImageConfig) (installLocationId : Nat) :
    bl_result_t :=
  let footerData := (BL_ApplicationFooterRead nvm icfg installLocationId zeroFooter).2
  let footerStartAddress := BL_ApplicationFooterStartAddressGet icfg installLocationId
  let hashLength := ((footerData.verificationEndAddress + 1) % 4294967296 + 4294967296
    - footerData.verificationStartAddress % 4294967296) % 4294967296
  if footerData.verificationStartAddress = 0 ∨ hashLength = 0
      ∨ installLocationId
          > (icfg.BL_APPLICATION_IMAGE_COUNT + 4294967296 - 1) % 4294967296 then
    BL_ERROR_INVALID_ARGUMENTS
  else
    let verificationStartAddress :=
      if installLocationId ≠ IMAGE_0 then
        (footerData.verificationStartAddress
          + ((installLocationId &&& 0x00FF) * icfg.BL_IMAGE_PARTITION_SIZE) % 4294967296)
          % 4294967296
      else footerData.verificationStartAddress
    CRC32_Validate nvm verificationStartAddress hashLength
      ((footerStartAddress + icfg.HASH_DATA_OFFSET) % 4294967296)

/-- The function `BL_ImageVerify` of the multi-image build. -/
def BL_ImageVerify (nvm : NvmView) (icfg : ImageConfig) : bl_result_t :=
  let verificationStatus := BL_ImageVerifyById nvm icfg icfg.BL_STAGING_IMAGE_ID
  if icfg.BL_ANTI_ROLLBACK_ENABLED ∧ verificationStatus = BL_PASS then
    if BL_ApplicationRollbackCheck nvm icfg (icfg.BL_STAGING_IMAGE_ID % 256) = true then BL_PASS
    else BL_ERROR_ROLLBACK_FAILURE
  else verificationStatus

end MultiImage

/-! ## Verifier of the single-image build (Bootloader_UART/.../core/bl_app_verify.c) -/

/-- Defined size of the application memory space. -/
def BL_IMAGE_PARTITION_SIZE : Nat := 0x1F000

/-- Size of the verification hash data in bytes. -/
def BL_HASH_DATA_SIZE : Nat := 4

namespace SingleImage

/-- The function `CRC32_Calculate`: the value left in `*crc`. -/
def CRC32_Calculate (nvm : NvmView) (startAddress length crc : Nat) : Nat :=
  nvm.crcEngine startAddress length crc

/-- The function `CRC32_Validate` of the single-image build. -/
def CRC32_Validate (nvm : NvmView) (startAddress length refAddress : Nat) : bl_result_t :=
  let crc := CRC32_Calculate nvm startAddress length 0xFFFFFFFF
  match nvm.wordAt refAddress with
  | some refCRC => if refCRC ≠ crc then BL_ERROR_VERIFICATION_FAIL else BL_PASS
  | none => BL_FAIL

/-- The function `BL_ImageVerify` of the single-image build. -/
def BL_ImageVerify (nvm : NvmView) : bl_result_t :=
  CRC32_Validate nvm BL_APPLICATION_START_ADDRESS
    (BL_IMAGE_PARTITION_SIZE - BL_HASH_DATA_SIZE) 0x1FFFC

end SingleImage

/-- A two-slot build: execution slot 0x2000 .. 0x10FFF, staging slot 1 above it, 20-byte
footers with the reference word at offset 16, anti-rollback on, no backup slot. -/
def twoSlotConfig : ImageConfig :=
  { BL_APPLICATION_START_ADDRESS := 0x2000
    BL_APPLICATION_END_ADDRESS := 0x10FFF
    BL_IMAGE_PARTITION_SIZE := 0xF000
    BL_APPLICATION_IMAGE_COUNT := 2
    BL_STAGING_IMAGE_ID := 1
    BL_BACKUP_IMAGE_ID := 2
    BL_ANTI_ROLLBACK_ENABLED := true
    BL_RESTORATION_FROM_BACKUP_ENABLED := false
    footerSize := 20
    HASH_DATA_OFFSET := 16 }

/-- A flash of `twoSlotConfig` whose staging footer (at 0x1FFEC) names slot
`applicationId mod 256` as target and holds version `candidateVersion`, whose execution
footer (at 0x10FEC) holds version `targetVersion`, both with the verification window
0x2000 .. 0x10FFB and the reference word 0x12345678; the CRC engine delivers
`executionCrc` for the execution slot and 0x12345678 for any other region. -/
def twoSlotView (applicationId candidateVersion targetVersion executionCrc : Nat) : NvmView :=
  { footerAt := fun a =>
      if a = 0x1FFEC then
        some { applicationId := applicationId
               applicationVersion := candidateVersion
               verificationEndAddress := 0x10FFB
               verificationStartAddress := 0x2000
               verificationData := 0x12345678 }
      else if a = 0x10FEC then
        some { applicationId := 0
               applicationVersion := targetVersion
               verificationEndAddress := 0x10FFB
               verificationStartAddress := 0x2000
               verificationData := 0x12345678 }
      else none
    wordAt := fun a => if a = 0x1FFFC ∨ a = 0x10FFC then some 0x12345678 else none
    crcEngine := fun startAddress _ _ =>
      if startAddress = 0x2000 then executionCrc else 0x12345678 }

/-- A version value is valid when it is neither 0x00000000 nor 0xFFFFFFFF. -/
def versionIsValid (v : Nat) : Prop :=
  v ≠ 0x00000000 ∧ v ≠ 0xFFFFFFFF

instance (v : Nat) : Decidable (versionIsValid v) := by
  unfold versionIsValid
  infer_instance

/-- A CRC or reference value that reads as never written or as erased flash. -/
def isSentinel (v : Nat) : Prop :=
  v = 0x00000000 ∨ v = 0xFFFFFFFF

instance (v : Nat) : Decidable (isSentinel v) := by
  unfold isSentinel
  infer_instance

/-- A flash of `twoSlotConfig` whose staging footer carries the application id 0x0100:
download id 0x00 in the low byte, execution id 0x01 in the high byte. -/
def executionIdView : NvmView := twoSlotView 0x0100 2 1 0x12345678

/-- A flash whose every word reads 0xFFFFFFFF, with a CRC engine that delivers
0xFFFFFFFF. -/
def erasedView : NvmView :=
  { footerAt := fun _ =>
      some { applicationId := 0xFFFF
             applicationVersion := 0xFFFFFFFF
             verificationEndAddress := 0xFFFFFFFF
             verificationStartAddress := 0xFFFFFFFF
             verificationData := 0xFFFFFFFF }
    wordAt := fun _ => some 0xFFFFFFFF
    crcEngine := fun _ _ _ => 0xFFFFFFFF }

/-- The five checks of `BootloaderProcessorUnlock` on a decoded metadata packet, for
the hardware device id word `h`. -/
def unlockChecksHold (cfg : BuildConfig) (h : Nat) (m : bl_unlock_boot_metadata_t) : Prop :=
  m.imageVersionMajor = BL_IMAGE_FORMAT_MAJOR_VERSION
    ∧ m.imageVersionMinor ≤ BL_IMAGE_FORMAT_MINOR_VERSION
    ∧ m.deviceId = h &&& 0xFFFFF0FF
    ∧ m.maxPayloadSize = BL_WRITE_BYTE_LENGTH cfg
    ∧ m.startAddress = BL_APPLICATION_START_ADDRESS

instance (cfg : BuildConfig) (h : Nat) (m : bl_unlock_boot_metadata_t) :
    Decidable (unlockChecksHold cfg h m) := by
  unfold unlockChecksHold
  infer_instance

/-- A build with 64-byte flash pages and 256-byte flash rows whose communication
adapter defines `MULTI_STAGE_RESPONSE`. -/
def exampleConfig : BuildConfig :=
  { NVMCTRL_FLASH_PAGESIZE := 64
    NVMCTRL_FLASH_ROWSIZE := 256
    MULTI_STAGE_RESPONSE := true }

/-- An Unlock block for `exampleConfig` and device id word 0x11070200 whose byte [3] is
2 and whose byte [5] is 1: block length 16, type 0x01, version bytes 2, 0, 1, device id
0x11070000, payload size 64, start address 0x1000. -/
def unlockBlockByte3 : List Nat :=
  [16, 0, 1, 2, 0, 1, 0x00, 0x00, 0x07, 0x11, 64, 0, 0x00, 0x10, 0x00, 0x00]

/-- An Unlock block that differs from a valid one for `exampleConfig` only in byte [5],
which is 2. -/
def unlockBlockBadMajor : List Nat :=
  [16, 0, 1, 0, 0, 2, 0x00, 0x00, 0x07, 0x11, 64, 0, 0x00, 0x10, 0x00, 0x00]

/-- A valid Unlock block for `exampleConfig` and device id word 0x11070200. -/
def unlockBlockValid : List Nat :=
  [16, 0, 1, 0, 0, 1, 0x00, 0x00, 0x07, 0x11, 64, 0, 0x00, 0x10, 0x00, 0x00]

/-- The core state after reset: latch clear, no flash primitive invoked yet. -/
def lockedCore : CoreState :=
  { bootloaderCoreUnlocked := false
    writeBuffer := List.replicate 64 0
    nvmOps := [] }

/-- A core state whose latch is set, as left by an earlier accepted Unlock block. -/
def unlockedCore : CoreState :=
  { bootloaderCoreUnlocked := true
    writeBuffer := List.replicate 64 0
    nvmOps := [] }

/-- The state a returning call of `FTP_Task` leaves; `s` when the call does not
return. -/
def outcomeState (s : FtpState) : Option TaskOutcome → FtpState
  | some (TaskOutcome.returned _ t _) => t
  | _ => s

/-- The call of `COM_FrameSet` made by a returning call of `FTP_Task`, if any. -/
def outcomeFrameSet : Option TaskOutcome → Option FrameSetCall
  | some (TaskOutcome.returned _ _ frameSet) => frameSet
  | _ => none

/-- A poll in which the adapter delivers a checksum-valid GetClientInfo frame with the
sync flag and sequence number 0. -/
def envGetClientInfo : TaskEnv :=
  { comResult := COM_PASS
    receiveBuffer := [0x80, 0x01, 0x7F, 0xFE] ++ List.replicate 71 0
    receiveCount := 4
    frameSetResult := COM_PASS
    imageVerifyResult := BL_PASS
    deviceIdRegister := 0x11070200
    pageWriteStatus := true }

/-- A poll in which the adapter reports a frame whose checksum does not match. -/
def envCorrupted : TaskEnv :=
  { comResult := COM_TRANSPORT_FAILURE
    receiveBuffer := [0x01, 0x01, 0x00, 0x00] ++ List.replicate 71 0
    receiveCount := 4
    frameSetResult := COM_PASS
    imageVerifyResult := BL_PASS
    deviceIdRegister := 0x11070200
    pageWriteStatus := true }

/-- A poll in which the adapter delivers the GetClientInfo frame again, without the sync
flag and with the sequence number 0 of the command processed last. -/
def envDuplicate : TaskEnv :=
  { comResult := COM_PASS
    receiveBuffer := [0x00, 0x01, 0xFF, 0xFE] ++ List.replicate 71 0
    receiveCount := 4
    frameSetResult := COM_PASS
    imageVerifyResult := BL_PASS
    deviceIdRegister := 0x11070200
    pageWriteStatus := true }

/-- The engine state after the GetClientInfo command has been dispatched and answered. -/
def stateAfterClientInfo : FtpState :=
  outcomeState (FtpState.initial exampleConfig)
    (FTP_Task exampleConfig 0 envGetClientInfo (FtpState.initial exampleConfig))

/-- The engine state after the corrupted frame has then been answered with a retry
response. -/
def stateAfterCorrupted : FtpState :=
  outcomeState stateAfterClientInfo (FTP_Task exampleConfig 0 envCorrupted stateAfterClientInfo)

/-- The initial engine state with a frame in the receive buffer whose sequence byte
0x9F carries the sync flag and the sequence field 31. -/
def stateSyncFrame31 : FtpState :=
  { FtpState.initial exampleConfig with
    FTP_RECEIVE_BUFFER := [0x9F, 0x01, 0x5F, 0xFE] ++ List.replicate 71 0
    ftpReceiveCount := 4 }

/-- A poll in which the adapter delivers a checksum-valid frame without the sync flag
whose sequence field 5 is neither the next nor the last sequence number of the initial
state. -/
def envOutOfSequence : TaskEnv :=
  { comResult := COM_PASS
    receiveBuffer := [0x05, 0x01, 0xFA, 0xFE] ++ List.replicate 71 0
    receiveCount := 4
    frameSetResult := COM_PASS
    imageVerifyResult := BL_PASS
    deviceIdRegister := 0x11070200
    pageWriteStatus := true }

/-- The invariant of the reachable engine states used below: the retry buffer keeps its
declared size and the next sequence number stays within `MAX_SEQUENCE_VALUE`. -/
def EngineInvariant (s : FtpState) : Prop :=
  s.FTP_RETRY_BUFFER.length = MAX_RESPONSE_SIZE
    ∧ s.ftpHelper.nextSequenceNumber ≤ MAX_SEQUENCE_VALUE

/-- A decoder with the window open that holds the four bytes of a GetClientInfo frame
(sequence byte, command byte, low and high byte of the frame check). -/
def decoderHoldingFrame : UartDecoder :=
  { MaxBufferLength := 8
    isReceiveWindowOpen := true
    isEscapedByte := false
    receiveBuffer := [0x80, 0x01, 0x7F, 0xFE, 0, 0, 0, 0]
    receiveIndex := 4 }

/-- A WriteFlash block of three bytes only (block length 3, type 0x02), followed in the
receive buffer by the bytes 0x00 0x10 0x00 0x00 that the core reads as start address
0x1000. -/
def writeBlockShort : List Nat :=
  [3, 0, 2, 0x00, 0x10, 0x00, 0x00]

/-- The three flash primitives the staging erase issues for the row at `address`. -/
def eraseRowOps (address : Nat) : List NvmOp :=
  [NvmOp.RegionUnlock address, NvmOp.RowErase address, NvmOp.RegionLock address]

/-- The primitives of an erase pass over `n` consecutive rows of size `rowSize` starting
at `start`, in increasing address order. -/
def eraseRowsOps (start rowSize n : Nat) : List NvmOp :=
  (List.range n).flatMap (fun k => eraseRowOps (start + k * rowSize))

/-- A build whose flash rows are one byte long. -/
def oneByteRowConfig : BuildConfig :=
  { NVMCTRL_FLASH_PAGESIZE := 64
    NVMCTRL_FLASH_ROWSIZE := 1
    MULTI_STAGE_RESPONSE := true }

/-! ## Flash copy helper and image copy of the multi-image build
(Bootloader_MI_ARB/.../core/bl_memory.c, `BL_CopyImageAreas` of bl_core.c) -/

/-- The calls of the flash driver made by `BL_FlashCopy`, each with the status the driver
returned where it returns one.  `PageWrite` records the index into `writeBuffer` the data
pointer refers to and the target address. -/
inductive MemOp
  | Read (address length : Nat) (status : Bool)
  | RegionUnlock (address : Nat)
  | RowErase (address : Nat) (status : Bool)
  | PageWrite (bufferIndex address : Nat) (status : Bool)
  | RegionLock (address : Nat)
  deriving DecidableEq, Repr

/-- What the flash driver returns to `BL_FlashCopy`: `read address length` is the status
of `NVMCTRL_Read`, `rowErase address` of `NVMCTRL_RowErase` and `pageWrite address` of
`NVMCTRL_PageWrite`.  The busy-wait loops on `NVMCTRL_IsBusy` are taken to end. -/
structure MemEnv where
  read : Nat → Nat → Bool
  rowErase : Nat → Bool
  pageWrite : Nat → Bool

/-- The value a `bool` has once it is stored in a variable of type `bl_mem_result_t`:
`true` is 1, the code of BL_MEM_FAIL, and `false` is 0, the code of BL_MEM_PASS. -/
def boolAsMemResult (b : Bool) : bl_mem_result_t :=
  if b then BL_MEM_FAIL else BL_MEM_PASS

/-- The driver calls of one pass of the page loop of `BL_FlashCopy`. -/
def pageWriteOps (cfg : BuildConfig) (env : MemEnv) (destAddress pageNum : Nat) : List MemOp :=
  let pageOffset := (pageNum * cfg.NVMCTRL_FLASH_PAGESIZE) % 4294967296
  let pageAddress := (destAddress + pageOffset) % 4294967296
  [MemOp.RegionUnlock destAddress,
    MemOp.PageWrite (pageOffset / 4) pageAddress (env.pageWrite pageAddress),
    MemOp.RegionLock destAddress]

/-- The function `BL_FlashCopy`; `size_t` is 32 bits wide on the target.  The result and
the extended trace of driver calls. -/
def BL_FlashCopy (cfg : BuildConfig) (env : MemEnv) (srcAddress destAddress length : Nat)
    (ops : List MemOp) : bl_mem_result_t × List MemOp :=
  let destEndAddress := (destAddress + length) % 4294967296
  let srcEndAddress := (srcAddress + length) % 4294967296
  let flashEndAddress := 0x20000 + 1
  let totalPages := 4
  if srcAddress > 0x20000 ∨ destAddress > 0x20000 then (BL_MEM_INVALID_ARG, ops)
  else if srcAddress = destAddress
      ∨ (srcEndAddress > destAddress ∧ srcEndAddress < destEndAddress)
      ∨ (destEndAddress > srcAddress ∧ destEndAddress < srcEndAddress) then
    (BL_MEM_INVALID_ARG, ops)
  else if length ≤ 0 ∨ srcEndAddress > flashEndAddress ∨ destEndAddress > flashEndAddress then
    (BL_MEM_INVALID_ARG, ops)
  else
    let readStatus := env.read srcAddress length
    let result := boolAsMemResult readStatus
    let ops1 := ops ++ [MemOp.Read srcAddress length readStatus]
    if boolAsMemResult true = result then
      let ops2 := ops1 ++ [MemOp.RegionUnlock destAddress,
        MemOp.RowErase destAddress (env.rowErase destAddress), MemOp.RegionLock destAddress]
      let ops3 := ops2
        ++ (List.range totalPages).flatMap (fun pageNum => pageWriteOps cfg env destAddress pageNum)
      (BL_MEM_PASS, ops3)
    else (result, ops1)

/-- The `for` loop of `BL_CopyImageAreas` from the value `byteCount` of its counter on:
the final `errorStatus` and the trace, `none` when the loop needs more than `fuel`
passes. -/
def copyImageRows (cfg : BuildConfig) (icfg : ImageConfig) (env : MemEnv) :
    Nat → Nat → Nat → Nat → bl_mem_result_t → List MemOp → Option (bl_mem_result_t × List MemOp)
  | fuel, byteCount, srcAddressStart, destinationAddressStart, errorStatus, ops =>
    if byteCount < icfg.BL_IMAGE_PARTITION_SIZE % 4294967296 then
      match fuel with
      | 0 => none
      | fuel1 + 1 =>
        let r := BL_FlashCopy cfg env srcAddressStart destinationAddressStart
          (cfg.NVMCTRL_FLASH_ROWSIZE % 4294967296) ops
        if r.1 ≠ BL_MEM_PASS then some r
        else
          copyImageRows cfg icfg env fuel1
            ((byteCount + cfg.NVMCTRL_FLASH_ROWSIZE) % 4294967296)
            ((srcAddressStart + cfg.NVMCTRL_FLASH_ROWSIZE) % 4294967296)
            ((destinationAddressStart + cfg.NVMCTRL_FLASH_ROWSIZE) % 4294967296) r.1 r.2
    else some (errorStatus, ops)

/-- The function `BL_CopyImageAreas`. -/
def BL_CopyImageAreas (cfg : BuildConfig) (icfg : ImageConfig) (env : MemEnv) (fuel : Nat)
    (srcImageId destImageId : Nat) (ops : List MemOp) : Option (bl_result_t × List MemOp) :=
  let lastImageId := (icfg.BL_APPLICATION_IMAGE_COUNT + 4294967296 - 1) % 4294967296
  if srcImageId > lastImageId ∨ destImageId > lastImageId ∨ srcImageId = destImageId then
    some (BL_ERROR_INVALID_ARGUMENTS, ops)
  else
    let destinationAddressStart := BL_ApplicationStartAddressGet icfg destImageId
    let srcAddressStart := BL_ApplicationStartAddressGet icfg srcImageId
    let copied : Option (bl_mem_result_t × List MemOp) :=
      if destinationAddressStart ≥ icfg.BL_APPLICATION_START_ADDRESS % 4294967296 then
        copyImageRows cfg icfg env fuel 0 srcAddressStart destinationAddressStart BL_MEM_FAIL ops
      else some (BL_MEM_FAIL, ops)
    match copied with
    | none => none
    | some (errorStatus, ops1) =>
      some (if errorStatus ≠ BL_MEM_PASS then BL_ERROR_COMMAND_PROCESSING else BL_PASS, ops1)

/-- Whether a driver call of the trace reported failure. -/
def MemOp.failed : MemOp → Bool
  | MemOp.Read _ _ status => !status
  | MemOp.RowErase _ status => !status
  | MemOp.PageWrite _ _ status => !status
  | _ => false

/-- Whether a driver call of the trace is an erase or a write. -/
def MemOp.modifies : MemOp → Bool
  | MemOp.RowErase _ _ => true
  | MemOp.PageWrite _ _ _ => true
  | _ => false

/-- A flash driver whose every call reports success. -/
def healthyMemEnv : MemEnv :=
  { read := fun _ _ => true
    rowErase := fun _ => true
    pageWrite := fun _ => true }

/-- A flash driver whose reads report failure. -/
def readFailsMemEnv : MemEnv :=
  { read := fun _ _ => false
    rowErase := fun _ => true
    pageWrite := fun _ => true }

/-- A flash driver whose reads succeed and whose erases and writes report failure. -/
def writeFailsMemEnv : MemEnv :=
  { read := fun _ _ => true
    rowErase := fun _ => false
    pageWrite := fun _ => false }

/-! ## Start-up example of the multi-image build
(Bootloader_MI_ARB/.../example/bl_example.c) -/

/-- The enumeration `bootloader_state_t`. -/
inductive bootloader_state_t
  | BOOTLOADER
  | APPLICATION
  | ERROR_STATE
  deriving DecidableEq, Repr

open bootloader_state_t

/-- The calls of `BL_ImageVerifyById` and `BL_CopyImageAreas` made during start-up, with
their arguments and results. -/
inductive BootEvent
  | verify (imageId : Nat) (result : bl_result_t)
  | copy (srcImageId destImageId : Nat) (result : bl_result_t)
  deriving DecidableEq, Repr

/-- The static variables of bl_example.c and the log of the calls made so far (oldest
first). -/
structure ExampleState where
  BootState : bootloader_state_t
  stagingAreaIsValid : Bool
  isExecutionAreaValidated : Bool
  executionImageHasBeenTested : Bool
  events : List BootEvent
  deriving DecidableEq, Repr

/-- The static variables of bl_example.c after reset. -/
def ExampleState.initial : ExampleState :=
  { BootState := BOOTLOADER
    stagingAreaIsValid := false
    isExecutionAreaValidated := false
    executionImageHasBeenTested := false
    events := [] }

/-- One call of `CRC32_Validate`, with its arguments. -/
structure CrcValidateCall where
  startAddress : Nat
  length : Nat
  refAddress : Nat
  deriving DecidableEq, Repr

/-- The function `BL_ImageVerifyById` of the multi-image build together with the calls of
`CRC32_Validate` it makes. -/
def BL_ImageVerifyByIdTraced (nvm : NvmView) (icfg : ImageConfig) (installLocationId : Nat) :
    bl_result_t × List CrcValidateCall :=
  let footerData := (BL_ApplicationFooterRead nvm icfg installLocationId zeroFooter).2
  let footerStartAddress := BL_ApplicationFooterStartAddressGet icfg installLocationId
  let hashLength := ((footerData.verificationEndAddress + 1) % 4294967296 + 4294967296
    - footerData.verificationStartAddress % 4294967296) % 4294967296
  if footerData.verificationStartAddress = 0 ∨ hashLength = 0
      ∨ installLocationId
          > (icfg.BL_APPLICATION_IMAGE_COUNT + 4294967296 - 1) % 4294967296 then
    (BL_ERROR_INVALID_ARGUMENTS, [])
  else
    let verificationStartAddress :=
      if installLocationId ≠ IMAGE_0 then
        (footerData.verificationStartAddress
          + ((installLocationId &&& 0x00FF) * icfg.BL_IMAGE_PARTITION_SIZE) % 4294967296)
          % 4294967296
      else footerData.verificationStartAddress
    let refAddress := (footerStartAddress + icfg.HASH_DATA_OFFSET) % 4294967296
    (MultiImage.CRC32_Validate nvm verificationStartAddress hashLength refAddress,
      [{ startAddress := verificationStartAddress, length := hashLength,
         refAddress := refAddress }])

/-- A flash of `twoSlotConfig` whose execution footer (at 0x10FEC) holds the verification
window from `verificationStartAddress` to `verificationEndAddress`, whose reference word
(at 0x10FFC) is 0x12345678, and whose CRC engine delivers 0x12345678 for every region. -/
def windowView (verificationStartAddress verificationEndAddress : Nat) : NvmView :=
  { footerAt := fun a =>
      if a = 0x10FEC then
        some { applicationId := 0
               applicationVersion := 0x100
               verificationEndAddress := verificationEndAddress
               verificationStartAddress := verificationStartAddress
               verificationData := 0x12345678 }
      else none
    wordAt := fun a => if a = 0x10FFC then some 0x12345678 else none
    crcEngine := fun _ _ _ => 0x12345678 }

/-- The footer record of an erased slot: every byte reads 0xFF. -/
def erasedFooter : bl_footer_data_t :=
  { applicationId := 0xFFFFFFFF
    applicationVersion := 0xFFFFFFFF
    verificationEndAddress := 0xFFFFFFFF
    verificationStartAddress := 0xFFFFFFFF
    verificationData := 0xFFFFFFFF }

/-- A flash of `twoSlotConfig` whose staging slot is erased (its footer at 0x1FFEC and
its reference word at 0x1FFFC read all 0xFF) and whose CRC engine delivers `crc`. -/
def erasedStagingView (crc : Nat) : NvmView :=
  { footerAt := fun a => if a = 0x1FFEC then some erasedFooter else none
    wordAt := fun a => if a = 0x1FFFC then some 0xFFFFFFFF else none
    crcEngine := fun _ _ _ => crc }

/-! ## Discovery payload as type-length-value records -/

/-- The specification's reading of a discovery payload: consecutive records of a type
byte, a length byte and as many value bytes as the length byte says; `none` when the
bytes do not split into such records.  The first argument bounds the number of records. -/
def tlvRecordsSpecAux : Nat → List Nat → Option (List (Nat × List Nat))
  | _, [] => some []
  | 0, _ :: _ => none
  | _ + 1, [_] => none
  | fuel + 1, dataType :: dataLength :: rest =>
    if dataLength ≤ rest.length then
      (tlvRecordsSpecAux fuel (rest.drop dataLength)).map
        (fun records => (dataType, rest.take dataLength) :: records)
    else none

/-- The type-length-value records of a byte sequence, see `tlvRecordsSpecAux`. -/
def tlvRecordsSpec (bytes : List Nat) : Option (List (Nat × List Nat)) :=
  tlvRecordsSpecAux bytes.length bytes

/-- The specification's table of abort codes: the code an Abort response carries for a
result of the command processor. -/
def abortCodeSpec (r : bl_result_t) : Nat :=
  if r = BL_ERROR_VERIFICATION_FAIL ∨ r = BL_ERROR_UNKNOWN_COMMAND then 0x01
  else if r = BL_ERROR_ADDRESS_OUT_OF_RANGE then 0x03
  else if r = BL_ERROR_COMMAND_PROCESSING then 0x05
  else 0x00

/-- An Unlock block for `exampleConfig` and device id word 0x11070200 that differs from
`unlockBlockValid` only in its payload size field, which holds 71. -/
def unlockBlockPayload71 : List Nat :=
  [16, 0, 1, 0, 0, 1, 0x00, 0x00, 0x07, 0x11, 71, 0, 0x00, 0x10, 0x00, 0x00]

/-- The engine state of `exampleConfig` after `SequenceNumberValidate` has accepted a
WriteChunk frame with sequence number 1 that carries `writeBlockShort` followed by four
data bytes (11 bytes with the frame check), the core being locked. -/
def stateWriteChunkFrame : FtpState :=
  { FtpState.initial exampleConfig with
    FTP_RECEIVE_BUFFER := [0x01, 0x03] ++ writeBlockShort ++ List.replicate 66 0
    ftpReceiveCount := 11
    ftpHelper :=
      { lastSequenceNumber := 1
        currentSequenceNumber := 1
        nextSequenceNumber := 2
        responseRequired := false
        resendRequired := false } }

/-- A poll in which the adapter delivers a checksum-valid StartTransfer frame with the
sync flag and sequence number 0. -/
def envStartTransfer : TaskEnv :=
  { comResult := COM_PASS
    receiveBuffer := [0x80, 0x02, 0x7F, 0xFD] ++ List.replicate 71 0
    receiveCount := 4
    frameSetResult := COM_PASS
    imageVerifyResult := BL_PASS
    deviceIdRegister := 0x11070200
    pageWriteStatus := true }

/-- The initial engine state of `exampleConfig` with the core unlocked, as an accepted
Unlock block leaves it. -/
def stateUnlocked : FtpState :=
  { FtpState.initial exampleConfig with core := unlockedCore }

/-! ## Reachable states of the UART decoder -/

/-- The decoder states reachable after `COM_Initialize` with the receive index at its
initial value 0: by calls of `COM_FrameTransfer`, and by the caller clearing its buffer
and index between frames (`ParserDataReset`). -/
inductive DecoderReachable (M : Nat) : UartDecoder → Prop
  | init (receiveBuffer : List Nat) : DecoderReachable M (COM_Initialize M receiveBuffer 0)
  | step (rx : UartRx) (d : UartDecoder) :
      DecoderReachable M d → DecoderReachable M (COM_FrameTransfer rx d).2
  | reset (d : UartDecoder) (receiveBuffer : List Nat) :
      DecoderReachable M d →
      DecoderReachable M { d with receiveBuffer := receiveBuffer, receiveIndex := 0 }

/-- The UART decoder after `COM_Initialize(75)` on a cleared 75-byte buffer. -/
def decoderInitial : UartDecoder :=
  COM_Initialize 75 (List.replicate 75 0) 0

/-- A decoder with the window open whose 8-byte buffer is full. -/
def decoderFull : UartDecoder :=
  { MaxBufferLength := 8
    isReceiveWindowOpen := true
    isEscapedByte := false
    receiveBuffer := [1, 2, 3, 4, 5, 6, 7, 8]
    receiveIndex := 8 }

/-- A decoder with the window closed, an escape pending and three bytes in its buffer. -/
def decoderClosed : UartDecoder :=
  { MaxBufferLength := 8
    isReceiveWindowOpen := false
    isEscapedByte := true
    receiveBuffer := [1, 2, 3, 0, 0, 0, 0, 0]
    receiveIndex := 3 }

/-- A poll in which the adapter delivers a checksum-valid EndTransfer frame with the sync
flag and sequence number 0. -/
def envEndTransfer : TaskEnv :=
  { comResult := COM_PASS
    receiveBuffer := [0x80, 0x05, 0x7F, 0xFA] ++ List.replicate 71 0
    receiveCount := 4
    frameSetResult := COM_PASS
    imageVerifyResult := BL_PASS
    deviceIdRegister := 0x11070200
    pageWriteStatus := true }

/-- A build with 64-byte flash pages and 256-byte flash rows whose communication
adapter (UART) does not define `MULTI_STAGE_RESPONSE`. -/
def uartConfig : BuildConfig :=
  { NVMCTRL_FLASH_PAGESIZE := 64
    NVMCTRL_FLASH_ROWSIZE := 256
    MULTI_STAGE_RESPONSE := false }

/-- A poll in which the adapter delivers the checksum-valid frame of three bytes
0xFA 0x05 0xFF: the single payload byte 0xFA followed by its frame check 0xFF05. -/
def envThreeByteFrame : TaskEnv :=
  { comResult := COM_PASS
    receiveBuffer := [0xFA, 0x05, 0xFF] ++ List.replicate 72 0
    receiveCount := 3
    frameSetResult := COM_PASS
    imageVerifyResult := BL_PASS
    deviceIdRegister := 0x11070200
    pageWriteStatus := true }

/-- A poll in which the adapter delivers the checksum-valid frame of two bytes
0xFF 0xFF: no payload, only the frame check 0xFFFF of the empty payload. -/
def envTwoByteFrame : TaskEnv :=
  { comResult := COM_PASS
    receiveBuffer := [0xFF, 0xFF] ++ List.replicate 73 0
    receiveCount := 2
    frameSetResult := COM_PASS
    imageVerifyResult := BL_PASS
    deviceIdRegister := 0x11070200
    pageWriteStatus := true }

/-- A WriteFlash block of 71 bytes (block length 71, type 0x02) with start address
0x20000 and 64 data bytes 0xAB. -/
def writeBlockOutside : List Nat :=
  [71, 0, 2, 0x00, 0x00, 0x02, 0x00] ++ List.replicate 64 0xAB

/-! ## I2C adapter: response framing (Bootloader_I2C/.../com_adapter/com_adapter.c) -/

namespace I2C

/-- Size of the length prefix field. -/
def LENGTH_PREFIX_SIZE : Nat := 1

/-- Size of the response prefix field. -/
def RESPONSE_PREFIX_SIZE : Nat := 1

/-- Size of the length data field. -/
def LENGTH_FIELD_SIZE : Nat := 2

/-- Offset of the response data in the response buffer, a `uint16_t`. -/
def RESPONSE_OFFSET : Nat :=
  (LENGTH_PREFIX_SIZE + LENGTH_FIELD_SIZE + FRAME_CHECK_SIZE + RESPONSE_PREFIX_SIZE) % 65536

/-- The function `FrameChecksumCalculate` of the I2C adapter; its loop body is that of
`FrameCheckCalculate`. -/
def FrameChecksumCalculate (ftpData : List Nat) (bufferLength : Nat) : Nat :=
  65535 - (List.range bufferLength).foldl (frameCheckStep ftpData) 0

/-- The value `SENDING_LENGTH` of `com_transfer_state_t`. -/
def SENDING_LENGTH : Nat := 1

/-- The static variables of the I2C adapter that `COM_FrameSet` assigns. -/
structure AdapterState where
  comResponseTransferState : Nat
  isCommandReadyToProcess : Bool
  comResponseBufferIndex : Nat
  deriving DecidableEq, Repr

/-- The function `COM_FrameSet` of the I2C adapter, for a non-NULL buffer: the result,
the assignments to elements of `comResponseBuffer` in program order as pairs of index
and value, and the static variables it leaves.  `responseLength` is a `uint16_t`. -/
def COM_FrameSet (responseBuffer : List Nat) (responseLength : Nat) (a : AdapterState) :
    com_adapter_result_t × List (Nat × Nat) × AdapterState :=
  let sendingLength := (responseLength + FRAME_CHECK_SIZE) % 65536
  if responseLength = 0 then
    (COM_INVALID_ARG, [],
      { a with comResponseTransferState := SENDING_LENGTH, isCommandReadyToProcess := false })
  else
    let sendingLengthChecksum :=
      FrameChecksumCalculate [sendingLength % 256, sendingLength / 256] 2
    let dataChecksum := FrameChecksumCalculate responseBuffer responseLength
    let header : List (Nat × Nat) :=
      [(0, 0x4C),
        (1, (sendingLength % 256) &&& 0x00FF),
        (2, (sendingLength / 256) % 256),
        (3, (sendingLengthChecksum % 256) &&& 0x00FF),
        (4, (sendingLengthChecksum / 256) % 256),
        (5, 0x52)]
    let limit := (responseLength + RESPONSE_OFFSET) % 65536
    let body : List (Nat × Nat) :=
      (List.range (limit - RESPONSE_OFFSET)).map
        (fun k => (RESPONSE_OFFSET + k, responseBuffer.getD k 0))
    let highByte := (responseLength + RESPONSE_OFFSET + 1) % 65536
    let trailer : List (Nat × Nat) :=
      [(responseLength + RESPONSE_OFFSET, (dataChecksum % 256) &&& 0x00FF),
        (highByte, (dataChecksum / 256) % 256)]
    (COM_PASS, header ++ body ++ trailer,
      { comResponseTransferState := SENDING_LENGTH
        isCommandReadyToProcess := false
        comResponseBufferIndex := 0 })

end I2C

/-! ## Effect of the flash driver calls of `BL_FlashCopy` on the flash -/

/-- The flash as a function from byte address to byte, and the bytes of the array
`writeBuffer` of bl_memory.c (4 * NVMCTRL_FLASH_PAGESIZE of them) by index. -/
structure FlashState where
  flash : Nat → Nat
  writeBuffer : Nat → Nat

/-- Modelled from the spec: plib_nvmctrl is not among the sources.  `NVMCTRL_Read` copies
`length` stored bytes from `address` on into the buffer. -/
def flashRead (st : FlashState) (address length : Nat) : FlashState :=
  { st with writeBuffer := fun i => if i < length then st.flash (address + i) else st.writeBuffer i }

/-- Modelled from the spec: plib_nvmctrl is not among the sources.  `NVMCTRL_RowErase`
sets every byte of the row that contains `address` to 0xFF. -/
def flashRowErase (cfg : BuildConfig) (st : FlashState) (address : Nat) : FlashState :=
  let rowStart := address - address % cfg.NVMCTRL_FLASH_ROWSIZE
  { st with flash := fun a =>
      if rowStart ≤ a ∧ a < rowStart + cfg.NVMCTRL_FLASH_ROWSIZE then 0xFF else st.flash a }

/-- Modelled from the spec: plib_nvmctrl is not among the sources.  `NVMCTRL_PageWrite`
stores one page: the NVMCTRL_FLASH_PAGESIZE bytes found from the 32-bit word
`bufferIndex` of the buffer on go to `address` and the addresses after it. -/
def flashPageWrite (cfg : BuildConfig) (st : FlashState) (bufferIndex address : Nat) :
    FlashState :=
  { st with flash := fun a =>
      if address ≤ a ∧ a < address + cfg.NVMCTRL_FLASH_PAGESIZE then
        st.writeBuffer (4 * bufferIndex + (a - address))
      else st.flash a }

/-- The effect of one driver call of the trace on the flash and the buffer. -/
def runMemOp (cfg : BuildConfig) (st : FlashState) : MemOp → FlashState
  | MemOp.Read address length _ => flashRead st address length
  | MemOp.RowErase address _ => flashRowErase cfg st address
  | MemOp.PageWrite bufferIndex address _ => flashPageWrite cfg st bufferIndex address
  | MemOp.RegionUnlock _ => st
  | MemOp.RegionLock _ => st

/-- The effect of the driver calls of a trace, in order. -/
def runMemOps (cfg : BuildConfig) (st : FlashState) (ops : List MemOp) : FlashState :=
  ops.foldl (runMemOp cfg) st

/-- A flash whose byte at address `a` is `a mod 251`, with a cleared buffer. -/
def patternFlash : FlashState :=
  { flash := fun a => a % 251
    writeBuffer := fun _ => 0 }

/-! ## Theorems -/

theorem foldl_frameCheckStep (buf : List Nat) (n : Nat) :
    (List.range n).foldl (frameCheckStep buf) 0
      = (evenIndexSum buf n + 256 * oddIndexSum buf n) % 65536 := by
  induction n with
  | zero => simp [evenIndexSum, oddIndexSum]
  | succ k ih =>
    rw [List.range_succ, List.foldl_append, ih]
    simp only [List.foldl_cons, List.foldl_nil, frameCheckStep, evenIndexSum, oddIndexSum,
      List.range_succ, List.filter_append, List.map_append, List.sum_append]
    rcases Nat.mod_two_eq_zero_or_one k with h | h
    · simp [h, List.filter_cons]
      omega
    · simp [h, List.filter_cons]
      omega

/-- C3: `FrameCheckCalculate buf n` is the 16-bit complement of (sum of the even-indexed
bytes + 256 * sum of the odd-indexed bytes) mod 2^16, for every buffer and every
`uint16_t` length `n`; for `n = 0` it is 0xFFFF. -/
theorem FrameCheckCalculate_spec (buf : List Nat) (n : Nat) (hn : n < 65536) :
    FrameCheckCalculate buf n
        = 65535 - (evenIndexSum buf n + 256 * oddIndexSum buf n) % 65536
      ∧ FrameCheckCalculate buf 0 = 0xFFFF := by
  constructor
  · unfold FrameCheckCalculate
    rw [foldl_frameCheckStep]
  · rfl


/-! ### UART codec -/

theorem feedBytes_append (d : UartDecoder) (xs ys : List Nat) :
    feedBytes d (xs ++ ys)
      = ((feedBytes d xs).1 ++ (feedBytes (feedBytes d xs).2 ys).1,
         (feedBytes (feedBytes d xs).2 ys).2) := by
  induction xs generalizing d with
  | nil => simp [feedBytes]
  | cons x xs ih => simp [feedBytes, ih]

theorem feedBytes_escapeByte (d : UartDecoder) (b : Nat) (hb : b < 256)
    (hopen : d.isReceiveWindowOpen = true) (hesc : d.isEscapedByte = false)
    (hidx : d.receiveIndex < d.MaxBufferLength) (hmax : d.MaxBufferLength < 65536) :
    feedBytes d (escapeByte b)
      = (List.replicate (escapeByte b).length COM_BUSY,
         { d with receiveBuffer := d.receiveBuffer.set d.receiveIndex b
                  receiveIndex := d.receiveIndex + 1 }) := by
  have hmod : (d.receiveIndex + 1) % 65536 = d.receiveIndex + 1 := by omega
  obtain ⟨M, w, e, buf, idx⟩ := d
  simp only at hopen hesc hidx hmax hmod
  subst hopen hesc
  unfold escapeByte
  by_cases hs : b = START_OF_PACKET_BYTE ∨ b = END_OF_PACKET_BYTE ∨ b = ESCAPE_BYTE
  · rw [if_pos hs]
    have h1 : 255 - b ≠ START_OF_PACKET_BYTE := by
      simp only [START_OF_PACKET_BYTE, END_OF_PACKET_BYTE, ESCAPE_BYTE] at hs ⊢; omega
    have h2 : 255 - b ≠ END_OF_PACKET_BYTE := by
      simp only [START_OF_PACKET_BYTE, END_OF_PACKET_BYTE, ESCAPE_BYTE] at hs ⊢; omega
    have h3 : 255 - b ≠ ESCAPE_BYTE := by
      simp only [START_OF_PACKET_BYTE, END_OF_PACKET_BYTE, ESCAPE_BYTE] at hs ⊢; omega
    have h4 : 255 - (255 - b) = b := by omega
    have h5 : ESCAPE_BYTE ≠ START_OF_PACKET_BYTE := by decide
    have h6 : ESCAPE_BYTE ≠ END_OF_PACKET_BYTE := by decide
    simp [feedBytes, COM_FrameTransfer, h1, h2, h3, h4, h5, h6, hidx, hmod]
  · rw [if_neg hs]
    have h1 : b ≠ START_OF_PACKET_BYTE := fun h => hs (Or.inl h)
    have h2 : b ≠ END_OF_PACKET_BYTE := fun h => hs (Or.inr (Or.inl h))
    have h3 : b ≠ ESCAPE_BYTE := fun h => hs (Or.inr (Or.inr h))
    simp [feedBytes, COM_FrameTransfer, h1, h2, h3, hidx, hmod]

theorem feedBytes_body (bs : List Nat) (d : UartDecoder) (hb : ∀ b ∈ bs, b < 256)
    (hopen : d.isReceiveWindowOpen = true) (hesc : d.isEscapedByte = false)
    (hidx : d.receiveIndex + bs.length ≤ d.MaxBufferLength)
    (hmax : d.MaxBufferLength < 65536) :
    feedBytes d (bs.flatMap escapeByte)
      = (List.replicate (bs.flatMap escapeByte).length COM_BUSY,
         { d with receiveBuffer := memcpyAt d.receiveBuffer d.receiveIndex bs
                  receiveIndex := d.receiveIndex + bs.length }) := by
  induction bs generalizing d with
  | nil => simp [feedBytes, memcpyAt]
  | cons b bs ih =>
    have hb0 : b < 256 := hb b (List.mem_cons_self _ _)
    have hlen : d.receiveIndex + (bs.length + 1) ≤ d.MaxBufferLength := by
      simpa using hidx
    rw [List.flatMap_cons, feedBytes_append,
      feedBytes_escapeByte d b hb0 hopen hesc (by omega) hmax]
    dsimp only
    have key := ih { d with receiveBuffer := d.receiveBuffer.set d.receiveIndex b
                            receiveIndex := d.receiveIndex + 1 }
      (fun x hx => hb x (List.mem_cons_of_mem _ hx)) hopen hesc (by dsimp only; omega) hmax
    dsimp only at key
    rw [key]
    rw [List.length_append, List.replicate_add, List.length_cons, memcpyAt,
      Nat.add_assoc, Nat.add_comm 1 bs.length]

theorem memcpyAt_eq (bs buf : List Nat) (i : Nat) (h : i + bs.length ≤ buf.length) :
    memcpyAt buf i bs = buf.take i ++ bs ++ buf.drop (i + bs.length) := by
  induction bs generalizing buf i with
  | nil => simp [memcpyAt]
  | cons b bs ih =>
    have hlen : i + (bs.length + 1) ≤ buf.length := by simpa using h
    have hi : i < buf.length := by omega
    have hti : (List.take i buf).length = i := by
      rw [List.length_take]; omega
    rw [memcpyAt, ih _ _ (by rw [List.length_set]; omega)]
    rw [List.set_eq_take_append_cons_drop, if_pos hi]
    have e1 : List.take (i + 1) (List.take i buf ++ b :: List.drop (i + 1) buf)
        = List.take i buf ++ [b] := by
      rw [List.take_append_eq_append_take, hti]
      simp [List.take_of_length_le, hti]
    have e2 : List.drop (i + 1 + bs.length) (List.take i buf ++ b :: List.drop (i + 1) buf)
        = List.drop (i + (bs.length + 1)) buf := by
      rw [List.drop_append_eq_append_drop, hti]
      have h0 : List.drop (i + 1 + bs.length) (List.take i buf) = [] := by
        apply List.drop_eq_nil_of_le; omega
      have h1 : i + 1 + bs.length - i = bs.length + 1 := by omega
      rw [h0, h1]
      simp only [List.nil_append, List.drop_succ_cons, List.drop_drop]
      congr 1
      omega
    rw [e1, e2]
    simp

theorem frameBody_getD (rb : List Nat) (n fc k : Nat) (hn : n ≤ rb.length) (hk : k < n + 2) :
    (rb.take n ++ [fc % 256, (fc / 256) % 256]).getD k 0
      = if k = n then fc % 256
        else if k = n + 1 then (fc / 256) % 256
        else rb.getD k 0 := by
  have hlen : (rb.take n).length = n := by rw [List.length_take]; omega
  by_cases h1 : k = n
  · subst h1
    rw [if_pos rfl, List.getD_eq_getElem?_getD, List.getElem?_append_right (by omega), hlen]
    simp
  · rw [if_neg h1]
    by_cases h2 : k = n + 1
    · subst h2
      rw [if_pos rfl, List.getD_eq_getElem?_getD, List.getElem?_append_right (by omega), hlen]
      simp
    · rw [if_neg h2]
      have hk2 : k < n := by omega
      rw [List.getD_eq_getElem?_getD, List.getD_eq_getElem?_getD,
        List.getElem?_append_left (by omega), List.getElem?_take_of_lt hk2]

theorem frameSetLoop_noError (rb : List Nat) (n fc : Nat) (hn : n ≤ rb.length)
    (h16 : n + 2 < 65536) (fuel sbc : Nat) (sent : List Nat)
    (hs : sbc ≤ n + 2) (hf : n + 2 - sbc ≤ fuel) :
    frameSetLoop (fun _ => false) rb n fc fuel sbc sent
      = some (sent ++ ((rb.take n ++ [fc % 256, (fc / 256) % 256]).drop sbc).flatMap
          escapeByte) := by
  have hlen : (rb.take n ++ [fc % 256, (fc / 256) % 256]).length = n + 2 := by
    rw [List.length_append, List.length_take]; simp; omega
  induction fuel generalizing sbc sent with
  | zero =>
    have h0 : sbc = n + 2 := by omega
    subst h0
    unfold frameSetLoop
    rw [List.drop_eq_nil_of_le (by omega)]
    simp [FRAME_CHECK_SIZE]
  | succ f ih =>
    unfold frameSetLoop
    by_cases hlt : sbc < n + 2
    · have hmod : (sbc + 1) % 65536 = sbc + 1 := by omega
      rw [if_pos (by simpa [FRAME_CHECK_SIZE] using hlt)]
      have hd : (rb.take n ++ [fc % 256, (fc / 256) % 256]).drop sbc
          = (rb.take n ++ [fc % 256, (fc / 256) % 256]).getD sbc 0
            :: (rb.take n ++ [fc % 256, (fc / 256) % 256]).drop (sbc + 1) := by
        rw [List.getD_eq_getElem?_getD, List.getElem?_eq_getElem (by omega)]
        exact List.drop_eq_getElem_cons (by omega)
      rw [hd, frameBody_getD rb n fc sbc hn hlt, List.flatMap_cons]
      dsimp only
      rw [hmod]
      generalize (if sbc = n then fc % 256
        else if sbc = n + 1 then (fc / 256) % 256 else rb.getD sbc 0) = nb
      by_cases hsp : nb = START_OF_PACKET_BYTE ∨ nb = END_OF_PACKET_BYTE ∨ nb = ESCAPE_BYTE
      · rw [if_pos hsp]
        simp only [DataSend, Bool.false_eq_true, if_false, ne_eq, not_true_eq_false]
        rw [ih (sbc + 1) _ (by omega) (by omega)]
        simp [escapeByte, hsp]
      · rw [if_neg hsp]
        simp only [DataSend, Bool.false_eq_true, if_false, ne_eq, not_true_eq_false]
        rw [ih (sbc + 1) _ (by omega) (by omega)]
        simp [escapeByte, hsp]
    · have h0 : sbc = n + 2 := by omega
      subst h0
      rw [List.drop_eq_nil_of_le (by omega)]
      simp [FRAME_CHECK_SIZE]

theorem FrameCheckCalculate_congr (a b : List Nat) (n : Nat)
    (h : ∀ i, i < n → a.getD i 0 = b.getD i 0) :
    FrameCheckCalculate a n = FrameCheckCalculate b n := by
  have hfold : (List.range n).foldl (frameCheckStep a) 0
      = (List.range n).foldl (frameCheckStep b) 0 := by
    apply List.foldl_ext
    intro c i hi
    have hi2 : i < n := List.mem_range.mp hi
    simp only [frameCheckStep, h i hi2]
  unfold FrameCheckCalculate
  rw [hfold]

theorem FrameCheckCalculate_lt (a : List Nat) (n : Nat) : FrameCheckCalculate a n < 65536 := by
  have h : FrameCheckCalculate a n ≤ 65535 := by
    unfold FrameCheckCalculate
    exact Nat.sub_le _ _
  omega

theorem getD_lt_of_bytes (l : List Nat) (k : Nat) (h : ∀ b ∈ l, b < 256) :
    l.getD k 0 < 256 := by
  rw [List.getD_eq_getElem?_getD]
  by_cases hk : k < l.length
  · rw [List.getElem?_eq_getElem hk]
    exact h _ (List.getElem_mem hk)
  · rw [List.getElem?_eq_none (by omega)]
    simp

theorem frameCheckSequenceRead_eq (buf : List Nat) (i : Nat) (hi : 2 ≤ i) (h16 : i < 65536)
    (hb : ∀ b ∈ buf, b < 256) :
    frameCheckSequenceRead buf i = buf.getD (i - 2) 0 + 256 * buf.getD (i - 1) 0 := by
  have h1 := getD_lt_of_bytes buf (i - 2) hb
  have h2 := getD_lt_of_bytes buf (i - 1) hb
  have e1 : (i + 4294967296 - FRAME_CHECK_SIZE) % 4294967296 = i - 2 := by
    simp only [FRAME_CHECK_SIZE]; omega
  have e2 : i - 2 + 1 = i - 1 := by omega
  unfold frameCheckSequenceRead
  simp only [e1, e2]
  omega

/-- C2: with the window open and a receive index `i >= 2`, the END byte closes the
window; the result is COM_PASS exactly when `buffer[i-2] + 256 * buffer[i-1]` equals
`FrameCheckCalculate` over `buffer[0 .. i-2)`, and COM_TRANSPORT_FAILURE otherwise; the
buffer, the index and the other variables are unchanged. -/
theorem COM_FrameTransfer_end_of_packet (d : UartDecoder)
    (hopen : d.isReceiveWindowOpen = true) (hi : 2 ≤ d.receiveIndex)
    (h16 : d.receiveIndex < 65536) (hb : ∀ b ∈ d.receiveBuffer, b < 256) :
    ((COM_FrameTransfer (UartRx.byte END_OF_PACKET_BYTE false) d).1 = COM_PASS ↔
        d.receiveBuffer.getD (d.receiveIndex - 2) 0
            + 256 * d.receiveBuffer.getD (d.receiveIndex - 1) 0
          = FrameCheckCalculate d.receiveBuffer (d.receiveIndex - 2))
      ∧ ((COM_FrameTransfer (UartRx.byte END_OF_PACKET_BYTE false) d).1 ≠ COM_PASS →
          (COM_FrameTransfer (UartRx.byte END_OF_PACKET_BYTE false) d).1
            = COM_TRANSPORT_FAILURE)
      ∧ (COM_FrameTransfer (UartRx.byte END_OF_PACKET_BYTE false) d).2
          = { d with isReceiveWindowOpen := false } := by
  have e1 : (d.receiveIndex + 65536 - FRAME_CHECK_SIZE) % 65536 = d.receiveIndex - 2 := by
    simp only [FRAME_CHECK_SIZE]; omega
  have hne : END_OF_PACKET_BYTE ≠ START_OF_PACKET_BYTE := by decide
  unfold COM_FrameTransfer
  simp only [hne, if_false, hopen, if_true, e1,
    frameCheckSequenceRead_eq d.receiveBuffer d.receiveIndex hi h16 hb]
  by_cases hc : FrameCheckCalculate d.receiveBuffer (d.receiveIndex - 2)
      = d.receiveBuffer.getD (d.receiveIndex - 2) 0
        + 256 * d.receiveBuffer.getD (d.receiveIndex - 1) 0
  · rw [if_pos hc]
    exact ⟨⟨fun _ => hc.symm, fun _ => rfl⟩, fun h => absurd rfl h, rfl⟩
  · rw [if_neg hc]
    have hne2 : COM_TRANSPORT_FAILURE ≠ COM_PASS := by decide
    exact ⟨⟨fun h => absurd h hne2, fun h => absurd h.symm hc⟩, fun _ => rfl, rfl⟩

theorem COM_FrameTransfer_end_of_packet_witness :
    (decoderHoldingFrame.isReceiveWindowOpen = true
      ∧ 2 ≤ decoderHoldingFrame.receiveIndex
      ∧ decoderHoldingFrame.receiveIndex < 65536
      ∧ ∀ b ∈ decoderHoldingFrame.receiveBuffer, b < 256)
    ∧ ((COM_FrameTransfer (UartRx.byte END_OF_PACKET_BYTE false) decoderHoldingFrame).1
          = COM_PASS ↔
        decoderHoldingFrame.receiveBuffer.getD (decoderHoldingFrame.receiveIndex - 2) 0
            + 256 * decoderHoldingFrame.receiveBuffer.getD
                (decoderHoldingFrame.receiveIndex - 1) 0
          = FrameCheckCalculate decoderHoldingFrame.receiveBuffer
              (decoderHoldingFrame.receiveIndex - 2))
    ∧ ((COM_FrameTransfer (UartRx.byte END_OF_PACKET_BYTE false) decoderHoldingFrame).1
          ≠ COM_PASS →
        (COM_FrameTransfer (UartRx.byte END_OF_PACKET_BYTE false) decoderHoldingFrame).1
          = COM_TRANSPORT_FAILURE)
    ∧ (COM_FrameTransfer (UartRx.byte END_OF_PACKET_BYTE false) decoderHoldingFrame).2
        = { decoderHoldingFrame with isReceiveWindowOpen := false } :=
  ⟨⟨by decide, by decide, by decide, by decide⟩,
    COM_FrameTransfer_end_of_packet decoderHoldingFrame
      (by decide) (by decide) (by decide) (by decide)⟩

theorem frameBody_bytes (p : List Nat) (hp : ∀ b ∈ p, b < 256) :
    ∀ b ∈ frameBody p, b < 256 := by
  intro b hb
  unfold frameBody at hb
  rcases List.mem_append.mp hb with h | h
  · exact hp b h
  · simp only [List.mem_cons, List.mem_singleton, List.not_mem_nil, or_false] at h
    rcases h with h | h <;> omega

theorem frameBody_length (p : List Nat) : (frameBody p).length = p.length + 2 := by
  simp [frameBody]

theorem COM_FrameSet_noError (p tail : List Nat) (fuel : Nat) (hp : p ≠ [])
    (h16 : p.length + 2 < 65536) (hfuel : p.length + 2 ≤ fuel) :
    COM_FrameSet fuel (fun _ => false) (p ++ tail) p.length
      = some (COM_PASS,
          START_OF_PACKET_BYTE :: ((frameBody p).flatMap escapeByte ++ [END_OF_PACKET_BYTE])) := by
  have hlen : p.length ≠ 0 := fun h => hp (List.length_eq_zero.mp h)
  have hfc : FrameCheckCalculate (p ++ tail) p.length = FrameCheckCalculate p p.length := by
    apply FrameCheckCalculate_congr
    intro i hi
    rw [List.getD_eq_getElem?_getD, List.getD_eq_getElem?_getD, List.getElem?_append_left hi]
  unfold COM_FrameSet
  rw [if_neg hlen]
  simp only [DataSend, Bool.false_eq_true, if_false, if_true, List.nil_append]
  rw [frameSetLoop_noError (p ++ tail) p.length _ (by simp) h16 fuel 0 _ (by omega) (by omega)]
  simp only [List.drop_zero, List.take_left', hfc]
  simp [frameBody]

/-- The decoder accepts the frame of a payload: fed to a decoder whose window has just
been opened by START, the escaped frame body followed by END gives COM_BUSY for every
body byte and COM_PASS for END. -/
theorem feedBytes_frame (p buf0 : List Nat) (M : Nat) (hp : ∀ b ∈ p, b < 256)
    (hM : p.length + 2 ≤ M) (hM16 : M < 65536) (hbuf : M ≤ buf0.length) :
    feedBytes { MaxBufferLength := M, isReceiveWindowOpen := true, isEscapedByte := false,
                receiveBuffer := buf0, receiveIndex := 0 }
        ((frameBody p).flatMap escapeByte ++ [END_OF_PACKET_BYTE])
      = (List.replicate ((frameBody p).flatMap escapeByte).length COM_BUSY ++ [COM_PASS],
         { MaxBufferLength := M, isReceiveWindowOpen := false, isEscapedByte := false,
           receiveBuffer := frameBody p ++ buf0.drop (p.length + 2),
           receiveIndex := p.length + 2 }) := by
  have hbl := frameBody_length p
  rw [feedBytes_append, feedBytes_body (frameBody p) _ (frameBody_bytes p hp) rfl rfl
    (by dsimp only; omega) hM16]
  dsimp only
  rw [memcpyAt_eq _ _ _ (by omega), hbl]
  simp only [List.take_zero, List.nil_append, Nat.zero_add]
  have hfc : FrameCheckCalculate (frameBody p ++ List.drop (p.length + 2) buf0) p.length
      = FrameCheckCalculate p p.length := by
    apply FrameCheckCalculate_congr
    intro i hi
    unfold frameBody
    rw [List.getD_eq_getElem?_getD, List.getD_eq_getElem?_getD, List.append_assoc,
      List.getElem?_append_left hi]
  have hlt := FrameCheckCalculate_lt p p.length
  have hseq : frameCheckSequenceRead (frameBody p ++ List.drop (p.length + 2) buf0)
      (p.length + 2) = FrameCheckCalculate p p.length := by
    have e1 : (p.length + 2 + 4294967296 - FRAME_CHECK_SIZE) % 4294967296 = p.length := by
      simp only [FRAME_CHECK_SIZE]; omega
    unfold frameCheckSequenceRead
    simp only [e1]
    have g1 : (frameBody p ++ List.drop (p.length + 2) buf0).getD p.length 0
        = FrameCheckCalculate p p.length % 256 := by
      unfold frameBody
      rw [List.getD_eq_getElem?_getD, List.append_assoc,
        List.getElem?_append_right (Nat.le_refl _)]
      simp
    have g2 : (frameBody p ++ List.drop (p.length + 2) buf0).getD (p.length + 1) 0
        = (FrameCheckCalculate p p.length / 256) % 256 := by
      unfold frameBody
      rw [List.getD_eq_getElem?_getD, List.append_assoc,
        List.getElem?_append_right (Nat.le_succ _)]
      simp
    rw [g1, g2]
    omega
  have e2 : (p.length + 2 + 65536 - FRAME_CHECK_SIZE) % 65536 = p.length := by
    simp only [FRAME_CHECK_SIZE]; omega
  have hne : END_OF_PACKET_BYTE ≠ START_OF_PACKET_BYTE := by decide
  simp only [feedBytes, COM_FrameTransfer, hne, if_false, if_true, e2, hfc, hseq]

/-- C1: UART codec round trip.  For every non-empty payload `p` of bytes with
`|p| + 2 <= MaxBufferLength`, `COM_FrameSet` (all sends succeeding, enough fuel for its
loop) returns COM_PASS and emits a stream which, fed byte by byte into
`COM_FrameTransfer` from a freshly initialised decoder, gives COM_BUSY on every byte but
the last and COM_PASS on the last, and leaves the first `|p|` bytes of the receive
buffer equal to `p` and the receive index equal to `|p| + 2`. -/
theorem uart_codec_round_trip (p tail buf0 : List Nat) (M idx0 fuel : Nat)
    (hne : p ≠ []) (hp : ∀ b ∈ p, b < 256) (hM : p.length + 2 ≤ M) (hM16 : M < 65536)
    (hbuf : M ≤ buf0.length) (hfuel : p.length + 2 ≤ fuel) :
    ∃ stream : List Nat,
      COM_FrameSet fuel (fun _ => false) (p ++ tail) p.length = some (COM_PASS, stream)
      ∧ (feedBytes (COM_Initialize M buf0 idx0) stream).1
          = List.replicate (stream.length - 1) COM_BUSY ++ [COM_PASS]
      ∧ (feedBytes (COM_Initialize M buf0 idx0) stream).2.receiveBuffer.take p.length = p
      ∧ (feedBytes (COM_Initialize M buf0 idx0) stream).2.receiveIndex = p.length + 2 := by
  refine ⟨START_OF_PACKET_BYTE :: ((frameBody p).flatMap escapeByte ++ [END_OF_PACKET_BYTE]),
    COM_FrameSet_noError p tail fuel hne (by omega) hfuel, ?_⟩
  have hstart : feedBytes (COM_Initialize M buf0 idx0)
      (START_OF_PACKET_BYTE :: ((frameBody p).flatMap escapeByte ++ [END_OF_PACKET_BYTE]))
      = (COM_BUSY :: (List.replicate ((frameBody p).flatMap escapeByte).length COM_BUSY
            ++ [COM_PASS]),
         { MaxBufferLength := M, isReceiveWindowOpen := false, isEscapedByte := false,
           receiveBuffer := frameBody p ++ buf0.drop (p.length + 2),
           receiveIndex := p.length + 2 }) := by
    rw [feedBytes]
    simp only [COM_FrameTransfer, COM_Initialize, if_true]
    rw [feedBytes_frame p buf0 M hp hM hM16 hbuf]
  rw [hstart]
  refine ⟨?_, ?_, rfl⟩
  · simp only [List.length_cons, List.length_append, List.length_nil, Nat.add_sub_cancel,
      Nat.zero_add]
    rw [List.replicate_succ, List.cons_append]
  · simp [frameBody]

theorem uart_codec_round_trip_witness :
    (([0x56, 0x9E, 0xCC] : List Nat) ≠ []
      ∧ (∀ b ∈ ([0x56, 0x9E, 0xCC] : List Nat), b < 256)
      ∧ ([0x56, 0x9E, 0xCC] : List Nat).length + 2 ≤ 5
      ∧ 5 < 65536
      ∧ 5 ≤ ([0, 0, 0, 0, 0] : List Nat).length
      ∧ ([0x56, 0x9E, 0xCC] : List Nat).length + 2 ≤ 5)
    ∧ ∃ stream : List Nat,
      COM_FrameSet 5 (fun _ => false) ([0x56, 0x9E, 0xCC] ++ [7, 7])
          ([0x56, 0x9E, 0xCC] : List Nat).length = some (COM_PASS, stream)
      ∧ (feedBytes (COM_Initialize 5 [0, 0, 0, 0, 0] 3) stream).1
          = List.replicate (stream.length - 1) COM_BUSY ++ [COM_PASS]
      ∧ (feedBytes (COM_Initialize 5 [0, 0, 0, 0, 0] 3) stream).2.receiveBuffer.take
            ([0x56, 0x9E, 0xCC] : List Nat).length
          = [0x56, 0x9E, 0xCC]
      ∧ (feedBytes (COM_Initialize 5 [0, 0, 0, 0, 0] 3) stream).2.receiveIndex
          = ([0x56, 0x9E, 0xCC] : List Nat).length + 2 :=
  ⟨⟨by decide, by decide, by decide, by decide, by decide, by decide⟩,
    uart_codec_round_trip [0x56, 0x9E, 0xCC] [7, 7] [0, 0, 0, 0, 0] 5 3 5
      (by decide) (by decide) (by decide) (by decide) (by decide) (by decide)⟩

/-! ### Command processor -/

theorem DownloadAreaErase_terminates (cfg : BuildConfig)
    (hpos : 0 < cfg.NVMCTRL_FLASH_ROWSIZE) (hlt : cfg.NVMCTRL_FLASH_ROWSIZE < 4294967296)
    (fuel address : Nat) (ops : List NvmOp)
    (h : BL_STAGING_IMAGE_END ≤ address
      ∨ (cfg.NVMCTRL_FLASH_ROWSIZE ≤ 4294967296 - BL_STAGING_IMAGE_END
          ∧ BL_STAGING_IMAGE_END - address ≤ fuel)
      ∨ (4294967296 - BL_STAGING_IMAGE_END < cfg.NVMCTRL_FLASH_ROWSIZE
          ∧ address + 1 ≤ fuel)) :
    ∃ ops1, DownloadAreaErase cfg fuel address ops = some ops1 := by
  have hend : BL_STAGING_IMAGE_END = 131071 := rfl
  rw [hend] at h
  induction fuel generalizing address ops with
  | zero =>
    unfold DownloadAreaErase
    rw [hend]
    have hge : ¬ address < 131071 := by omega
    rw [if_neg hge]
    exact ⟨ops, rfl⟩
  | succ f ih =>
    unfold DownloadAreaErase
    rw [hend]
    by_cases hc : address < 131071
    · rw [if_pos hc]
      dsimp only
      apply ih
      rcases h with h | h | h
      · omega
      · right; left
        omega
      · by_cases hw : address + cfg.NVMCTRL_FLASH_ROWSIZE < 4294967296
        · left
          omega
        · right; right
          omega
    · rw [if_neg hc]
      exact ⟨ops, rfl⟩

theorem unlockCommandStatus_cases (cfg : BuildConfig) (h : Nat)
    (m : bl_unlock_boot_metadata_t) :
    (unlockChecksHold cfg h m → unlockCommandStatus cfg h m = BL_FAIL)
      ∧ (¬ unlockChecksHold cfg h m →
          unlockCommandStatus cfg h m = BL_ERROR_VERIFICATION_FAIL) := by
  unfold unlockChecksHold unlockCommandStatus
  constructor
  · rintro ⟨h1, h2, h3, h4, h5⟩
    have h2b : ¬ m.imageVersionMinor > BL_IMAGE_FORMAT_MINOR_VERSION := by omega
    simp only [h1, h3, h4, h5, h2b, ne_eq, not_true_eq_false, if_false]
  · intro hn
    by_cases h5 : m.startAddress = BL_APPLICATION_START_ADDRESS
    · by_cases h4 : m.maxPayloadSize = BL_WRITE_BYTE_LENGTH cfg
      · by_cases h3 : m.deviceId = h &&& 0xFFFFF0FF
        · by_cases h1 : m.imageVersionMajor = BL_IMAGE_FORMAT_MAJOR_VERSION
          · have h2 : m.imageVersionMinor > BL_IMAGE_FORMAT_MINOR_VERSION := by
              by_contra hc
              exact hn ⟨h1, by omega, h3, h4, h5⟩
            simp only [h1, h2, h3, h4, h5, ne_eq, not_true_eq_false, if_false, if_true]
          · simp only [h1, h3, h4, h5, ne_eq, not_true_eq_false, not_false_eq_true, if_false,
              if_true]
        · have h3b : ¬ (h &&& 0xFFFFF0FF) = m.deviceId := fun e => h3 e.symm
          simp only [h3b, h4, h5, ne_eq, not_true_eq_false, not_false_eq_true, if_false,
            if_true]
      · simp only [h4, h5, ne_eq, not_true_eq_false, not_false_eq_true, if_false, if_true]
    · simp only [h5, ne_eq, not_false_eq_true, if_true]

theorem BootloaderProcessorUnlock_reject (cfg : BuildConfig) (fuel h : Nat)
    (bufferPtr : List Nat) (c : CoreState)
    (hn : ¬ unlockChecksHold cfg h (metadataPacketRead bufferPtr)) :
    BootloaderProcessorUnlock cfg fuel h bufferPtr c = some (BL_ERROR_VERIFICATION_FAIL, c) := by
  unfold BootloaderProcessorUnlock
  dsimp only
  rw [(unlockCommandStatus_cases cfg h _).2 hn]
  simp

theorem BootloaderProcessorUnlock_accept (cfg : BuildConfig) (fuel h : Nat)
    (bufferPtr : List Nat) (c : CoreState)
    (hpos : 0 < cfg.NVMCTRL_FLASH_ROWSIZE) (hlt : cfg.NVMCTRL_FLASH_ROWSIZE < 4294967296)
    (hfuel : BL_STAGING_IMAGE_END ≤ fuel)
    (hy : unlockChecksHold cfg h (metadataPacketRead bufferPtr)) :
    ∃ ops, DownloadAreaErase cfg fuel BL_STAGING_IMAGE_START c.nvmOps = some ops
      ∧ BootloaderProcessorUnlock cfg fuel h bufferPtr c
          = some (BL_PASS, { c with bootloaderCoreUnlocked := true, nvmOps := ops }) := by
  have hend : BL_STAGING_IMAGE_END = 131071 := rfl
  have hstart : BL_STAGING_IMAGE_START = 4096 := rfl
  obtain ⟨ops, hops⟩ := DownloadAreaErase_terminates cfg hpos hlt fuel BL_STAGING_IMAGE_START
    c.nvmOps (by rw [hend, hstart]; rw [hend] at hfuel; omega)
  refine ⟨ops, hops, ?_⟩
  unfold BootloaderProcessorUnlock
  dsimp only
  rw [(unlockCommandStatus_cases cfg h _).1 hy, hops]
  simp

/-- C8: unlock decision.  With a positive row size (a 32-bit constant) and enough fuel
for the staging erase, `BootloaderProcessorUnlock` returns BL_PASS with the latch set
exactly when all five checks hold on the decoded metadata; in every other case it
returns BL_ERROR_VERIFICATION_FAIL and leaves the core state, latch included, as it
was.  It never returns BL_FAIL. -/
theorem BootloaderProcessorUnlock_decision (cfg : BuildConfig) (fuel h : Nat)
    (bufferPtr : List Nat) (c : CoreState)
    (hpos : 0 < cfg.NVMCTRL_FLASH_ROWSIZE) (hlt : cfg.NVMCTRL_FLASH_ROWSIZE < 4294967296)
    (hfuel : BL_STAGING_IMAGE_END ≤ fuel) :
    ((∃ c1, BootloaderProcessorUnlock cfg fuel h bufferPtr c = some (BL_PASS, c1)
          ∧ c1.bootloaderCoreUnlocked = true)
        ↔ unlockChecksHold cfg h (metadataPacketRead bufferPtr))
      ∧ (¬ unlockChecksHold cfg h (metadataPacketRead bufferPtr) →
          BootloaderProcessorUnlock cfg fuel h bufferPtr c
            = some (BL_ERROR_VERIFICATION_FAIL, c))
      ∧ (∀ r c1, BootloaderProcessorUnlock cfg fuel h bufferPtr c = some (r, c1) →
          r ≠ BL_FAIL) := by
  by_cases hy : unlockChecksHold cfg h (metadataPacketRead bufferPtr)
  · obtain ⟨ops, _, hacc⟩ :=
      BootloaderProcessorUnlock_accept cfg fuel h bufferPtr c hpos hlt hfuel hy
    refine ⟨⟨fun _ => hy, fun _ => ⟨_, hacc, rfl⟩⟩, fun hn => absurd hy hn, ?_⟩
    intro r c1 hr
    rw [hacc] at hr
    simp only [Option.some.injEq, Prod.mk.injEq] at hr
    rw [← hr.1]
    decide
  · have hrej := BootloaderProcessorUnlock_reject cfg fuel h bufferPtr c hy
    refine ⟨⟨?_, fun hc => absurd hc hy⟩, fun _ => hrej, ?_⟩
    · rintro ⟨c1, hc1, _⟩
      rw [hrej] at hc1
      simp at hc1
    · intro r c1 hr
      rw [hrej] at hr
      simp only [Option.some.injEq, Prod.mk.injEq] at hr
      rw [← hr.1]
      decide

theorem BootloaderProcessorUnlock_decision_witness :
    (0 < exampleConfig.NVMCTRL_FLASH_ROWSIZE
      ∧ exampleConfig.NVMCTRL_FLASH_ROWSIZE < 4294967296
      ∧ BL_STAGING_IMAGE_END ≤ 131071)
    ∧ ∃ c1, BootloaderProcessorUnlock exampleConfig 131071 0x11070200 unlockBlockValid
          lockedCore = some (BL_PASS, c1) ∧ c1.bootloaderCoreUnlocked = true :=
  ⟨⟨by decide, by decide, by decide⟩,
    (BootloaderProcessorUnlock_decision exampleConfig 131071 0x11070200 unlockBlockValid
      lockedCore (by decide) (by decide) (by decide)).1.mpr (by decide)⟩

/-- C9, as stated, fails: an Unlock block whose byte [3] differs from
BL_IMAGE_FORMAT_MAJOR_VERSION (byte [3] = 2, byte [5] = 1) is accepted with BL_PASS. -/
theorem unlock_byte3_counterexample :
    unlockBlockByte3.getD 3 0 ≠ BL_IMAGE_FORMAT_MAJOR_VERSION
      ∧ ∃ c1, BootloaderProcessorUnlock exampleConfig 131071 0x11070200 unlockBlockByte3
          lockedCore = some (BL_PASS, c1) := by
  refine ⟨by decide, ?_⟩
  obtain ⟨ops, _, hacc⟩ := BootloaderProcessorUnlock_accept exampleConfig 131071 0x11070200
    unlockBlockByte3 lockedCore (by decide) (by decide) (by decide) (by decide)
  exact ⟨_, hacc⟩

/-- C9, amended: `BootloaderProcessorUnlock` takes the patch version from byte [3] of
the block, the minor version from byte [4] and the major version from byte [5] (device
id from bytes [6:10], maxPayloadSize from [10:12], start address from [12:16],
little-endian); so every Unlock block whose byte [5] differs from
BL_IMAGE_FORMAT_MAJOR_VERSION is rejected with BL_ERROR_VERIFICATION_FAIL whatever its
other bytes, the hardware device id and the core state, which is left as it was. -/
theorem unlock_wire_layout (cfg : BuildConfig) (fuel h : Nat) (bufferPtr : List Nat)
    (c : CoreState) (hmajor : bufferPtr.getD 5 0 ≠ BL_IMAGE_FORMAT_MAJOR_VERSION) :
    (metadataPacketRead bufferPtr).imageVersionPatch = bufferPtr.getD 3 0
      ∧ (metadataPacketRead bufferPtr).imageVersionMinor = bufferPtr.getD 4 0
      ∧ (metadataPacketRead bufferPtr).imageVersionMajor = bufferPtr.getD 5 0
      ∧ (metadataPacketRead bufferPtr).deviceId
          = bufferPtr.getD 6 0 + 256 * bufferPtr.getD 7 0 + 65536 * bufferPtr.getD 8 0
            + 16777216 * bufferPtr.getD 9 0
      ∧ (metadataPacketRead bufferPtr).maxPayloadSize
          = bufferPtr.getD 10 0 + 256 * bufferPtr.getD 11 0
      ∧ (metadataPacketRead bufferPtr).startAddress
          = bufferPtr.getD 12 0 + 256 * bufferPtr.getD 13 0 + 65536 * bufferPtr.getD 14 0
            + 16777216 * bufferPtr.getD 15 0
      ∧ BootloaderProcessorUnlock cfg fuel h bufferPtr c
          = some (BL_ERROR_VERIFICATION_FAIL, c) := by
  refine ⟨rfl, rfl, rfl, rfl, rfl, rfl, ?_⟩
  apply BootloaderProcessorUnlock_reject
  intro hy
  exact hmajor hy.1

theorem unlock_wire_layout_witness :
    unlockBlockBadMajor.getD 5 0 ≠ BL_IMAGE_FORMAT_MAJOR_VERSION
      ∧ BootloaderProcessorUnlock exampleConfig 131071 0x11070200 unlockBlockBadMajor
          lockedCore = some (BL_ERROR_VERIFICATION_FAIL, lockedCore) :=
  ⟨by decide,
    (unlock_wire_layout exampleConfig 131071 0x11070200 unlockBlockBadMajor lockedCore
      (by decide)).2.2.2.2.2.2⟩

/-- C10, the code at the failing input: with the latch set by an earlier Unlock, an
Unlock block that fails the major version check is answered with
BL_ERROR_VERIFICATION_FAIL, no flash primitive is invoked, and the latch is still set
when `BL_BootCommandProcess` returns. -/
theorem failed_unlock_keeps_latch :
    ¬ unlockChecksHold exampleConfig 0x11070200 (metadataPacketRead unlockBlockBadMajor)
      ∧ BL_BootCommandProcess exampleConfig 131071 0x11070200 true unlockBlockBadMajor 16
          unlockedCore = some (BL_ERROR_VERIFICATION_FAIL, unlockedCore)
      ∧ unlockedCore.bootloaderCoreUnlocked = true
      ∧ unlockedCore.nvmOps = [] := by
  refine ⟨by decide, ?_, rfl, rfl⟩
  have hty : unlockBlockBadMajor.getD 2 0 = UNLOCK_BOOTLOADER := by decide
  unfold BL_BootCommandProcess
  simp only [hty, if_true]
  exact BootloaderProcessorUnlock_reject _ _ _ _ _ (by decide)

/-! ### FTP engine -/

theorem memcpyAt_length (bs buf : List Nat) (i : Nat) :
    (memcpyAt buf i bs).length = buf.length := by
  induction bs generalizing buf i with
  | nil => rfl
  | cons b bs ih => rw [memcpyAt, ih, List.length_set]

theorem ResponseSet_length (buf : List Nat) (payload : Option (List Nat)) (st sq n : Nat) :
    (ResponseSet buf payload st sq n).1.length = buf.length := by
  unfold ResponseSet
  cases payload with
  | none => simp
  | some pl => simp [memcpyAt_length]

theorem ResponseSet_retry (buf : List Nat) (hlen : 3 ≤ buf.length) (st sq code : Nat) :
    (ResponseSet buf (some [code]) st sq 1).1.take 3 = [sq % 256, st % 256, code]
      ∧ (ResponseSet buf (some [code]) st sq 1).2 = 3 := by
  match buf, hlen with
  | x :: y :: z :: rest, _ =>
    simp [ResponseSet, memcpyAt, SEQUENCE_BYTE_INDEX, FTP_BYTE_INDEX, FILE_DATA_INDEX,
      COMMAND_DATA_SIZE, SEQUENCE_DATA_SIZE]

theorem retryResponseSet_frame (s : FtpState) (code : Nat)
    (hlen : 3 ≤ s.FTP_RETRY_BUFFER.length) :
    (retryResponseSet s code).FTP_RETRY_BUFFER.take 3
        = [(s.ftpHelper.nextSequenceNumber ^^^ RETRY_TRANSFER_bm) % 256,
            FTP_COMMAND_NOT_EXECUTED, code]
      ∧ (retryResponseSet s code).ftpResponseLength = 3
      ∧ (retryResponseSet s code).FTP_RETRY_BUFFER.length = s.FTP_RETRY_BUFFER.length
      ∧ (retryResponseSet s code).ftpHelper = s.ftpHelper
      ∧ (retryResponseSet s code).core = s.core
      ∧ (retryResponseSet s code).resetPending = s.resetPending
      ∧ (retryResponseSet s code).dispatchCount = s.dispatchCount := by
  have h := ResponseSet_retry s.FTP_RETRY_BUFFER hlen FTP_COMMAND_NOT_EXECUTED
    (s.ftpHelper.nextSequenceNumber ^^^ RETRY_TRANSFER_bm) code
  refine ⟨h.1, h.2, ?_, rfl, rfl, rfl, rfl⟩
  exact ResponseSet_length _ _ _ _ _

theorem SequenceNumberValidate_invariant (s : FtpState) (h : EngineInvariant s) :
    EngineInvariant (SequenceNumberValidate s).2 := by
  obtain ⟨hlen, hnext⟩ := h
  have hand : ∀ x : Nat, x &&& MAX_SEQUENCE_VALUE ≤ MAX_SEQUENCE_VALUE :=
    fun x => Nat.and_le_right
  unfold SequenceNumberValidate
  dsimp only
  split_ifs
  · exact ⟨hlen, hand _⟩
  · exact ⟨hlen, hand _⟩
  · exact ⟨hlen, hnext⟩
  · refine ⟨?_, hnext⟩
    unfold retryResponseSet
    dsimp only
    rw [ResponseSet_length]
    exact hlen

theorem responseSet_ftpHelper (s : FtpState) (pl : Option (List Nat)) (st n : Nat) :
    (responseSet s pl st n).ftpHelper = s.ftpHelper := rfl

theorem responseSet_retryBuffer (s : FtpState) (pl : Option (List Nat)) (st n : Nat) :
    (responseSet s pl st n).FTP_RETRY_BUFFER = s.FTP_RETRY_BUFFER := rfl

theorem ClientInfoResponseSet_ftpHelper (cfg : BuildConfig) (s : FtpState) :
    (ClientInfoResponseSet cfg s).ftpHelper = s.ftpHelper := by
  unfold ClientInfoResponseSet
  rfl

theorem ClientInfoResponseSet_retryBuffer (cfg : BuildConfig) (s : FtpState) :
    (ClientInfoResponseSet cfg s).FTP_RETRY_BUFFER = s.FTP_RETRY_BUFFER := by
  unfold ClientInfoResponseSet
  rfl

theorem OperationalBlockExecute_frame (cfg : BuildConfig) (fuel : Nat) (env : TaskEnv)
    (s t : FtpState) (r : bl_result_t)
    (h : OperationalBlockExecute cfg fuel env s = some (r, t)) :
    t.ftpHelper = s.ftpHelper ∧ t.FTP_RETRY_BUFFER = s.FTP_RETRY_BUFFER := by
  unfold OperationalBlockExecute at h
  simp only [] at h
  split_ifs at h
  all_goals first
    | (simp only [Option.some.injEq, Prod.mk.injEq] at h
       obtain ⟨_, rfl⟩ := h
       simp only [responseSet_ftpHelper, responseSet_retryBuffer,
         ClientInfoResponseSet_ftpHelper, ClientInfoResponseSet_retryBuffer, and_self])
    | (split at h
       · exact absurd h (by simp)
       · split_ifs at h
         all_goals
           simp only [Option.some.injEq, Prod.mk.injEq] at h
           obtain ⟨_, rfl⟩ := h
           simp only [responseSet_ftpHelper, responseSet_retryBuffer, and_self])

theorem retryResponseSet_invariant (s : FtpState) (code : Nat) (h : EngineInvariant s) :
    EngineInvariant (retryResponseSet s code) := by
  refine ⟨?_, h.2⟩
  unfold retryResponseSet
  dsimp only
  rw [ResponseSet_length]
  exact h.1

theorem ftpTaskReceive_invariant (cfg : BuildConfig) (fuel : Nat) (env : TaskEnv)
    (s t : FtpState) (r : bl_result_t)
    (h : ftpTaskReceive cfg fuel env s = some (r, t)) (hinv : EngineInvariant s) :
    EngineInvariant t := by
  unfold ftpTaskReceive at h
  simp only [] at h
  split_ifs at h
  · simp only [Option.some.injEq, Prod.mk.injEq] at h
    obtain ⟨_, rfl⟩ := h
    exact retryResponseSet_invariant _ _ hinv
  · simp only [Option.some.injEq, Prod.mk.injEq] at h
    obtain ⟨_, rfl⟩ := h
    exact retryResponseSet_invariant _ _ hinv
  · split at h
    · exact absurd h (by simp)
    · rename_i pr s1 hobe
      simp only [Option.some.injEq, Prod.mk.injEq] at h
      obtain ⟨_, rfl⟩ := h
      have hf := OperationalBlockExecute_frame _ _ _ _ _ _ hobe
      have hv := SequenceNumberValidate_invariant s hinv
      exact ⟨by rw [← hv.1]; exact congrArg List.length hf.2,
        by have := hv.2; rw [← hf.1] at this; exact this⟩
  · simp only [Option.some.injEq, Prod.mk.injEq] at h
    obtain ⟨_, rfl⟩ := h
    exact SequenceNumberValidate_invariant s hinv
  · simp only [Option.some.injEq, Prod.mk.injEq] at h
    obtain ⟨_, rfl⟩ := h
    exact retryResponseSet_invariant _ _ hinv
  · simp only [Option.some.injEq, Prod.mk.injEq] at h
    obtain ⟨_, rfl⟩ := h
    exact hinv
  · simp only [Option.some.injEq, Prod.mk.injEq] at h
    obtain ⟨_, rfl⟩ := h
    exact hinv
  · simp only [Option.some.injEq, Prod.mk.injEq] at h
    obtain ⟨_, rfl⟩ := h
    exact hinv

theorem ftpTaskSend_invariant (env : TaskEnv) (r r1 : bl_result_t) (s t : FtpState)
    (fs : Option FrameSetCall)
    (h : ftpTaskSend env r s = TaskOutcome.returned r1 t fs) (hinv : EngineInvariant s) :
    EngineInvariant t := by
  unfold ftpTaskSend at h
  simp only [] at h
  split_ifs at h
  all_goals
    simp only [TaskOutcome.returned.injEq] at h
    obtain ⟨_, rfl, _⟩ := h
    exact hinv

theorem FTP_Task_invariant (cfg : BuildConfig) (fuel : Nat) (env : TaskEnv)
    (s t : FtpState) (r : bl_result_t) (fs : Option FrameSetCall)
    (h : FTP_Task cfg fuel env s = some (TaskOutcome.returned r t fs))
    (hinv : EngineInvariant s) : EngineInvariant t := by
  unfold FTP_Task at h
  simp only [] at h
  split_ifs at h
  · simp at h
  · split at h
    · exact absurd h (by simp)
    · rename_i pr s2 hrecv
      simp only [Option.some.injEq] at h
      exact ftpTaskSend_invariant _ _ _ _ _ _ h
        (ftpTaskReceive_invariant _ _ _ _ _ _ hrecv hinv)

theorem Reachable_invariant (cfg : BuildConfig) (s : FtpState) (h : Reachable cfg s) :
    EngineInvariant s := by
  induction h with
  | initial => exact ⟨by simp [FtpState.initial], by simp [FtpState.initial, MAX_SEQUENCE_VALUE]⟩
  | step fuel env s r t fs _ htask ih => exact FTP_Task_invariant _ _ _ _ _ _ _ htask ih

/-- C4, the code at the failing input: after a GetClientInfo command has been dispatched
and answered with a 23-byte response, and a corrupted frame has been answered with a
3-byte retry response, the retransmitted command (same sequence number, no sync flag) is
not dispatched again, but `COM_FrameSet` receives only the first 3 bytes of the earlier
response, with length 3 instead of 23. -/
theorem retransmission_after_retry_truncated :
    outcomeFrameSet (FTP_Task exampleConfig 0 envGetClientInfo (FtpState.initial exampleConfig))
        = some { bytes := [0, 1, 1, 3, 1, 2, 0, 2, 3, 71, 0, 1, 3, 3, 0, 0x64, 0,
                   4, 4, 0x60, 0xE3, 0x16, 0],
                 responseLength := 23 }
      ∧ stateAfterClientInfo.dispatchCount = 1
      ∧ outcomeFrameSet (FTP_Task exampleConfig 0 envCorrupted stateAfterClientInfo)
          = some { bytes := [0x41, 4, 0], responseLength := 3 }
      ∧ envDuplicate.comResult = COM_PASS
      ∧ envDuplicate.receiveBuffer.getD 0 0 &&& SYNC_TRANSFER_bm = 0
      ∧ envDuplicate.receiveBuffer.getD 0 0 &&& SEQUENCE_NUMBER_bm
          = stateAfterCorrupted.ftpHelper.lastSequenceNumber
      ∧ outcomeFrameSet (FTP_Task exampleConfig 0 envDuplicate stateAfterCorrupted)
          = some { bytes := [0, 1, 1], responseLength := 3 }
      ∧ (outcomeState stateAfterCorrupted
          (FTP_Task exampleConfig 0 envDuplicate stateAfterCorrupted)).dispatchCount = 1 := by
  set_option maxRecDepth 100000 in decide

/-- C5, as stated, fails: a frame with the sync flag and the sequence field 31 is
accepted, and afterwards the next sequence number is 0, not (31 + 1) mod 64 = 32. -/
theorem sequence_advance_mod64_counterexample :
    stateSyncFrame31.FTP_RECEIVE_BUFFER.getD SEQUENCE_BYTE_INDEX 0 &&& SYNC_TRANSFER_bm ≠ 0
      ∧ stateSyncFrame31.FTP_RECEIVE_BUFFER.getD SEQUENCE_BYTE_INDEX 0 % 64 = 31
      ∧ (SequenceNumberValidate stateSyncFrame31).1 = true
      ∧ (SequenceNumberValidate stateSyncFrame31).2.ftpHelper.nextSequenceNumber = 0
      ∧ (SequenceNumberValidate stateSyncFrame31).2.ftpHelper.nextSequenceNumber
          ≠ (stateSyncFrame31.FTP_RECEIVE_BUFFER.getD SEQUENCE_BYTE_INDEX 0 % 64 + 1) % 64 := by
  set_option maxRecDepth 100000 in decide

/-- C5, amended: for every engine state and every frame that `SequenceNumberValidate`
accepts (sync flag set, or sequence field equal to nextSequenceNumber), it returns true
and afterwards lastSequenceNumber equals the frame's 6-bit sequence field `s` and
nextSequenceNumber equals `(s + 1) mod 32`. -/
theorem SequenceNumberValidate_advance (s : FtpState)
    (hacc : s.FTP_RECEIVE_BUFFER.getD SEQUENCE_BYTE_INDEX 0 &&& SYNC_TRANSFER_bm ≠ 0
      ∨ s.FTP_RECEIVE_BUFFER.getD SEQUENCE_BYTE_INDEX 0 % 64
          = s.ftpHelper.nextSequenceNumber) :
    (SequenceNumberValidate s).1 = true
      ∧ (SequenceNumberValidate s).2.ftpHelper.lastSequenceNumber
          = s.FTP_RECEIVE_BUFFER.getD SEQUENCE_BYTE_INDEX 0 % 64
      ∧ (SequenceNumberValidate s).2.ftpHelper.nextSequenceNumber
          = (s.FTP_RECEIVE_BUFFER.getD SEQUENCE_BYTE_INDEX 0 % 64 + 1) % 32 := by
  have hfield : ∀ x : Nat, x &&& SEQUENCE_NUMBER_bm = x % 64 :=
    fun x => Nat.and_pow_two_sub_one_eq_mod x 6
  have hwrap : ∀ x : Nat, x &&& MAX_SEQUENCE_VALUE = x % 32 :=
    fun x => Nat.and_pow_two_sub_one_eq_mod x 5
  unfold SequenceNumberValidate
  simp only [hfield, hwrap]
  by_cases hsync : s.FTP_RECEIVE_BUFFER.getD SEQUENCE_BYTE_INDEX 0 &&& SYNC_TRANSFER_bm ≠ 0
  · rw [if_pos hsync]
    exact ⟨rfl, rfl, rfl⟩
  · rw [if_neg hsync]
    have hnext := hacc.resolve_left hsync
    rw [if_pos hnext]
    exact ⟨rfl, rfl, rfl⟩

theorem SequenceNumberValidate_advance_witness :
    (stateSyncFrame31.FTP_RECEIVE_BUFFER.getD SEQUENCE_BYTE_INDEX 0 &&& SYNC_TRANSFER_bm ≠ 0
      ∨ stateSyncFrame31.FTP_RECEIVE_BUFFER.getD SEQUENCE_BYTE_INDEX 0 % 64
          = stateSyncFrame31.ftpHelper.nextSequenceNumber)
    ∧ (SequenceNumberValidate stateSyncFrame31).1 = true
    ∧ (SequenceNumberValidate stateSyncFrame31).2.ftpHelper.lastSequenceNumber
        = stateSyncFrame31.FTP_RECEIVE_BUFFER.getD SEQUENCE_BYTE_INDEX 0 % 64
    ∧ (SequenceNumberValidate stateSyncFrame31).2.ftpHelper.nextSequenceNumber
        = (stateSyncFrame31.FTP_RECEIVE_BUFFER.getD SEQUENCE_BYTE_INDEX 0 % 64 + 1) % 32 :=
  ⟨Or.inl (by decide), SequenceNumberValidate_advance stateSyncFrame31 (Or.inl (by decide))⟩

theorem ftpTaskSend_resend (env : TaskEnv) (r : bl_result_t) (s : FtpState)
    (h : s.ftpHelper.resendRequired = true) :
    ftpTaskSend env r s
      = TaskOutcome.returned
          (if env.frameSetResult ≠ COM_PASS then BL_ERROR_COMMUNICATION_FAIL else r)
          { s with ftpHelper := { s.ftpHelper with resendRequired := false } }
          (some { bytes := s.FTP_RETRY_BUFFER.take s.ftpResponseLength
                  responseLength := s.ftpResponseLength }) := by
  unfold ftpTaskSend
  rw [if_pos h]

theorem ftpTaskReceive_transport_failure (cfg : BuildConfig) (fuel : Nat) (env : TaskEnv)
    (s : FtpState) (hcom : env.comResult = COM_TRANSPORT_FAILURE) :
    ftpTaskReceive cfg fuel env s
      = some (BL_ERROR_FRAME_VALIDATION_FAIL,
          retryResponseSet { s with ftpHelper := { s.ftpHelper with resendRequired := true } }
            FTP_INTEGRITY_CHECK_ERROR) := by
  have h1 : ¬ (COM_TRANSPORT_FAILURE = COM_BUFFER_ERROR) := by decide
  have h2 : ¬ (COM_TRANSPORT_FAILURE = COM_PASS) := by decide
  unfold ftpTaskReceive
  rw [hcom, if_neg h1, if_neg h2, if_pos rfl]

theorem ftpTaskReceive_out_of_sequence (cfg : BuildConfig) (fuel : Nat) (env : TaskEnv)
    (s : FtpState) (hcom : env.comResult = COM_PASS)
    (hcount : MIN_TRANSFER_SIZE ≤ s.ftpReceiveCount)
    (hsync : s.FTP_RECEIVE_BUFFER.getD SEQUENCE_BYTE_INDEX 0 &&& SYNC_TRANSFER_bm = 0)
    (hnext : s.FTP_RECEIVE_BUFFER.getD SEQUENCE_BYTE_INDEX 0 % 64
      ≠ s.ftpHelper.nextSequenceNumber)
    (hlast : s.FTP_RECEIVE_BUFFER.getD SEQUENCE_BYTE_INDEX 0 % 64
      ≠ s.ftpHelper.lastSequenceNumber) :
    ftpTaskReceive cfg fuel env s
      = some (BL_ERROR_FRAME_VALIDATION_FAIL,
          ParserDataReset cfg (retryResponseSet
            { s with ftpHelper := { s.ftpHelper with
                currentSequenceNumber := s.FTP_RECEIVE_BUFFER.getD SEQUENCE_BYTE_INDEX 0 % 64
                resendRequired := true } }
            FTP_INVALID_SEQUENCE_NUMBER_ERROR)) := by
  have hfield : ∀ x : Nat, x &&& SEQUENCE_NUMBER_bm = x % 64 :=
    fun x => Nat.and_pow_two_sub_one_eq_mod x 6
  have h1 : ¬ (COM_PASS = COM_BUFFER_ERROR) := by decide
  have h2 : ¬ (s.ftpReceiveCount < MIN_TRANSFER_SIZE) := by omega
  have hv : SequenceNumberValidate s
      = (false, retryResponseSet
          { s with ftpHelper := { s.ftpHelper with
              currentSequenceNumber := s.FTP_RECEIVE_BUFFER.getD SEQUENCE_BYTE_INDEX 0 % 64
              resendRequired := true } }
          FTP_INVALID_SEQUENCE_NUMBER_ERROR) := by
    unfold SequenceNumberValidate
    simp only [hfield, hsync, ne_eq, not_true_eq_false, if_false]
    rw [if_neg hnext, if_neg hlast]
  unfold ftpTaskReceive
  rw [hcom, if_neg h1, if_pos rfl, if_neg h2]
  simp only [hv, Bool.false_eq_true, if_false]

theorem retry_sequence_byte_bits :
    ∀ n : Nat, n ≤ 31 →
      (n ^^^ RETRY_TRANSFER_bm) % 256 = n ^^^ RETRY_TRANSFER_bm
        ∧ (n ^^^ RETRY_TRANSFER_bm) &&& RETRY_TRANSFER_bm = RETRY_TRANSFER_bm
        ∧ (n ^^^ RETRY_TRANSFER_bm) &&& SYNC_TRANSFER_bm = 0
        ∧ (n ^^^ RETRY_TRANSFER_bm) &&& SEQUENCE_NUMBER_bm = n := by
  decide

/-- C6: out-of-sequence request.  In every reachable engine state in which `FTP_Task`
gets to `COM_FrameTransfer` (no reset is pending, or the adapter is busy), for every
checksum-valid frame of at least MIN_TRANSFER_SIZE bytes without the sync flag whose
sequence field equals neither nextSequenceNumber nor lastSequenceNumber, `FTP_Task`
dispatches no command, leaves the core, lastSequenceNumber and nextSequenceNumber
unchanged and hands to `COM_FrameSet` the 3-byte retry response
[nextSequenceNumber XOR 0x40, 0x04, 0x03], whose retry bit is set, whose sync bit is
clear and whose low six bits equal nextSequenceNumber. -/
theorem out_of_sequence_retry (cfg : BuildConfig) (fuel : Nat) (env : TaskEnv) (s : FtpState)
    (hreach : Reachable cfg s)
    (hrun : ¬ (¬ s.isComBusy = true ∧ s.resetPending = true))
    (hcom : env.comResult = COM_PASS)
    (hcount : MIN_TRANSFER_SIZE ≤ env.receiveCount)
    (hsync : env.receiveBuffer.getD SEQUENCE_BYTE_INDEX 0 &&& SYNC_TRANSFER_bm = 0)
    (hnext : env.receiveBuffer.getD SEQUENCE_BYTE_INDEX 0 % 64
      ≠ s.ftpHelper.nextSequenceNumber)
    (hlast : env.receiveBuffer.getD SEQUENCE_BYTE_INDEX 0 % 64
      ≠ s.ftpHelper.lastSequenceNumber) :
    ∃ t, FTP_Task cfg fuel env s
        = some (TaskOutcome.returned
            (if env.frameSetResult ≠ COM_PASS then BL_ERROR_COMMUNICATION_FAIL
              else BL_ERROR_FRAME_VALIDATION_FAIL)
            t
            (some { bytes := [s.ftpHelper.nextSequenceNumber ^^^ RETRY_TRANSFER_bm,
                      FTP_COMMAND_NOT_EXECUTED, FTP_INVALID_SEQUENCE_NUMBER_ERROR]
                    responseLength := 3 }))
      ∧ t.dispatchCount = s.dispatchCount
      ∧ t.core = s.core
      ∧ t.ftpHelper.lastSequenceNumber = s.ftpHelper.lastSequenceNumber
      ∧ t.ftpHelper.nextSequenceNumber = s.ftpHelper.nextSequenceNumber
      ∧ (s.ftpHelper.nextSequenceNumber ^^^ RETRY_TRANSFER_bm) &&& RETRY_TRANSFER_bm
          = RETRY_TRANSFER_bm
      ∧ (s.ftpHelper.nextSequenceNumber ^^^ RETRY_TRANSFER_bm) &&& SYNC_TRANSFER_bm = 0
      ∧ (s.ftpHelper.nextSequenceNumber ^^^ RETRY_TRANSFER_bm) &&& SEQUENCE_NUMBER_bm
          = s.ftpHelper.nextSequenceNumber := by
  obtain ⟨hlen, hle⟩ := Reachable_invariant cfg s hreach
  obtain ⟨hmod, hretry, hsyncbit, hlow⟩ := retry_sequence_byte_bits _ hle
  have hlen3 : 3 ≤ s.FTP_RETRY_BUFFER.length := by rw [hlen]; decide
  obtain ⟨T, hT⟩ : ∃ T, T = retryResponseSet
      { s with
        FTP_RECEIVE_BUFFER := env.receiveBuffer
        ftpReceiveCount := env.receiveCount
        ftpHelper := { s.ftpHelper with
          currentSequenceNumber := env.receiveBuffer.getD SEQUENCE_BYTE_INDEX 0 % 64
          resendRequired := true } }
      FTP_INVALID_SEQUENCE_NUMBER_ERROR := ⟨_, rfl⟩
  have hrecv := ftpTaskReceive_out_of_sequence cfg fuel env
    { s with FTP_RECEIVE_BUFFER := env.receiveBuffer, ftpReceiveCount := env.receiveCount }
    hcom hcount hsync hnext hlast
  have hfr := retryResponseSet_frame
    { s with
      FTP_RECEIVE_BUFFER := env.receiveBuffer
      ftpReceiveCount := env.receiveCount
      ftpHelper := { s.ftpHelper with
        currentSequenceNumber := env.receiveBuffer.getD SEQUENCE_BYTE_INDEX 0 % 64
        resendRequired := true } }
    FTP_INVALID_SEQUENCE_NUMBER_ERROR hlen3
  dsimp only at hrecv hfr
  rw [← hT] at hrecv hfr
  obtain ⟨hbytes, hrl, -, hhelper, hcore, -, hdisp⟩ := hfr
  rw [hmod] at hbytes
  have hresend : (ParserDataReset cfg T).ftpHelper.resendRequired = true := by
    show T.ftpHelper.resendRequired = true
    rw [hhelper]
  unfold FTP_Task
  rw [if_neg hrun]
  simp only [hrecv]
  rw [ftpTaskSend_resend _ _ _ hresend]
  have hb : (ParserDataReset cfg T).FTP_RETRY_BUFFER.take
      (ParserDataReset cfg T).ftpResponseLength
      = [s.ftpHelper.nextSequenceNumber ^^^ RETRY_TRANSFER_bm,
          FTP_COMMAND_NOT_EXECUTED, FTP_INVALID_SEQUENCE_NUMBER_ERROR] := by
    show T.FTP_RETRY_BUFFER.take T.ftpResponseLength = _
    rw [hrl, hbytes]
  have hl : (ParserDataReset cfg T).ftpResponseLength = 3 := hrl
  rw [hb, hl]
  refine ⟨_, rfl, ?_, ?_, ?_, ?_, hretry, hsyncbit, hlow⟩
  · exact hdisp
  · exact hcore
  · show T.ftpHelper.lastSequenceNumber = _
    rw [hhelper]
  · show T.ftpHelper.nextSequenceNumber = _
    rw [hhelper]

theorem out_of_sequence_retry_witness :
    (¬ (¬ (FtpState.initial exampleConfig).isComBusy = true
          ∧ (FtpState.initial exampleConfig).resetPending = true)
      ∧ envOutOfSequence.comResult = COM_PASS
      ∧ MIN_TRANSFER_SIZE ≤ envOutOfSequence.receiveCount
      ∧ envOutOfSequence.receiveBuffer.getD SEQUENCE_BYTE_INDEX 0 &&& SYNC_TRANSFER_bm = 0
      ∧ envOutOfSequence.receiveBuffer.getD SEQUENCE_BYTE_INDEX 0 % 64
          ≠ (FtpState.initial exampleConfig).ftpHelper.nextSequenceNumber
      ∧ envOutOfSequence.receiveBuffer.getD SEQUENCE_BYTE_INDEX 0 % 64
          ≠ (FtpState.initial exampleConfig).ftpHelper.lastSequenceNumber)
    ∧ ∃ t, FTP_Task exampleConfig 0 envOutOfSequence (FtpState.initial exampleConfig)
        = some (TaskOutcome.returned
            (if envOutOfSequence.frameSetResult ≠ COM_PASS then BL_ERROR_COMMUNICATION_FAIL
              else BL_ERROR_FRAME_VALIDATION_FAIL)
            t
            (some { bytes := [(FtpState.initial exampleConfig).ftpHelper.nextSequenceNumber
                        ^^^ RETRY_TRANSFER_bm,
                      FTP_COMMAND_NOT_EXECUTED, FTP_INVALID_SEQUENCE_NUMBER_ERROR]
                    responseLength := 3 }))
      ∧ t.dispatchCount = (FtpState.initial exampleConfig).dispatchCount
      ∧ t.core = (FtpState.initial exampleConfig).core
      ∧ t.ftpHelper.lastSequenceNumber
          = (FtpState.initial exampleConfig).ftpHelper.lastSequenceNumber
      ∧ t.ftpHelper.nextSequenceNumber
          = (FtpState.initial exampleConfig).ftpHelper.nextSequenceNumber
      ∧ ((FtpState.initial exampleConfig).ftpHelper.nextSequenceNumber ^^^ RETRY_TRANSFER_bm)
            &&& RETRY_TRANSFER_bm = RETRY_TRANSFER_bm
      ∧ ((FtpState.initial exampleConfig).ftpHelper.nextSequenceNumber ^^^ RETRY_TRANSFER_bm)
            &&& SYNC_TRANSFER_bm = 0
      ∧ ((FtpState.initial exampleConfig).ftpHelper.nextSequenceNumber ^^^ RETRY_TRANSFER_bm)
            &&& SEQUENCE_NUMBER_bm
          = (FtpState.initial exampleConfig).ftpHelper.nextSequenceNumber :=
  ⟨⟨by decide, by decide, by decide, by decide, by decide, by decide⟩,
    out_of_sequence_retry exampleConfig 0 envOutOfSequence (FtpState.initial exampleConfig)
      (Reachable.initial) (by decide) (by decide) (by decide) (by decide) (by decide)
      (by decide)⟩

/-- C7: frames failing the checksum are never dispatched.  For every engine state (the
retry buffer has its declared size, nextSequenceNumber is a byte) in which `FTP_Task`
gets to `COM_FrameTransfer`, when `COM_FrameTransfer` reports COM_TRANSPORT_FAILURE,
`FTP_Task` does not call `OperationalBlockExecute`, leaves the sequence numbers, the
core (unlock latch included) and resetPending unchanged, returns
BL_ERROR_FRAME_VALIDATION_FAIL unless the send fails, and hands to `COM_FrameSet` the
retry response [nextSequenceNumber XOR 0x40, 0x04, 0x00]. -/
theorem transport_failure_retry (cfg : BuildConfig) (fuel : Nat) (env : TaskEnv)
    (s : FtpState)
    (hrun : ¬ (¬ s.isComBusy = true ∧ s.resetPending = true))
    (hcom : env.comResult = COM_TRANSPORT_FAILURE)
    (hlen : s.FTP_RETRY_BUFFER.length = MAX_RESPONSE_SIZE)
    (hbyte : s.ftpHelper.nextSequenceNumber < 256) :
    ∃ t, FTP_Task cfg fuel env s
        = some (TaskOutcome.returned
            (if env.frameSetResult ≠ COM_PASS then BL_ERROR_COMMUNICATION_FAIL
              else BL_ERROR_FRAME_VALIDATION_FAIL)
            t
            (some { bytes := [s.ftpHelper.nextSequenceNumber ^^^ RETRY_TRANSFER_bm,
                      FTP_COMMAND_NOT_EXECUTED, FTP_INTEGRITY_CHECK_ERROR]
                    responseLength := 3 }))
      ∧ t.dispatchCount = s.dispatchCount
      ∧ t.core = s.core
      ∧ t.resetPending = s.resetPending
      ∧ t.ftpHelper.lastSequenceNumber = s.ftpHelper.lastSequenceNumber
      ∧ t.ftpHelper.nextSequenceNumber = s.ftpHelper.nextSequenceNumber := by
  have hmod : (s.ftpHelper.nextSequenceNumber ^^^ RETRY_TRANSFER_bm) % 256
      = s.ftpHelper.nextSequenceNumber ^^^ RETRY_TRANSFER_bm :=
    Nat.mod_eq_of_lt (@Nat.xor_lt_two_pow _ _ 8 hbyte (by decide))
  have hlen3 : 3 ≤ s.FTP_RETRY_BUFFER.length := by rw [hlen]; decide
  obtain ⟨T, hT⟩ : ∃ T, T = retryResponseSet
      { s with
        FTP_RECEIVE_BUFFER := env.receiveBuffer
        ftpReceiveCount := env.receiveCount
        ftpHelper := { s.ftpHelper with resendRequired := true } }
      FTP_INTEGRITY_CHECK_ERROR := ⟨_, rfl⟩
  have hrecv := ftpTaskReceive_transport_failure cfg fuel env
    { s with FTP_RECEIVE_BUFFER := env.receiveBuffer, ftpReceiveCount := env.receiveCount }
    hcom
  have hfr := retryResponseSet_frame
    { s with
      FTP_RECEIVE_BUFFER := env.receiveBuffer
      ftpReceiveCount := env.receiveCount
      ftpHelper := { s.ftpHelper with resendRequired := true } }
    FTP_INTEGRITY_CHECK_ERROR hlen3
  dsimp only at hrecv hfr
  rw [← hT] at hrecv hfr
  obtain ⟨hbytes, hrl, -, hhelper, hcore, hreset, hdisp⟩ := hfr
  rw [hmod] at hbytes
  have hresend : T.ftpHelper.resendRequired = true := by rw [hhelper]
  unfold FTP_Task
  rw [if_neg hrun]
  simp only [hrecv]
  rw [ftpTaskSend_resend _ _ _ hresend, hrl, hbytes]
  refine ⟨_, rfl, hdisp, hcore, hreset, ?_, ?_⟩
  · show T.ftpHelper.lastSequenceNumber = _
    rw [hhelper]
  · show T.ftpHelper.nextSequenceNumber = _
    rw [hhelper]

theorem transport_failure_retry_witness :
    (¬ (¬ stateAfterClientInfo.isComBusy = true ∧ stateAfterClientInfo.resetPending = true)
      ∧ envCorrupted.comResult = COM_TRANSPORT_FAILURE
      ∧ stateAfterClientInfo.FTP_RETRY_BUFFER.length = MAX_RESPONSE_SIZE
      ∧ stateAfterClientInfo.ftpHelper.nextSequenceNumber < 256)
    ∧ ∃ t, FTP_Task exampleConfig 0 envCorrupted stateAfterClientInfo
        = some (TaskOutcome.returned
            (if envCorrupted.frameSetResult ≠ COM_PASS then BL_ERROR_COMMUNICATION_FAIL
              else BL_ERROR_FRAME_VALIDATION_FAIL)
            t
            (some { bytes := [stateAfterClientInfo.ftpHelper.nextSequenceNumber
                        ^^^ RETRY_TRANSFER_bm,
                      FTP_COMMAND_NOT_EXECUTED, FTP_INTEGRITY_CHECK_ERROR]
                    responseLength := 3 }))
      ∧ t.dispatchCount = stateAfterClientInfo.dispatchCount
      ∧ t.core = stateAfterClientInfo.core
      ∧ t.resetPending = stateAfterClientInfo.resetPending
      ∧ t.ftpHelper.lastSequenceNumber = stateAfterClientInfo.ftpHelper.lastSequenceNumber
      ∧ t.ftpHelper.nextSequenceNumber = stateAfterClientInfo.ftpHelper.nextSequenceNumber :=
  ⟨⟨by decide, by decide, by decide, by decide⟩,
    transport_failure_retry exampleConfig 0 envCorrupted stateAfterClientInfo
      (by decide) (by decide) (by decide) (by decide)⟩

theorem FrameCheckCalculate_spec_witness :
    3 < 65536
      ∧ FrameCheckCalculate [1, 2, 3] 3
          = 65535 - (evenIndexSum [1, 2, 3] 3 + 256 * oddIndexSum [1, 2, 3] 3) % 65536
      ∧ FrameCheckCalculate [1, 2, 3] 0 = 0xFFFF :=
  ⟨by decide, FrameCheckCalculate_spec [1, 2, 3] 3 (by decide)⟩

/-! ### Command processor: write path -/

theorem BL_BootCommandProcess_unlock (cfg : BuildConfig) (fuel h : Nat) (ws : Bool)
    (bootDataPtr : List Nat) (commandLength : Nat) (c : CoreState)
    (hty : bootDataPtr.getD 2 0 = UNLOCK_BOOTLOADER) :
    BL_BootCommandProcess cfg fuel h ws bootDataPtr commandLength c
      = BootloaderProcessorUnlock cfg fuel h bootDataPtr c := by
  unfold BL_BootCommandProcess
  simp only [hty, if_true]

theorem BL_BootCommandProcess_write_locked (cfg : BuildConfig) (fuel h : Nat) (ws : Bool)
    (bootDataPtr : List Nat) (commandLength : Nat) (c : CoreState)
    (hty : bootDataPtr.getD 2 0 = WRITE_FLASH) (hlock : c.bootloaderCoreUnlocked = false) :
    BL_BootCommandProcess cfg fuel h ws bootDataPtr commandLength c
      = some (BL_ERROR_UNKNOWN_COMMAND, c) := by
  have hne : ¬ (WRITE_FLASH = UNLOCK_BOOTLOADER) := by decide
  unfold BL_BootCommandProcess
  simp only [hty, hne, hlock, if_false, if_true, Bool.false_eq_true]

/-- C11: starting from a freshly initialised session (`BL_Initialize`, latch false),
for every Unlock block whose metadata major version field differs from
BL_IMAGE_FORMAT_MAJOR_VERSION, `BL_BootCommandProcess` returns
BL_ERROR_VERIFICATION_FAIL, and every WriteFlash block processed next is rejected with
a result different from BL_PASS and without any flash primitive being invoked. -/
theorem rejected_unlock_blocks_write (cfg : BuildConfig) (fuel h : Nat) (ws : Bool)
    (unlockBlock : List Nat) (unlockLength : Nat) (c : CoreState)
    (hty : unlockBlock.getD 2 0 = UNLOCK_BOOTLOADER)
    (hmajor : (metadataPacketRead unlockBlock).imageVersionMajor
      ≠ BL_IMAGE_FORMAT_MAJOR_VERSION) :
    ∃ c1, BL_BootCommandProcess cfg fuel h ws unlockBlock unlockLength (BL_Initialize c).2
        = some (BL_ERROR_VERIFICATION_FAIL, c1)
      ∧ c1.bootloaderCoreUnlocked = false
      ∧ ∀ (fuel2 h2 : Nat) (ws2 : Bool) (writeBlock : List Nat) (writeLength : Nat),
          writeBlock.getD 2 0 = WRITE_FLASH →
          ∃ r c2, BL_BootCommandProcess cfg fuel2 h2 ws2 writeBlock writeLength c1
              = some (r, c2)
            ∧ r ≠ BL_PASS
            ∧ c2.nvmOps = c.nvmOps
            ∧ c2.bootloaderCoreUnlocked = false := by
  refine ⟨(BL_Initialize c).2, ?_, rfl, ?_⟩
  · rw [BL_BootCommandProcess_unlock _ _ _ _ _ _ _ hty]
    exact BootloaderProcessorUnlock_reject _ _ _ _ _ (fun hy => hmajor hy.1)
  · intro fuel2 h2 ws2 writeBlock writeLength hw
    refine ⟨BL_ERROR_UNKNOWN_COMMAND, (BL_Initialize c).2,
      BL_BootCommandProcess_write_locked _ _ _ _ _ _ _ hw rfl, by decide, rfl, rfl⟩

theorem rejected_unlock_blocks_write_witness :
    (unlockBlockBadMajor.getD 2 0 = UNLOCK_BOOTLOADER
      ∧ (metadataPacketRead unlockBlockBadMajor).imageVersionMajor
          ≠ BL_IMAGE_FORMAT_MAJOR_VERSION)
    ∧ ∃ c1, BL_BootCommandProcess exampleConfig 131071 0x11070200 true unlockBlockBadMajor 16
          (BL_Initialize unlockedCore).2 = some (BL_ERROR_VERIFICATION_FAIL, c1)
      ∧ c1.bootloaderCoreUnlocked = false
      ∧ ∀ (fuel2 h2 : Nat) (ws2 : Bool) (writeBlock : List Nat) (writeLength : Nat),
          writeBlock.getD 2 0 = WRITE_FLASH →
          ∃ r c2, BL_BootCommandProcess exampleConfig fuel2 h2 ws2 writeBlock writeLength c1
              = some (r, c2)
            ∧ r ≠ BL_PASS
            ∧ c2.nvmOps = unlockedCore.nvmOps
            ∧ c2.bootloaderCoreUnlocked = false :=
  ⟨⟨by decide, by decide⟩,
    rejected_unlock_blocks_write exampleConfig 131071 0x11070200 true unlockBlockBadMajor 16
      unlockedCore (by decide) (by decide)⟩

/-- C12: WriteFlash while locked.  Whenever the unlock latch is false,
`BL_BootCommandProcess` on any block of type WRITE_FLASH returns
BL_ERROR_UNKNOWN_COMMAND and leaves the core state as it was: no flash primitive is
invoked and the latch stays false. -/
theorem write_flash_while_locked (cfg : BuildConfig) (fuel h : Nat) (ws : Bool)
    (bootDataPtr : List Nat) (commandLength : Nat) (c : CoreState)
    (hty : bootDataPtr.getD 2 0 = WRITE_FLASH) (hlock : c.bootloaderCoreUnlocked = false) :
    ∃ c1, BL_BootCommandProcess cfg fuel h ws bootDataPtr commandLength c
        = some (BL_ERROR_UNKNOWN_COMMAND, c1)
      ∧ c1.nvmOps = c.nvmOps
      ∧ c1.bootloaderCoreUnlocked = false
      ∧ c1 = c :=
  ⟨c, BL_BootCommandProcess_write_locked cfg fuel h ws bootDataPtr commandLength c hty hlock,
    rfl, hlock, rfl⟩

theorem write_flash_while_locked_witness :
    (writeBlockShort.getD 2 0 = WRITE_FLASH ∧ lockedCore.bootloaderCoreUnlocked = false)
    ∧ ∃ c1, BL_BootCommandProcess exampleConfig 0 0x11070200 true writeBlockShort 7 lockedCore
        = some (BL_ERROR_UNKNOWN_COMMAND, c1)
      ∧ c1.nvmOps = lockedCore.nvmOps
      ∧ c1.bootloaderCoreUnlocked = false
      ∧ c1 = lockedCore :=
  ⟨⟨by decide, by decide⟩,
    write_flash_while_locked exampleConfig 0 0x11070200 true writeBlockShort 7 lockedCore
      (by decide) (by decide)⟩

/-- C13: WriteFlash while unlocked.  For a WriteFlash block with start address `a` let
`d = (a + (BL_STAGING_IMAGE_START - BL_APPLICATION_START_ADDRESS)) mod 2^32`.  If
`d < BL_STAGING_IMAGE_START` the result is BL_ERROR_ADDRESS_OUT_OF_RANGE and the core
state is unchanged (no flash primitive); otherwise exactly the three primitives region
unlock at `d`, page write at `d`, region lock at `d` are appended to the trace, and the
result is BL_PASS if the page write reported success and BL_ERROR_COMMAND_PROCESSING
otherwise. -/
theorem write_flash_while_unlocked (cfg : BuildConfig) (fuel h : Nat) (ws : Bool)
    (bootDataPtr : List Nat) (commandLength : Nat) (c : CoreState)
    (hty : bootDataPtr.getD 2 0 = WRITE_FLASH) (hopen : c.bootloaderCoreUnlocked = true) :
    ((le32 bootDataPtr 3 + (BL_STAGING_IMAGE_START - BL_APPLICATION_START_ADDRESS))
          % 4294967296 < BL_STAGING_IMAGE_START →
        BL_BootCommandProcess cfg fuel h ws bootDataPtr commandLength c
          = some (BL_ERROR_ADDRESS_OUT_OF_RANGE, c))
      ∧ (¬ (le32 bootDataPtr 3 + (BL_STAGING_IMAGE_START - BL_APPLICATION_START_ADDRESS))
            % 4294967296 < BL_STAGING_IMAGE_START →
        ∃ r c1 data, BL_BootCommandProcess cfg fuel h ws bootDataPtr commandLength c
            = some (r, c1)
          ∧ c1.nvmOps = c.nvmOps ++
              [NvmOp.RegionUnlock
                  ((le32 bootDataPtr 3
                    + (BL_STAGING_IMAGE_START - BL_APPLICATION_START_ADDRESS)) % 4294967296),
                NvmOp.PageWrite data
                  ((le32 bootDataPtr 3
                    + (BL_STAGING_IMAGE_START - BL_APPLICATION_START_ADDRESS)) % 4294967296),
                NvmOp.RegionLock
                  ((le32 bootDataPtr 3
                    + (BL_STAGING_IMAGE_START - BL_APPLICATION_START_ADDRESS)) % 4294967296)]
          ∧ (r = BL_PASS ↔ ws = true)
          ∧ (ws = false → r = BL_ERROR_COMMAND_PROCESSING)) := by
  have hne : ¬ (WRITE_FLASH = UNLOCK_BOOTLOADER) := by decide
  have hoff : (BL_STAGING_IMAGE_START + 4294967296 - BL_APPLICATION_START_ADDRESS) % 4294967296
      = BL_STAGING_IMAGE_START - BL_APPLICATION_START_ADDRESS := by decide
  constructor
  · intro hd
    unfold BL_BootCommandProcess
    simp only [hty, hne, hopen, if_false, if_true, hoff, BL_BLOCK_HEADER_SIZE, ge_iff_le]
    rw [if_neg (by omega)]
  · intro hd
    unfold BL_BootCommandProcess
    simp only [hty, hne, hopen, if_false, if_true, hoff, BL_BLOCK_HEADER_SIZE, ge_iff_le]
    rw [if_pos (by omega)]
    refine ⟨_, _, _, rfl, rfl, ?_, ?_⟩
    · cases ws <;> simp
    · intro hws
      simp [hws]

theorem write_flash_while_unlocked_witness :
    (writeBlockShort.getD 2 0 = WRITE_FLASH ∧ unlockedCore.bootloaderCoreUnlocked = true
      ∧ ¬ (le32 writeBlockShort 3 + (BL_STAGING_IMAGE_START - BL_APPLICATION_START_ADDRESS))
            % 4294967296 < BL_STAGING_IMAGE_START)
    ∧ ∃ r c1 data, BL_BootCommandProcess exampleConfig 0 0x11070200 true writeBlockShort 7
            unlockedCore = some (r, c1)
          ∧ c1.nvmOps = unlockedCore.nvmOps ++
              [NvmOp.RegionUnlock
                  ((le32 writeBlockShort 3
                    + (BL_STAGING_IMAGE_START - BL_APPLICATION_START_ADDRESS)) % 4294967296),
                NvmOp.PageWrite data
                  ((le32 writeBlockShort 3
                    + (BL_STAGING_IMAGE_START - BL_APPLICATION_START_ADDRESS)) % 4294967296),
                NvmOp.RegionLock
                  ((le32 writeBlockShort 3
                    + (BL_STAGING_IMAGE_START - BL_APPLICATION_START_ADDRESS)) % 4294967296)]
          ∧ (r = BL_PASS ↔ true = true)
          ∧ (true = false → r = BL_ERROR_COMMAND_PROCESSING) :=
  ⟨⟨by decide, by decide, by decide⟩,
    (write_flash_while_unlocked exampleConfig 0 0x11070200 true writeBlockShort 7 unlockedCore
      (by decide) (by decide)).2 (by decide)⟩

/-- C14, the code at the failing input: with the core unlocked, a WriteFlash block
handed over with commandLength 3 (within 0 .. BL_MAX_BUFFER_SIZE) is accepted for
writing and answered with BL_PASS, and the length given to `memcpy` is
3 - 4 - 3 computed in unsigned 32-bit arithmetic, 4294967292, far above
BL_WRITE_BYTE_LENGTH. -/
theorem write_copy_length_wraps :
    3 ≤ BL_MAX_BUFFER_SIZE exampleConfig
      ∧ (∃ c1, BL_BootCommandProcess exampleConfig 0 0x11070200 true writeBlockShort 3
            unlockedCore = some (BL_PASS, c1)
          ∧ c1.nvmOps = [NvmOp.RegionUnlock 0x1000,
              NvmOp.PageWrite c1.writeBuffer 0x1000, NvmOp.RegionLock 0x1000])
      ∧ writeCopyLength 3 = 4294967292
      ∧ ¬ writeCopyLength 3 ≤ BL_WRITE_BYTE_LENGTH exampleConfig := by
  refine ⟨by decide, ⟨_, rfl, rfl⟩, by decide, by decide⟩

/-! ### Command processor: staging erase -/

theorem eraseRowsOps_succ (start rowSize n : Nat) :
    eraseRowsOps start rowSize (n + 1)
      = eraseRowOps start ++ eraseRowsOps (start + rowSize) rowSize n := by
  unfold eraseRowsOps
  rw [List.range_succ_eq_map, List.flatMap_cons, List.flatMap_map]
  simp only [Nat.zero_mul, Nat.add_zero]
  congr 1
  apply List.flatMap_congr
  intro k _
  simp only [Function.comp, Nat.succ_mul]
  congr 1
  omega

theorem DownloadAreaErase_rows (cfg : BuildConfig)
    (hsmall : cfg.NVMCTRL_FLASH_ROWSIZE ≤ 4294967296 - BL_STAGING_IMAGE_END)
    (n fuel address : Nat) (ops : List NvmOp) (hfuel : n ≤ fuel)
    (hn : ∀ k, k < n ↔ address + k * cfg.NVMCTRL_FLASH_ROWSIZE < BL_STAGING_IMAGE_END) :
    DownloadAreaErase cfg fuel address ops
      = some (ops ++ eraseRowsOps address cfg.NVMCTRL_FLASH_ROWSIZE n) := by
  have hend : BL_STAGING_IMAGE_END = 131071 := rfl
  rw [hend] at hsmall hn
  induction n generalizing fuel address ops with
  | zero =>
    have h0 := hn 0
    simp only [Nat.lt_irrefl, Nat.zero_mul, Nat.add_zero, false_iff] at h0
    unfold DownloadAreaErase
    rw [hend, if_neg h0]
    simp [eraseRowsOps]
  | succ m ih =>
    have h0 := (hn 0).mp (Nat.succ_pos m)
    simp only [Nat.zero_mul, Nat.add_zero] at h0
    obtain ⟨f, rfl⟩ : ∃ f, fuel = f + 1 := ⟨fuel - 1, by omega⟩
    unfold DownloadAreaErase
    rw [hend, if_pos h0]
    dsimp only
    have hmod : (address + cfg.NVMCTRL_FLASH_ROWSIZE) % 4294967296
        = address + cfg.NVMCTRL_FLASH_ROWSIZE := by omega
    rw [hmod, ih f (address + cfg.NVMCTRL_FLASH_ROWSIZE) _ (by omega), eraseRowsOps_succ,
      List.append_assoc]
    · rfl
    · intro k
      have hk := hn (k + 1)
      rw [Nat.succ_mul] at hk
      constructor
      · intro h
        have := hk.mp (by omega)
        omega
      · intro h
        have := hk.mpr (by omega)
        omega

theorem mem_eraseRowsOps (start rowSize n a : Nat) :
    NvmOp.RowErase a ∈ eraseRowsOps start rowSize n ↔ ∃ k, k < n ∧ a = start + k * rowSize := by
  unfold eraseRowsOps eraseRowOps
  simp only [List.mem_flatMap, List.mem_range, List.mem_cons, List.mem_singleton,
    NvmOp.RowErase.injEq, reduceCtorEq, false_or, or_false, List.not_mem_nil]

theorem rowCount_spec (rowSize x k : Nat) (hpos : 0 < rowSize) :
    k < (x + rowSize - 1) / rowSize ↔ k * rowSize < x := by
  rw [Nat.lt_iff_add_one_le, Nat.le_div_iff_mul_le hpos, Nat.succ_mul]
  omega

theorem unlock_erase_rows (cfg : BuildConfig) (fuel h : Nat) (bufferPtr : List Nat)
    (c : CoreState) (hpos : 0 < cfg.NVMCTRL_FLASH_ROWSIZE)
    (hsmall : cfg.NVMCTRL_FLASH_ROWSIZE ≤ 4294967296 - BL_STAGING_IMAGE_END)
    (hfuel : BL_STAGING_IMAGE_END ≤ fuel)
    (hy : unlockChecksHold cfg h (metadataPacketRead bufferPtr)) :
    BootloaderProcessorUnlock cfg fuel h bufferPtr c
        = some (BL_PASS, { c with
            bootloaderCoreUnlocked := true
            nvmOps := c.nvmOps ++ eraseRowsOps BL_STAGING_IMAGE_START cfg.NVMCTRL_FLASH_ROWSIZE
              ((BL_STAGING_IMAGE_END - BL_STAGING_IMAGE_START + cfg.NVMCTRL_FLASH_ROWSIZE - 1)
                / cfg.NVMCTRL_FLASH_ROWSIZE) })
      ∧ ∀ k, k < (BL_STAGING_IMAGE_END - BL_STAGING_IMAGE_START + cfg.NVMCTRL_FLASH_ROWSIZE - 1)
              / cfg.NVMCTRL_FLASH_ROWSIZE
          ↔ BL_STAGING_IMAGE_START + k * cfg.NVMCTRL_FLASH_ROWSIZE < BL_STAGING_IMAGE_END := by
  have hend : BL_STAGING_IMAGE_END = 131071 := rfl
  have hstart : BL_STAGING_IMAGE_START = 4096 := rfl
  have hn : ∀ k, k < (BL_STAGING_IMAGE_END - BL_STAGING_IMAGE_START
        + cfg.NVMCTRL_FLASH_ROWSIZE - 1) / cfg.NVMCTRL_FLASH_ROWSIZE
      ↔ BL_STAGING_IMAGE_START + k * cfg.NVMCTRL_FLASH_ROWSIZE < BL_STAGING_IMAGE_END := by
    intro k
    rw [rowCount_spec _ _ _ hpos, hend, hstart]
    omega
  refine ⟨?_, hn⟩
  have hle : (BL_STAGING_IMAGE_END - BL_STAGING_IMAGE_START + cfg.NVMCTRL_FLASH_ROWSIZE - 1)
      / cfg.NVMCTRL_FLASH_ROWSIZE ≤ fuel := by
    by_contra hc
    have hlt : fuel < (BL_STAGING_IMAGE_END - BL_STAGING_IMAGE_START
        + cfg.NVMCTRL_FLASH_ROWSIZE - 1) / cfg.NVMCTRL_FLASH_ROWSIZE := by omega
    have h1 := (rowCount_spec _ _ _ hpos).mp hlt
    have h2 : fuel * 1 ≤ fuel * cfg.NVMCTRL_FLASH_ROWSIZE := Nat.mul_le_mul_left _ hpos
    rw [hend, hstart] at h1
    rw [hend] at hfuel
    omega
  have hrows := DownloadAreaErase_rows cfg hsmall _ fuel BL_STAGING_IMAGE_START c.nvmOps hle hn
  unfold BootloaderProcessorUnlock
  dsimp only
  rw [(unlockCommandStatus_cases cfg h _).1 hy, hrows]
  simp

/-- C15, as stated, fails for the positive row size 1 (to which every start address is
aligned): the unlock succeeds and the erase loop stops at BL_STAGING_IMAGE_END without
erasing it, so the byte address BL_STAGING_IMAGE_END lies in no erased row. -/
theorem staging_erase_one_byte_rows_counterexample :
    0 < oneByteRowConfig.NVMCTRL_FLASH_ROWSIZE
      ∧ oneByteRowConfig.NVMCTRL_FLASH_ROWSIZE ∣ BL_STAGING_IMAGE_START
      ∧ ∃ c1, BootloaderProcessorUnlock oneByteRowConfig 131071 0x11070200 unlockBlockValid
            lockedCore = some (BL_PASS, c1)
          ∧ ∀ a, NvmOp.RowErase a ∈ c1.nvmOps →
              ¬ (a ≤ BL_STAGING_IMAGE_END
                ∧ BL_STAGING_IMAGE_END < a + oneByteRowConfig.NVMCTRL_FLASH_ROWSIZE) := by
  refine ⟨by decide, by decide, ?_⟩
  obtain ⟨hrun, hn⟩ := unlock_erase_rows oneByteRowConfig 131071 0x11070200 unlockBlockValid
    lockedCore (by decide) (by decide) (by decide) (by decide)
  refine ⟨_, hrun, ?_⟩
  intro a ha
  dsimp only at ha
  have ha2 : NvmOp.RowErase a ∈ eraseRowsOps BL_STAGING_IMAGE_START
      oneByteRowConfig.NVMCTRL_FLASH_ROWSIZE
      ((BL_STAGING_IMAGE_END - BL_STAGING_IMAGE_START
        + oneByteRowConfig.NVMCTRL_FLASH_ROWSIZE - 1)
        / oneByteRowConfig.NVMCTRL_FLASH_ROWSIZE) := by
    rcases List.mem_append.mp ha with h | h
    · exact absurd h (by simp [lockedCore])
    · exact h
  obtain ⟨k, hk, rfl⟩ := (mem_eraseRowsOps _ _ _ _).mp ha2
  have hlt := (hn k).mp hk
  have hone : oneByteRowConfig.NVMCTRL_FLASH_ROWSIZE = 1 := rfl
  rw [hone] at hlt ⊢
  omega

/-- C15, amended: with BL_STAGING_IMAGE_START row-aligned and a row size R of at least
2, a successful Unlock performs, in increasing address order and exactly once each, the
sequence region-unlock, row-erase, region-lock for every address
BL_STAGING_IMAGE_START + k*R that is below BL_STAGING_IMAGE_END, and for no other
address; the loop terminates, and every byte address in
[BL_STAGING_IMAGE_START, BL_STAGING_IMAGE_END] lies in an erased row. -/
theorem staging_erase_on_unlock (cfg : BuildConfig) (fuel h : Nat) (bufferPtr : List Nat)
    (c : CoreState) (hR : 2 ≤ cfg.NVMCTRL_FLASH_ROWSIZE)
    (halign : cfg.NVMCTRL_FLASH_ROWSIZE ∣ BL_STAGING_IMAGE_START)
    (hfuel : BL_STAGING_IMAGE_END ≤ fuel)
    (hy : unlockChecksHold cfg h (metadataPacketRead bufferPtr)) :
    ∃ n, BootloaderProcessorUnlock cfg fuel h bufferPtr c
        = some (BL_PASS, { c with
            bootloaderCoreUnlocked := true
            nvmOps := c.nvmOps
              ++ eraseRowsOps BL_STAGING_IMAGE_START cfg.NVMCTRL_FLASH_ROWSIZE n })
      ∧ (∀ k, k < n
          ↔ BL_STAGING_IMAGE_START + k * cfg.NVMCTRL_FLASH_ROWSIZE < BL_STAGING_IMAGE_END)
      ∧ (∀ a, BL_STAGING_IMAGE_START ≤ a → a ≤ BL_STAGING_IMAGE_END →
          ∃ k, k < n
            ∧ BL_STAGING_IMAGE_START + k * cfg.NVMCTRL_FLASH_ROWSIZE ≤ a
            ∧ a < BL_STAGING_IMAGE_START + k * cfg.NVMCTRL_FLASH_ROWSIZE
                + cfg.NVMCTRL_FLASH_ROWSIZE) := by
  have hend : BL_STAGING_IMAGE_END = 131071 := rfl
  have hstart : BL_STAGING_IMAGE_START = 4096 := rfl
  have hle : cfg.NVMCTRL_FLASH_ROWSIZE ≤ 4096 := by
    rw [hstart] at halign
    exact Nat.le_of_dvd (by decide) halign
  have heven : ∃ m, cfg.NVMCTRL_FLASH_ROWSIZE = 2 * m := by
    have h12 : cfg.NVMCTRL_FLASH_ROWSIZE ∣ 2 ^ 12 := by
      rw [hstart] at halign
      exact halign
    obtain ⟨j, _, hj⟩ := (Nat.dvd_prime_pow Nat.prime_two).mp h12
    cases j with
    | zero => rw [hj] at hR; simp at hR
    | succ i => exact ⟨2 ^ i, by rw [hj, Nat.pow_succ, Nat.mul_comm]⟩
  obtain ⟨hrun, hn⟩ := unlock_erase_rows cfg fuel h bufferPtr c (by omega)
    (by rw [hend]; omega) hfuel hy
  refine ⟨_, hrun, hn, ?_⟩
  intro a ha1 ha2
  rw [hstart] at ha1
  rw [hend] at ha2
  obtain ⟨m, hm⟩ := heven
  have hpos : 0 < cfg.NVMCTRL_FLASH_ROWSIZE := by omega
  have hdm := Nat.div_add_mod (a - 4096) cfg.NVMCTRL_FLASH_ROWSIZE
  have hmod := Nat.mod_lt (a - 4096) hpos
  have hcomm : (a - 4096) / cfg.NVMCTRL_FLASH_ROWSIZE * cfg.NVMCTRL_FLASH_ROWSIZE
      = cfg.NVMCTRL_FLASH_ROWSIZE * ((a - 4096) / cfg.NVMCTRL_FLASH_ROWSIZE) :=
    Nat.mul_comm _ _
  have hpar : (a - 4096) / cfg.NVMCTRL_FLASH_ROWSIZE * cfg.NVMCTRL_FLASH_ROWSIZE
      = 2 * ((a - 4096) / cfg.NVMCTRL_FLASH_ROWSIZE * m) := by
    rw [hm]
    ring
  refine ⟨(a - 4096) / cfg.NVMCTRL_FLASH_ROWSIZE, ?_, ?_, ?_⟩
  · rw [hn, hstart, hend]
    omega
  · rw [hstart]
    omega
  · rw [hstart]
    omega

theorem staging_erase_on_unlock_witness :
    (2 ≤ exampleConfig.NVMCTRL_FLASH_ROWSIZE
      ∧ exampleConfig.NVMCTRL_FLASH_ROWSIZE ∣ BL_STAGING_IMAGE_START
      ∧ BL_STAGING_IMAGE_END ≤ 131071
      ∧ unlockChecksHold exampleConfig 0x11070200 (metadataPacketRead unlockBlockValid))
    ∧ ∃ n, BootloaderProcessorUnlock exampleConfig 131071 0x11070200 unlockBlockValid lockedCore
        = some (BL_PASS, { lockedCore with
            bootloaderCoreUnlocked := true
            nvmOps := lockedCore.nvmOps
              ++ eraseRowsOps BL_STAGING_IMAGE_START exampleConfig.NVMCTRL_FLASH_ROWSIZE n })
      ∧ (∀ k, k < n
          ↔ BL_STAGING_IMAGE_START + k * exampleConfig.NVMCTRL_FLASH_ROWSIZE
              < BL_STAGING_IMAGE_END)
      ∧ (∀ a, BL_STAGING_IMAGE_START ≤ a → a ≤ BL_STAGING_IMAGE_END →
          ∃ k, k < n
            ∧ BL_STAGING_IMAGE_START + k * exampleConfig.NVMCTRL_FLASH_ROWSIZE ≤ a
            ∧ a < BL_STAGING_IMAGE_START + k * exampleConfig.NVMCTRL_FLASH_ROWSIZE
                + exampleConfig.NVMCTRL_FLASH_ROWSIZE) :=
  ⟨⟨by decide, by decide, by decide, by decide⟩,
    staging_erase_on_unlock exampleConfig 131071 0x11070200 unlockBlockValid lockedCore
      (by decide) (by decide) (by decide) (by decide)⟩


/-! ### Image manager and verifier -/

theorem BL_ApplicationIsVersionValid_iff (v : Nat) :
    BL_ApplicationIsVersionValid v = true ↔ versionIsValid v := by
  unfold BL_ApplicationIsVersionValid versionIsValid
  simp only [Bool.and_eq_true, decide_eq_true_eq, ne_eq]
  constructor
  · rintro ⟨h1, h2⟩
    exact ⟨h2, h1⟩
  · rintro ⟨h1, h2⟩
    exact ⟨h2, h1⟩

/-- C16: anti-rollback decision.  With `t` the target id in the low byte of the
candidate footer's applicationId, `vc` the candidate version and `vt` the version read
for slot `t`, `BL_ApplicationRollbackCheck c` is true exactly when `t != c` and either
both versions are valid and `vc > vt`, or `vt` is invalid and `vc` is valid.  With
target slot 0 and candidate slot 1, (vc, vt) = (5, 3) gives true, (3, 5) false,
(5, 0xFFFFFFFF) true, (0, 5) false and (4, 4) false. -/
theorem rollback_check_decision (nvm : NvmView) (icfg : ImageConfig) (c : Nat) :
    (BL_ApplicationDownloadIdGet nvm icfg c
        = (BL_ApplicationFooterRead nvm icfg c zeroFooter).2.applicationId % 256)
      ∧ (BL_ApplicationRollbackCheck nvm icfg c = true ↔
          BL_ApplicationDownloadIdGet nvm icfg c ≠ c
            ∧ ((versionIsValid (BL_ApplicationVersionGet nvm icfg c)
                  ∧ versionIsValid (BL_ApplicationVersionGet nvm icfg
                      (BL_ApplicationDownloadIdGet nvm icfg c))
                  ∧ BL_ApplicationVersionGet nvm icfg c
                      > BL_ApplicationVersionGet nvm icfg
                          (BL_ApplicationDownloadIdGet nvm icfg c))
              ∨ (¬ versionIsValid (BL_ApplicationVersionGet nvm icfg
                      (BL_ApplicationDownloadIdGet nvm icfg c))
                  ∧ versionIsValid (BL_ApplicationVersionGet nvm icfg c))))
      ∧ BL_ApplicationRollbackCheck (twoSlotView 0 5 3 0x12345678) twoSlotConfig 1 = true
      ∧ BL_ApplicationRollbackCheck (twoSlotView 0 3 5 0x12345678) twoSlotConfig 1 = false
      ∧ BL_ApplicationRollbackCheck (twoSlotView 0 5 0xFFFFFFFF 0x12345678) twoSlotConfig 1
          = true
      ∧ BL_ApplicationRollbackCheck (twoSlotView 0 0 5 0x12345678) twoSlotConfig 1 = false
      ∧ BL_ApplicationRollbackCheck (twoSlotView 0 4 4 0x12345678) twoSlotConfig 1 = false := by
  refine ⟨?_, ?_, by decide, by decide, by decide, by decide, by decide⟩
  · unfold BL_ApplicationDownloadIdGet
    rw [Nat.and_pow_two_sub_one_eq_mod _ 8, Nat.mod_mod]
  · unfold BL_ApplicationRollbackCheck
    dsimp only
    generalize BL_ApplicationDownloadIdGet nvm icfg c = t
    generalize BL_ApplicationVersionGet nvm icfg c = vc
    generalize BL_ApplicationVersionGet nvm icfg t = vt
    simp only [← BL_ApplicationIsVersionValid_iff]
    by_cases ht : t = c
    · simp [ht]
    · cases hvt : BL_ApplicationIsVersionValid vt <;>
        cases hvc : BL_ApplicationIsVersionValid vc <;> simp [ht]

/-- C17, the code at the failing input: `BL_ApplicationDownloadIdGet` returns the low
byte of the footer's applicationId, but `BL_ApplicationExecutionIdGet` returns 0 for
every footer, because the masked value is narrowed to 8 bits without being shifted; for
the applicationId 0x0100 the high byte is 1 and the function returns 0. -/
theorem execution_id_always_zero :
    (∀ (nvm : NvmView) (icfg : ImageConfig) (imageId : Nat),
        BL_ApplicationExecutionIdGet nvm icfg imageId = 0)
      ∧ (BL_ApplicationFooterRead executionIdView twoSlotConfig 1 zeroFooter).2.applicationId
          = 0x0100
      ∧ BL_ApplicationDownloadIdGet executionIdView twoSlotConfig 1 = 0x0100 % 256
      ∧ BL_ApplicationExecutionIdGet executionIdView twoSlotConfig 1 = 0
      ∧ 0x0100 / 256 = 1 := by
  refine ⟨?_, by decide, by decide, by decide, by decide⟩
  intro nvm icfg imageId
  unfold BL_ApplicationExecutionIdGet
  have h0 : (0xFF00 : Nat) &&& (2 ^ 8 - 1) = 0 := by decide
  rw [← Nat.and_pow_two_sub_one_eq_mod _ 8, Nat.and_assoc, h0]
  exact Nat.and_zero _

/-! ### Start-up decision -/

theorem MultiImage_CRC32_Validate_cases (nvm : NvmView) (startAddress length refAddress : Nat) :
    MultiImage.CRC32_Validate nvm startAddress length refAddress
      = if isSentinel ((nvm.wordAt refAddress).getD 0)
            ∨ isSentinel (nvm.crcEngine startAddress length 0xFFFFFFFF) then
          BL_ERROR_INVALID_ARGUMENTS
        else if (nvm.wordAt refAddress).getD 0 ≠ nvm.crcEngine startAddress length 0xFFFFFFFF
          then BL_ERROR_VERIFICATION_FAIL
        else BL_PASS := by
  unfold MultiImage.CRC32_Validate MultiImage.CRC32_Calculate isSentinel
  dsimp only
  generalize (nvm.wordAt refAddress).getD 0 = r
  generalize nvm.crcEngine startAddress length 0xFFFFFFFF = c
  by_cases h1 : r = 0
  · simp [h1]
  · by_cases h2 : c = 0
    · simp [h2]
    · by_cases h3 : r = 0xFFFFFFFF
      · simp [h3]
      · by_cases h4 : c = 0xFFFFFFFF
        · simp [h4]
        · simp [h1, h2, h3, h4]

/-- C19: sentinel-aware CRC comparison of the multi-image build.  With `c` the computed
CRC value and `r` the stored reference value, `CRC32_Validate` returns
BL_ERROR_INVALID_ARGUMENTS if `r` or `c` is 0x00000000 or 0xFFFFFFFF, otherwise
BL_ERROR_VERIFICATION_FAIL if `r != c`, otherwise BL_PASS; hence `BL_ImageVerifyById`
never returns BL_PASS for an image whose stored reference value reads 0xFFFFFFFF. -/
theorem crc_validate_sentinel_aware (nvm : NvmView) (icfg : ImageConfig)
    (installLocationId : Nat)
    (href : nvm.wordAt ((BL_ApplicationFooterStartAddressGet icfg installLocationId
      + icfg.HASH_DATA_OFFSET) % 4294967296) = some 0xFFFFFFFF) :
    (∀ startAddress length refAddress,
        MultiImage.CRC32_Validate nvm startAddress length refAddress
          = if isSentinel ((nvm.wordAt refAddress).getD 0)
                ∨ isSentinel (nvm.crcEngine startAddress length 0xFFFFFFFF) then
              BL_ERROR_INVALID_ARGUMENTS
            else if (nvm.wordAt refAddress).getD 0
                ≠ nvm.crcEngine startAddress length 0xFFFFFFFF then
              BL_ERROR_VERIFICATION_FAIL
            else BL_PASS)
      ∧ MultiImage.BL_ImageVerifyById nvm icfg installLocationId ≠ BL_PASS := by
  refine ⟨MultiImage_CRC32_Validate_cases nvm, ?_⟩
  unfold MultiImage.BL_ImageVerifyById
  dsimp only
  split_ifs
  · decide
  · rw [MultiImage_CRC32_Validate_cases, href]
    simp [isSentinel]
  · rw [MultiImage_CRC32_Validate_cases, href]
    simp [isSentinel]

theorem crc_validate_sentinel_aware_witness :
    erasedView.wordAt ((BL_ApplicationFooterStartAddressGet twoSlotConfig 1
        + twoSlotConfig.HASH_DATA_OFFSET) % 4294967296) = some 0xFFFFFFFF
    ∧ (∀ startAddress length refAddress,
        MultiImage.CRC32_Validate erasedView startAddress length refAddress
          = if isSentinel ((erasedView.wordAt refAddress).getD 0)
                ∨ isSentinel (erasedView.crcEngine startAddress length 0xFFFFFFFF) then
              BL_ERROR_INVALID_ARGUMENTS
            else if (erasedView.wordAt refAddress).getD 0
                ≠ erasedView.crcEngine startAddress length 0xFFFFFFFF then
              BL_ERROR_VERIFICATION_FAIL
            else BL_PASS)
    ∧ MultiImage.BL_ImageVerifyById erasedView twoSlotConfig 1 ≠ BL_PASS :=
  ⟨by decide, crc_validate_sentinel_aware erasedView twoSlotConfig 1 (by decide)⟩

theorem SingleImage_BL_ImageVerify_pass (nvm : NvmView)
    (h : nvm.wordAt 0x1FFFC = some (nvm.crcEngine BL_APPLICATION_START_ADDRESS
      (BL_IMAGE_PARTITION_SIZE - BL_HASH_DATA_SIZE) 0xFFFFFFFF)) :
    SingleImage.BL_ImageVerify nvm = BL_PASS := by
  unfold SingleImage.BL_ImageVerify SingleImage.CRC32_Validate SingleImage.CRC32_Calculate
  simp [h]

/-- C20, the code at the failing input: in the single-image build, when the reference
word at 0x1FFFC reads 0xFFFFFFFF and the CRC engine delivers 0xFFFFFFFF,
`BL_ImageVerify` returns BL_PASS, where `CRC32_Validate` of the multi-image build
returns BL_ERROR_INVALID_ARGUMENTS on the same values. -/
theorem single_image_erased_reference_passes :
    erasedView.wordAt 0x1FFFC = some 0xFFFFFFFF
      ∧ erasedView.crcEngine BL_APPLICATION_START_ADDRESS
          (BL_IMAGE_PARTITION_SIZE - BL_HASH_DATA_SIZE) 0xFFFFFFFF = 0xFFFFFFFF
      ∧ SingleImage.BL_ImageVerify erasedView = BL_PASS
      ∧ MultiImage.CRC32_Validate erasedView BL_APPLICATION_START_ADDRESS
          (BL_IMAGE_PARTITION_SIZE - BL_HASH_DATA_SIZE) 0x1FFFC
            = BL_ERROR_INVALID_ARGUMENTS :=
  ⟨rfl, rfl, SingleImage_BL_ImageVerify_pass erasedView rfl, by decide⟩


/-! ### Flash copy helper -/

theorem BL_FlashCopy_overlap_no_wrap (cfg : BuildConfig) (env : MemEnv)
    (srcAddress destAddress length : Nat) (ops : List MemOp)
    (hs : srcAddress + length < 4294967296) (hd : destAddress + length < 4294967296)
    (hov : srcAddress < destAddress + length ∧ destAddress < srcAddress + length) :
    BL_FlashCopy cfg env srcAddress destAddress length ops = (BL_MEM_INVALID_ARG, ops) := by
  unfold BL_FlashCopy
  simp only [Nat.mod_eq_of_lt hs, Nat.mod_eq_of_lt hd]
  by_cases h1 : srcAddress > 0x20000 ∨ destAddress > 0x20000
  · rw [if_pos h1]
  · rw [if_neg h1, if_pos]
    omega

theorem BL_FlashCopy_never_fail (cfg : BuildConfig) (env : MemEnv)
    (srcAddress destAddress length : Nat) (ops : List MemOp) :
    (BL_FlashCopy cfg env srcAddress destAddress length ops).1 ≠ BL_MEM_FAIL := by
  unfold BL_FlashCopy
  dsimp only
  split_ifs with h1 h2 h3 h4
  · simp
  · simp
  · simp
  · simp
  · cases hr : env.read srcAddress length
    · simp [boolAsMemResult]
    · rw [hr] at h4
      exact absurd rfl h4

theorem BL_FlashCopy_proceeds (cfg : BuildConfig) (env : MemEnv)
    (srcAddress destAddress length : Nat) (ops : List MemOp)
    (h : (BL_FlashCopy cfg env srcAddress destAddress length ops).2 ≠ ops) :
    srcAddress ≤ 0x20000 ∧ destAddress ≤ 0x20000 ∧ 0 < length
      ∧ (srcAddress + length) % 4294967296 ≤ 0x20001
      ∧ (destAddress + length) % 4294967296 ≤ 0x20001 := by
  unfold BL_FlashCopy at h
  dsimp only at h
  split_ifs at h with h1 h2 h3 h4
  · exact absurd rfl h
  · exact absurd rfl h
  · exact absurd rfl h
  · omega
  · omega

/-- C24, the code at the failing input: the ranges [0x2000, 0x2000 + 0xFFFFFFFF) and
[0x2080, 0x2080 + 0xFFFFFFFF) intersect, yet for every behaviour of the flash driver
`BL_FlashCopy` with src = 0x2000, dest = 0x2080, length = 0xFFFFFFFF does not return
BL_MEM_INVALID_ARG and starts with a read of 0xFFFFFFFF bytes; with a driver that reports
success it goes on to erase the row at 0x2080 and to write four pages and returns
BL_MEM_PASS.  Both end addresses wrap modulo 2^32 (to 0x1FFF and 0x207F).  The ranges
of the same addresses with length 0x100 are rejected without any driver call. -/
theorem flash_copy_overlap_wraps :
    (0x2000 < 0x2080 + 0xFFFFFFFF ∧ 0x2080 < 0x2000 + 0xFFFFFFFF)
    ∧ (∀ env : MemEnv,
        (BL_FlashCopy exampleConfig env 0x2000 0x2080 0xFFFFFFFF []).1 ≠ BL_MEM_INVALID_ARG
        ∧ (BL_FlashCopy exampleConfig env 0x2000 0x2080 0xFFFFFFFF []).2.head?
            = some (MemOp.Read 0x2000 0xFFFFFFFF (env.read 0x2000 0xFFFFFFFF)))
    ∧ BL_FlashCopy exampleConfig healthyMemEnv 0x2000 0x2080 0xFFFFFFFF []
        = (BL_MEM_PASS,
            [MemOp.Read 0x2000 0xFFFFFFFF true,
              MemOp.RegionUnlock 0x2080, MemOp.RowErase 0x2080 true, MemOp.RegionLock 0x2080,
              MemOp.RegionUnlock 0x2080, MemOp.PageWrite 0 0x2080 true, MemOp.RegionLock 0x2080,
              MemOp.RegionUnlock 0x2080, MemOp.PageWrite 16 0x20C0 true, MemOp.RegionLock 0x2080,
              MemOp.RegionUnlock 0x2080, MemOp.PageWrite 32 0x2100 true, MemOp.RegionLock 0x2080,
              MemOp.RegionUnlock 0x2080, MemOp.PageWrite 48 0x2140 true, MemOp.RegionLock 0x2080])
    ∧ BL_FlashCopy exampleConfig healthyMemEnv 0x2000 0x2080 0x100 []
        = (BL_MEM_INVALID_ARG, []) := by
  refine ⟨by decide, ?_, by decide, by decide⟩
  intro env
  cases hr : env.read 0x2000 0xFFFFFFFF <;>
    simp [BL_FlashCopy, boolAsMemResult, hr]

/-- C25, the code at the failing input: `BL_FlashCopy` with src = 0x1000,
dest = 0x20000, length = 1 has dest + length - 1 = 0x20000 above 0x1FFFF, yet it is not
rejected: the source is read, the row at 0x20000 is erased and the pages at 0x20000,
0x20040, 0x20080 and 0x200C0 are written; with src = 0x20000, dest = 0x1000 the byte at
0x20000 is read; with src = 0x1FF00, dest = 0x1000, length = 0x101 the range read ends at
0x20000; with src = 0x100, dest = 0x10000, length = 0xFFFFFF00 both end addresses wrap and
a read of 0xFFFFFF00 bytes is made.  Addresses above 0x20000 and end addresses above
0x20001 are rejected. -/
theorem flash_copy_range_check_lenient :
    (¬ (0x20000 + 1 - 1 ≤ 0x1FFFF))
    ∧ BL_FlashCopy exampleConfig healthyMemEnv 0x1000 0x20000 1 []
        = (BL_MEM_PASS,
            [MemOp.Read 0x1000 1 true,
              MemOp.RegionUnlock 0x20000, MemOp.RowErase 0x20000 true, MemOp.RegionLock 0x20000,
              MemOp.RegionUnlock 0x20000, MemOp.PageWrite 0 0x20000 true,
              MemOp.RegionLock 0x20000,
              MemOp.RegionUnlock 0x20000, MemOp.PageWrite 16 0x20040 true,
              MemOp.RegionLock 0x20000,
              MemOp.RegionUnlock 0x20000, MemOp.PageWrite 32 0x20080 true,
              MemOp.RegionLock 0x20000,
              MemOp.RegionUnlock 0x20000, MemOp.PageWrite 48 0x200C0 true,
              MemOp.RegionLock 0x20000])
    ∧ (BL_FlashCopy exampleConfig healthyMemEnv 0x20000 0x1000 1 []).1 = BL_MEM_PASS
    ∧ (BL_FlashCopy exampleConfig healthyMemEnv 0x20000 0x1000 1 []).2.head?
        = some (MemOp.Read 0x20000 1 true)
    ∧ (¬ (0x1FF00 + 0x101 - 1 ≤ 0x1FFFF))
    ∧ (BL_FlashCopy exampleConfig healthyMemEnv 0x1FF00 0x1000 0x101 []).1 = BL_MEM_PASS
    ∧ (BL_FlashCopy exampleConfig healthyMemEnv 0x1FF00 0x1000 0x101 []).2.head?
        = some (MemOp.Read 0x1FF00 0x101 true)
    ∧ (BL_FlashCopy exampleConfig healthyMemEnv 0x100 0x10000 0xFFFFFF00 []).1 = BL_MEM_PASS
    ∧ (BL_FlashCopy exampleConfig healthyMemEnv 0x100 0x10000 0xFFFFFF00 []).2.head?
        = some (MemOp.Read 0x100 0xFFFFFF00 true)
    ∧ BL_FlashCopy exampleConfig healthyMemEnv 0x1000 0x20001 1 [] = (BL_MEM_INVALID_ARG, [])
    ∧ BL_FlashCopy exampleConfig healthyMemEnv 0x1000 0x20000 2 []
        = (BL_MEM_INVALID_ARG, []) := by
  decide

theorem BL_CopyImageAreas_read_failures :
    BL_CopyImageAreas exampleConfig twoSlotConfig readFailsMemEnv 240 1 0 []
      = some (BL_PASS,
          (List.range 240).map (fun k => MemOp.Read (0x11000 + 256 * k) 256 false)) := by
  decide!

/-- C26, the code at the failing input: when `NVMCTRL_Read` reports failure,
`BL_FlashCopy` returns BL_MEM_PASS (the `false` stored in `result` is the code of
BL_MEM_PASS) without erasing or writing, and `BL_CopyImageAreas` from slot 1 to slot 0
goes through all 240 rows and returns BL_PASS with nothing copied; when the row erase
and every page write report failure, `BL_FlashCopy` returns BL_MEM_PASS as well; and
BL_MEM_FAIL is never returned. -/
theorem flash_copy_ignores_failures :
    BL_FlashCopy exampleConfig readFailsMemEnv 0x11000 0x2000 256 []
        = (BL_MEM_PASS, [MemOp.Read 0x11000 256 false])
    ∧ BL_CopyImageAreas exampleConfig twoSlotConfig readFailsMemEnv 240 1 0 []
        = some (BL_PASS,
            (List.range 240).map (fun k => MemOp.Read (0x11000 + 256 * k) 256 false))
    ∧ BL_FlashCopy exampleConfig writeFailsMemEnv 0x11000 0x2000 256 []
        = (BL_MEM_PASS,
            [MemOp.Read 0x11000 256 true,
              MemOp.RegionUnlock 0x2000, MemOp.RowErase 0x2000 false, MemOp.RegionLock 0x2000,
              MemOp.RegionUnlock 0x2000, MemOp.PageWrite 0 0x2000 false, MemOp.RegionLock 0x2000,
              MemOp.RegionUnlock 0x2000, MemOp.PageWrite 16 0x2040 false, MemOp.RegionLock 0x2000,
              MemOp.RegionUnlock 0x2000, MemOp.PageWrite 32 0x2080 false, MemOp.RegionLock 0x2000,
              MemOp.RegionUnlock 0x2000, MemOp.PageWrite 48 0x20C0 false, MemOp.RegionLock 0x2000])
    ∧ (BL_FlashCopy exampleConfig writeFailsMemEnv 0x11000 0x2000 256 []).2.any MemOp.failed
        = true
    ∧ (∀ (cfg : BuildConfig) (env : MemEnv) (srcAddress destAddress length : Nat)
        (ops : List MemOp),
        (BL_FlashCopy cfg env srcAddress destAddress length ops).1 ≠ BL_MEM_FAIL) :=
  ⟨by decide, BL_CopyImageAreas_read_failures, by decide, by decide, BL_FlashCopy_never_fail⟩

/-! ### Verifier of the multi-image build: argument check -/

theorem BL_ImageVerifyByIdTraced_fst (nvm : NvmView) (icfg : ImageConfig)
    (installLocationId : Nat) :
    (BL_ImageVerifyByIdTraced nvm icfg installLocationId).1
      = MultiImage.BL_ImageVerifyById nvm icfg installLocationId := by
  unfold BL_ImageVerifyByIdTraced MultiImage.BL_ImageVerifyById
  dsimp only
  split_ifs <;> rfl

/-- C21: verifier argument check.  For every slot id and every footer the read delivers
(the zero record when the read fails), in a build with at least one image slot,
`BL_ImageVerifyById` returns BL_ERROR_INVALID_ARGUMENTS and makes no call of
`CRC32_Validate` whenever verificationStartAddress is 0, or
(verificationEndAddress + 1 - verificationStartAddress) mod 2^32 is 0, or the slot id is
not below BL_APPLICATION_IMAGE_COUNT. -/
theorem BL_ImageVerifyById_argument_check (nvm : NvmView) (icfg : ImageConfig)
    (installLocationId : Nat)
    (hcount : 0 < icfg.BL_APPLICATION_IMAGE_COUNT)
    (hcount32 : icfg.BL_APPLICATION_IMAGE_COUNT < 4294967296)
    (h : (BL_ApplicationFooterRead nvm icfg installLocationId zeroFooter).2.verificationStartAddress
          = 0
      ∨ (((BL_ApplicationFooterRead nvm icfg installLocationId
              zeroFooter).2.verificationEndAddress : Int) + 1
          - ((BL_ApplicationFooterRead nvm icfg installLocationId
              zeroFooter).2.verificationStartAddress : Int)) % 4294967296 = 0
      ∨ ¬ installLocationId < icfg.BL_APPLICATION_IMAGE_COUNT) :
    MultiImage.BL_ImageVerifyById nvm icfg installLocationId = BL_ERROR_INVALID_ARGUMENTS
      ∧ (BL_ImageVerifyByIdTraced nvm icfg installLocationId).2 = [] := by
  have key : (BL_ImageVerifyByIdTraced nvm icfg installLocationId)
      = (BL_ERROR_INVALID_ARGUMENTS, []) := by
    unfold BL_ImageVerifyByIdTraced
    dsimp only
    rw [if_pos]
    omega
  refine ⟨?_, ?_⟩
  · rw [← BL_ImageVerifyByIdTraced_fst, key]
  · rw [key]

theorem BL_ImageVerifyById_argument_check_witness :
    (0 < twoSlotConfig.BL_APPLICATION_IMAGE_COUNT
      ∧ twoSlotConfig.BL_APPLICATION_IMAGE_COUNT < 4294967296
      ∧ ((BL_ApplicationFooterRead (windowView 0x2000 0x1FFF) twoSlotConfig 0
              zeroFooter).2.verificationStartAddress = 0
          ∨ (((BL_ApplicationFooterRead (windowView 0x2000 0x1FFF) twoSlotConfig 0
                  zeroFooter).2.verificationEndAddress : Int) + 1
              - ((BL_ApplicationFooterRead (windowView 0x2000 0x1FFF) twoSlotConfig 0
                  zeroFooter).2.verificationStartAddress : Int)) % 4294967296 = 0
          ∨ ¬ 0 < twoSlotConfig.BL_APPLICATION_IMAGE_COUNT))
    ∧ MultiImage.BL_ImageVerifyById (windowView 0x2000 0x1FFF) twoSlotConfig 0
        = BL_ERROR_INVALID_ARGUMENTS
    ∧ (BL_ImageVerifyByIdTraced (windowView 0x2000 0x1FFF) twoSlotConfig 0).2 = [] :=
  ⟨⟨by decide, by decide, by decide⟩,
    BL_ImageVerifyById_argument_check (windowView 0x2000 0x1FFF) twoSlotConfig 0
      (by decide) (by decide) (by decide)⟩

/-- C22, the code at the failing input: a footer of the execution slot whose
verificationEndAddress 0x1000 lies below its verificationStartAddress 0x2000, and a
footer whose verificationEndAddress is zero, are not rejected: the window length wraps
to 0xFFFFF001 (to 0xFFFFE001), `CRC32_Validate` is called, and with a CRC engine result
equal to the reference word `BL_ImageVerifyById` returns BL_PASS.  Only the inverted
window with verificationEndAddress + 1 = verificationStartAddress is rejected. -/
theorem inverted_window_verifies :
    MultiImage.BL_ImageVerifyById (windowView 0x2000 0x1000) twoSlotConfig IMAGE_0 = BL_PASS
    ∧ (BL_ImageVerifyByIdTraced (windowView 0x2000 0x1000) twoSlotConfig IMAGE_0).2
        = [{ startAddress := 0x2000, length := 0xFFFFF001, refAddress := 0x10FFC }]
    ∧ MultiImage.BL_ImageVerifyById (windowView 0x2000 0) twoSlotConfig IMAGE_0 = BL_PASS
    ∧ (BL_ImageVerifyByIdTraced (windowView 0x2000 0) twoSlotConfig IMAGE_0).2
        = [{ startAddress := 0x2000, length := 0xFFFFE001, refAddress := 0x10FFC }]
    ∧ MultiImage.BL_ImageVerifyById (windowView 0x2000 0x1FFF) twoSlotConfig IMAGE_0
        = BL_ERROR_INVALID_ARGUMENTS := by
  decide

theorem MultiImage_BL_ImageVerifyById_erased (nvm : NvmView) (icfg : ImageConfig)
    (installLocationId : Nat)
    (hword : nvm.wordAt ((BL_ApplicationFooterStartAddressGet icfg installLocationId
        + icfg.HASH_DATA_OFFSET) % 4294967296) = some 0xFFFFFFFF) :
    MultiImage.BL_ImageVerifyById nvm icfg installLocationId = BL_ERROR_INVALID_ARGUMENTS := by
  unfold MultiImage.BL_ImageVerifyById
  dsimp only
  split_ifs
  all_goals first
    | rfl
    | (rw [MultiImage_CRC32_Validate_cases, hword, if_pos]
       left
       right
       rfl)

theorem OperationalBlockExecute_image_state (cfg : BuildConfig) (fuel : Nat) (env : TaskEnv)
    (s : FtpState)
    (hcmd : s.FTP_RECEIVE_BUFFER.getD FTP_BYTE_INDEX 0 = FTP_GET_IMAGE_STATE)
    (hlen : 3 ≤ s.FTP_RESPONSE_BUFFER.length)
    (hseq : s.ftpHelper.currentSequenceNumber < 256) :
    ∃ t, OperationalBlockExecute cfg fuel env s = some (env.imageVerifyResult, t)
      ∧ t.FTP_RESPONSE_BUFFER.take t.ftpResponseLength
          = [s.ftpHelper.currentSequenceNumber, FTP_COMMAND_SUCCESS,
              if env.imageVerifyResult = BL_PASS then FTP_IMAGE_VALID else FTP_IMAGE_INVALID]
      ∧ t.ftpResponseLength = 3
      ∧ t.core = s.core := by
  have hne : ¬ (FTP_GET_IMAGE_STATE = FTP_GET_CLIENT_INFO) := by decide
  unfold OperationalBlockExecute
  simp only [hcmd, hne, if_false, if_true]
  refine ⟨_, rfl, ?_, ?_, rfl⟩
  · unfold responseSet
    dsimp only
    have h := ResponseSet_retry s.FTP_RESPONSE_BUFFER hlen FTP_COMMAND_SUCCESS
      s.ftpHelper.currentSequenceNumber
      (if env.imageVerifyResult = BL_PASS then FTP_IMAGE_VALID else FTP_IMAGE_INVALID)
    rw [h.2, h.1, Nat.mod_eq_of_lt hseq]
    rfl
  · unfold responseSet
    dsimp only
    exact (ResponseSet_retry s.FTP_RESPONSE_BUFFER hlen FTP_COMMAND_SUCCESS
      s.ftpHelper.currentSequenceNumber _).2

/-- C23: erased image is reported invalid.  For every image slot whose footer reads as
all 0xFF bytes (the reference word at HASH_DATA_OFFSET of the footer included),
`BL_ImageVerifyById` returns a result different from BL_PASS whatever the CRC engine
computes; and when that slot is the staging slot that `BL_ImageVerify` checks, the
GetImageState response built by `OperationalBlockExecute` is
[current sequence number, 0x01, 0x02] of length 3. -/
theorem erased_image_reported_invalid (nvm : NvmView) (icfg : ImageConfig)
    (installLocationId : Nat)
    (hfooter : nvm.footerAt (BL_ApplicationFooterStartAddressGet icfg installLocationId)
      = some erasedFooter)
    (hword : nvm.wordAt ((BL_ApplicationFooterStartAddressGet icfg installLocationId
        + icfg.HASH_DATA_OFFSET) % 4294967296) = some 0xFFFFFFFF) :
    (BL_ApplicationFooterRead nvm icfg installLocationId zeroFooter).2 = erasedFooter
    ∧ MultiImage.BL_ImageVerifyById nvm icfg installLocationId ≠ BL_PASS
    ∧ (installLocationId = icfg.BL_STAGING_IMAGE_ID →
        MultiImage.BL_ImageVerify nvm icfg ≠ BL_PASS
        ∧ ∀ (cfg : BuildConfig) (fuel : Nat) (env : TaskEnv) (s : FtpState),
          env.imageVerifyResult = MultiImage.BL_ImageVerify nvm icfg →
          s.FTP_RECEIVE_BUFFER.getD FTP_BYTE_INDEX 0 = FTP_GET_IMAGE_STATE →
          3 ≤ s.FTP_RESPONSE_BUFFER.length →
          s.ftpHelper.currentSequenceNumber < 256 →
          ∃ r t, OperationalBlockExecute cfg fuel env s = some (r, t)
            ∧ r ≠ BL_PASS
            ∧ t.FTP_RESPONSE_BUFFER.take t.ftpResponseLength
                = [s.ftpHelper.currentSequenceNumber, 0x01, 0x02]
            ∧ t.ftpResponseLength = 3) := by
  have hv := MultiImage_BL_ImageVerifyById_erased nvm icfg installLocationId hword
  have hne : BL_ERROR_INVALID_ARGUMENTS ≠ BL_PASS := by decide
  refine ⟨?_, ?_, ?_⟩
  · unfold BL_ApplicationFooterRead
    dsimp only
    rw [hfooter]
  · rw [hv]
    exact hne
  · intro hst
    have hverify : MultiImage.BL_ImageVerify nvm icfg = BL_ERROR_INVALID_ARGUMENTS := by
      unfold MultiImage.BL_ImageVerify
      dsimp only
      rw [← hst, hv, if_neg]
      intro hc
      exact hne hc.2
    refine ⟨by rw [hverify]; exact hne, ?_⟩
    intro cfg fuel env s henv hcmd hlen hseq
    obtain ⟨t, ht, hbytes, hl, -⟩ := OperationalBlockExecute_image_state cfg fuel env s hcmd
      hlen hseq
    refine ⟨_, t, ht, ?_, ?_, hl⟩
    · rw [henv, hverify]
      exact hne
    · rw [hbytes, henv, hverify, if_neg hne]
      rfl

theorem erased_image_reported_invalid_witness :
    ((erasedStagingView 0x12345678).footerAt (BL_ApplicationFooterStartAddressGet twoSlotConfig 1)
        = some erasedFooter
      ∧ (erasedStagingView 0x12345678).wordAt
          ((BL_ApplicationFooterStartAddressGet twoSlotConfig 1
            + twoSlotConfig.HASH_DATA_OFFSET) % 4294967296) = some 0xFFFFFFFF)
    ∧ (BL_ApplicationFooterRead (erasedStagingView 0x12345678) twoSlotConfig 1 zeroFooter).2
        = erasedFooter
    ∧ MultiImage.BL_ImageVerifyById (erasedStagingView 0x12345678) twoSlotConfig 1 ≠ BL_PASS
    ∧ (1 = twoSlotConfig.BL_STAGING_IMAGE_ID →
        MultiImage.BL_ImageVerify (erasedStagingView 0x12345678) twoSlotConfig ≠ BL_PASS
        ∧ ∀ (cfg : BuildConfig) (fuel : Nat) (env : TaskEnv) (s : FtpState),
          env.imageVerifyResult
            = MultiImage.BL_ImageVerify (erasedStagingView 0x12345678) twoSlotConfig →
          s.FTP_RECEIVE_BUFFER.getD FTP_BYTE_INDEX 0 = FTP_GET_IMAGE_STATE →
          3 ≤ s.FTP_RESPONSE_BUFFER.length →
          s.ftpHelper.currentSequenceNumber < 256 →
          ∃ r t, OperationalBlockExecute cfg fuel env s = some (r, t)
            ∧ r ≠ BL_PASS
            ∧ t.FTP_RESPONSE_BUFFER.take t.ftpResponseLength
                = [s.ftpHelper.currentSequenceNumber, 0x01, 0x02]
            ∧ t.ftpResponseLength = 3) :=
  ⟨⟨by decide, by decide⟩,
    erased_image_reported_invalid (erasedStagingView 0x12345678) twoSlotConfig 1
      (by decide) (by decide)⟩

/-! ### Discovery response -/

theorem ClientInfoResponseSet_buffer (cfg : BuildConfig) (s : FtpState)
    (hlen : s.FTP_RESPONSE_BUFFER.length = MAX_RESPONSE_SIZE) :
    (ClientInfoResponseSet cfg s).FTP_RESPONSE_BUFFER
        = [s.ftpHelper.currentSequenceNumber, 0x01,
            0x01, 0x03, 0x01, 0x02, 0x00,
            0x02, 0x03, BL_MAX_BUFFER_SIZE cfg % 65536 % 256, BL_MAX_BUFFER_SIZE cfg % 65536 / 256,
              0x01,
            0x03, 0x03, 0x00, 0x64, 0x00,
            0x04, 0x04, 0x60, 0xE3, 0x16, 0x00] ++ s.FTP_RESPONSE_BUFFER.drop 23
      ∧ (ClientInfoResponseSet cfg s).ftpResponseLength = 23 := by
  obtain ⟨buf, hbuf⟩ : ∃ buf, buf = s.FTP_RESPONSE_BUFFER := ⟨_, rfl⟩
  rw [← hbuf] at hlen
  unfold ClientInfoResponseSet
  rw [← hbuf]
  match buf, hlen with
  | [x0, x1, x2, x3, x4, x5, x6, x7, x8, x9, x10, x11, x12, x13, x14, x15, x16, x17, x18, x19,
      x20, x21, x22, x23, x24], _ =>
    simp [TLVAppend, memcpyAt, SEQUENCE_BYTE_INDEX, FTP_BYTE_INDEX, FILE_DATA_INDEX,
      COMMAND_DATA_SIZE, SEQUENCE_DATA_SIZE, TLV_HEADER_SIZE, FTP_COMMAND_SUCCESS,
      PACKET_BUFFER_COUNT]

/-- C27: discovery response layout.  For every current sequence number `s` (the response
buffer has its declared size), `ClientInfoResponseSet` sets ftpResponseLength to 23 and
leaves in the response buffer the 23 bytes [s, 0x01, 0x01,0x03,0x01,0x02,0x00,
0x02,0x03,lo(M),hi(M),0x01, 0x03,0x03,0x00,0x64,0x00, 0x04,0x04,0x60,0xE3,0x16,0x00]
with M = BL_MAX_BUFFER_SIZE; the bytes after the two header bytes split into exactly
four type-length-value records with types 1, 2, 3, 4 and lengths 3, 3, 3, 4. -/
theorem ClientInfoResponseSet_layout (cfg : BuildConfig) (s : FtpState)
    (hlen : s.FTP_RESPONSE_BUFFER.length = MAX_RESPONSE_SIZE) :
    (ClientInfoResponseSet cfg s).ftpResponseLength = 23
    ∧ (ClientInfoResponseSet cfg s).FTP_RESPONSE_BUFFER.take
          (ClientInfoResponseSet cfg s).ftpResponseLength
        = [s.ftpHelper.currentSequenceNumber, 0x01,
            0x01, 0x03, 0x01, 0x02, 0x00,
            0x02, 0x03, BL_MAX_BUFFER_SIZE cfg % 256, BL_MAX_BUFFER_SIZE cfg / 256 % 256, 0x01,
            0x03, 0x03, 0x00, 0x64, 0x00,
            0x04, 0x04, 0x60, 0xE3, 0x16, 0x00]
    ∧ tlvRecordsSpec (((ClientInfoResponseSet cfg s).FTP_RESPONSE_BUFFER.take
          (ClientInfoResponseSet cfg s).ftpResponseLength).drop 2)
        = some [(1, [0x01, 0x02, 0x00]),
            (2, [BL_MAX_BUFFER_SIZE cfg % 256, BL_MAX_BUFFER_SIZE cfg / 256 % 256, 0x01]),
            (3, [0x00, 0x64, 0x00]),
            (4, [0x60, 0xE3, 0x16, 0x00])] := by
  obtain ⟨hbuf, hl⟩ := ClientInfoResponseSet_buffer cfg s hlen
  have hlo : BL_MAX_BUFFER_SIZE cfg % 65536 % 256 = BL_MAX_BUFFER_SIZE cfg % 256 := by omega
  have hhi : BL_MAX_BUFFER_SIZE cfg % 65536 / 256 = BL_MAX_BUFFER_SIZE cfg / 256 % 256 := by
    omega
  rw [hl, hbuf, hlo, hhi]
  refine ⟨rfl, ?_, ?_⟩
  · simp
  · simp [tlvRecordsSpec, tlvRecordsSpecAux]

theorem ClientInfoResponseSet_layout_witness :
    (FtpState.initial exampleConfig).FTP_RESPONSE_BUFFER.length = MAX_RESPONSE_SIZE
    ∧ (ClientInfoResponseSet exampleConfig (FtpState.initial exampleConfig)).ftpResponseLength
        = 23
    ∧ (ClientInfoResponseSet exampleConfig (FtpState.initial exampleConfig)).FTP_RESPONSE_BUFFER.take
          (ClientInfoResponseSet exampleConfig (FtpState.initial exampleConfig)).ftpResponseLength
        = [(FtpState.initial exampleConfig).ftpHelper.currentSequenceNumber, 0x01,
            0x01, 0x03, 0x01, 0x02, 0x00,
            0x02, 0x03, BL_MAX_BUFFER_SIZE exampleConfig % 256,
              BL_MAX_BUFFER_SIZE exampleConfig / 256 % 256, 0x01,
            0x03, 0x03, 0x00, 0x64, 0x00,
            0x04, 0x04, 0x60, 0xE3, 0x16, 0x00]
    ∧ tlvRecordsSpec (((ClientInfoResponseSet exampleConfig
          (FtpState.initial exampleConfig)).FTP_RESPONSE_BUFFER.take
          (ClientInfoResponseSet exampleConfig
            (FtpState.initial exampleConfig)).ftpResponseLength).drop 2)
        = some [(1, [0x01, 0x02, 0x00]),
            (2, [BL_MAX_BUFFER_SIZE exampleConfig % 256,
              BL_MAX_BUFFER_SIZE exampleConfig / 256 % 256, 0x01]),
            (3, [0x00, 0x64, 0x00]),
            (4, [0x60, 0xE3, 0x16, 0x00])] :=
  ⟨by decide, ClientInfoResponseSet_layout exampleConfig (FtpState.initial exampleConfig)
    (by decide)⟩

/-- C28, as stated, fails: for 64-byte pages the response to GetClientInfo carries in
its transfer-parameters record (type 0x02 at byte 7, value from byte 9) the maximum
payload size 71, while BL_WRITE_BYTE_LENGTH is 64; an Unlock block that announces the
payload size 71 is rejected with BL_ERROR_VERIFICATION_FAIL. -/
theorem discovery_payload_size_counterexample :
    (∃ call, outcomeFrameSet
          (FTP_Task exampleConfig 0 envGetClientInfo (FtpState.initial exampleConfig))
        = some call
      ∧ call.bytes.getD 7 0 = 0x02
      ∧ le16 call.bytes 9 = 71)
    ∧ BL_WRITE_BYTE_LENGTH exampleConfig = 64
    ∧ (metadataPacketRead unlockBlockPayload71).maxPayloadSize = 71
    ∧ BL_BootCommandProcess exampleConfig 131071 0x11070200 true unlockBlockPayload71 16
        lockedCore = some (BL_ERROR_VERIFICATION_FAIL, lockedCore) := by
  refine ⟨⟨_, rfl, ?_, ?_⟩, ?_, ?_, ?_⟩
  all_goals set_option maxRecDepth 100000 in decide

/-- C28, amended: in the response `ClientInfoResponseSet` builds, the
transfer-parameters record (type 0x02 at byte 7, length 3) carries as little-endian
maximum payload size the 16-bit value of BL_MAX_BUFFER_SIZE, the size of the largest
operational block, which is BL_WRITE_BYTE_LENGTH + 7: seven more than the value the
Unlock check requires maxPayloadSize to equal. -/
theorem discovery_payload_size (cfg : BuildConfig) (s : FtpState)
    (hlen : s.FTP_RESPONSE_BUFFER.length = MAX_RESPONSE_SIZE) :
    (ClientInfoResponseSet cfg s).FTP_RESPONSE_BUFFER.getD 7 0 = 0x02
    ∧ (ClientInfoResponseSet cfg s).FTP_RESPONSE_BUFFER.getD 8 0 = 3
    ∧ le16 (ClientInfoResponseSet cfg s).FTP_RESPONSE_BUFFER 9
        = (BL_WRITE_BYTE_LENGTH cfg + 7) % 65536
    ∧ BL_MAX_BUFFER_SIZE cfg = BL_WRITE_BYTE_LENGTH cfg + 7
    ∧ ∀ (h : Nat) (m : bl_unlock_boot_metadata_t), unlockChecksHold cfg h m →
        m.maxPayloadSize = BL_WRITE_BYTE_LENGTH cfg := by
  obtain ⟨hbuf, -⟩ := ClientInfoResponseSet_buffer cfg s hlen
  have hM : BL_MAX_BUFFER_SIZE cfg = BL_WRITE_BYTE_LENGTH cfg + 7 := by
    unfold BL_MAX_BUFFER_SIZE BL_BLOCK_HEADER_SIZE BL_COMMAND_HEADER_SIZE
    omega
  rw [hbuf]
  refine ⟨rfl, rfl, ?_, hM, fun _ m hm => hm.2.2.2.1⟩
  unfold le16
  simp only [List.cons_append, List.getD_cons_succ, List.getD_cons_zero]
  rw [← hM]
  omega

theorem discovery_payload_size_witness :
    (FtpState.initial exampleConfig).FTP_RESPONSE_BUFFER.length = MAX_RESPONSE_SIZE
    ∧ (ClientInfoResponseSet exampleConfig
        (FtpState.initial exampleConfig)).FTP_RESPONSE_BUFFER.getD 7 0 = 0x02
    ∧ (ClientInfoResponseSet exampleConfig
        (FtpState.initial exampleConfig)).FTP_RESPONSE_BUFFER.getD 8 0 = 3
    ∧ le16 (ClientInfoResponseSet exampleConfig
        (FtpState.initial exampleConfig)).FTP_RESPONSE_BUFFER 9
        = (BL_WRITE_BYTE_LENGTH exampleConfig + 7) % 65536
    ∧ BL_MAX_BUFFER_SIZE exampleConfig = BL_WRITE_BYTE_LENGTH exampleConfig + 7
    ∧ ∀ (h : Nat) (m : bl_unlock_boot_metadata_t), unlockChecksHold exampleConfig h m →
        m.maxPayloadSize = BL_WRITE_BYTE_LENGTH exampleConfig :=
  ⟨by decide, discovery_payload_size exampleConfig (FtpState.initial exampleConfig)
    (by decide)⟩

/-! ### Dispatch of WriteChunk and StartTransfer -/

theorem ResponseSet_status (buf : List Nat) (hlen : 2 ≤ buf.length) (st sq : Nat) :
    (ResponseSet buf none st sq 0).1.take 2 = [sq % 256, st % 256]
      ∧ (ResponseSet buf none st sq 0).2 = 2 := by
  match buf, hlen with
  | x :: y :: rest, _ =>
    simp [ResponseSet, SEQUENCE_BYTE_INDEX, FTP_BYTE_INDEX, COMMAND_DATA_SIZE,
      SEQUENCE_DATA_SIZE]

theorem AbortCodeGet_table (r : bl_result_t) : AbortCodeGet r = abortCodeSpec r := by
  cases r <;> rfl

theorem OperationalBlockExecute_write_chunk (cfg : BuildConfig) (fuel : Nat) (env : TaskEnv)
    (s : FtpState) (r : bl_result_t) (core1 : CoreState)
    (hcmd : s.FTP_RECEIVE_BUFFER.getD FTP_BYTE_INDEX 0 = FTP_WRITE_CHUNK)
    (hlen : 3 ≤ s.FTP_RESPONSE_BUFFER.length)
    (hseq : s.ftpHelper.currentSequenceNumber < 256)
    (hproc : BL_BootCommandProcess cfg fuel env.deviceIdRegister env.pageWriteStatus
        (s.FTP_RECEIVE_BUFFER.drop FILE_DATA_INDEX)
        ((s.ftpReceiveCount + 4294967296 - COMMAND_DATA_SIZE - SEQUENCE_DATA_SIZE
          - FRAME_CHECK_SIZE) % 4294967296 % 65536) s.core = some (r, core1)) :
    ∃ t, OperationalBlockExecute cfg fuel env s = some (r, t)
      ∧ t.core = core1
      ∧ t.FTP_RESPONSE_BUFFER.take t.ftpResponseLength
          = (if r = BL_PASS then [s.ftpHelper.currentSequenceNumber, FTP_COMMAND_SUCCESS]
              else [s.ftpHelper.currentSequenceNumber, FTP_ABORT_TRANSFER, AbortCodeGet r])
      ∧ t.ftpResponseLength = (if r = BL_PASS then 2 else 3) := by
  have hne1 : ¬ (FTP_WRITE_CHUNK = FTP_GET_CLIENT_INFO) := by decide
  have hne2 : ¬ (FTP_WRITE_CHUNK = FTP_GET_IMAGE_STATE) := by decide
  have hne3 : ¬ (FTP_WRITE_CHUNK = FTP_START_TRANSFER) := by decide
  have hlen2 : 2 ≤ s.FTP_RESPONSE_BUFFER.length := by omega
  unfold OperationalBlockExecute
  simp only [hcmd, hne1, hne2, hne3, if_false, if_true, hproc]
  by_cases hr : r = BL_PASS
  · simp only [hr, if_true]
    refine ⟨_, rfl, rfl, ?_, ?_⟩
    · unfold responseSet
      dsimp only
      have h := ResponseSet_status s.FTP_RESPONSE_BUFFER hlen2 FTP_COMMAND_SUCCESS
        s.ftpHelper.currentSequenceNumber
      rw [h.2, h.1, Nat.mod_eq_of_lt hseq]
      rfl
    · unfold responseSet
      dsimp only
      exact (ResponseSet_status s.FTP_RESPONSE_BUFFER hlen2 FTP_COMMAND_SUCCESS
        s.ftpHelper.currentSequenceNumber).2
  · simp only [hr, if_false]
    refine ⟨_, rfl, rfl, ?_, ?_⟩
    · unfold responseSet
      dsimp only
      have h := ResponseSet_retry s.FTP_RESPONSE_BUFFER hlen FTP_ABORT_TRANSFER
        s.ftpHelper.currentSequenceNumber (AbortCodeGet r)
      rw [h.2, h.1, Nat.mod_eq_of_lt hseq]
      rfl
    · unfold responseSet
      dsimp only
      exact (ResponseSet_retry s.FTP_RESPONSE_BUFFER hlen FTP_ABORT_TRANSFER
        s.ftpHelper.currentSequenceNumber _).2

/-- C29: WriteChunk response mapping.  For every result `r` that `BL_BootCommandProcess`
returns for the block of a WriteChunk command, `OperationalBlockExecute` returns `r` and
leaves the response [sequence, 0x01] of length 2 if `r` is BL_PASS, and otherwise
[sequence, 0x05, code] of length 3, where code is 0x01 for BL_ERROR_VERIFICATION_FAIL and
BL_ERROR_UNKNOWN_COMMAND, 0x03 for BL_ERROR_ADDRESS_OUT_OF_RANGE, 0x05 for
BL_ERROR_COMMAND_PROCESSING and 0x00 for every other result. -/
theorem write_chunk_response_mapping (cfg : BuildConfig) (fuel : Nat) (env : TaskEnv)
    (s : FtpState) (r : bl_result_t) (core1 : CoreState)
    (hcmd : s.FTP_RECEIVE_BUFFER.getD FTP_BYTE_INDEX 0 = FTP_WRITE_CHUNK)
    (hlen : 3 ≤ s.FTP_RESPONSE_BUFFER.length)
    (hseq : s.ftpHelper.currentSequenceNumber < 256)
    (hproc : BL_BootCommandProcess cfg fuel env.deviceIdRegister env.pageWriteStatus
        (s.FTP_RECEIVE_BUFFER.drop FILE_DATA_INDEX)
        ((s.ftpReceiveCount + 4294967296 - COMMAND_DATA_SIZE - SEQUENCE_DATA_SIZE
          - FRAME_CHECK_SIZE) % 4294967296 % 65536) s.core = some (r, core1)) :
    ∃ t, OperationalBlockExecute cfg fuel env s = some (r, t)
      ∧ (r = BL_PASS →
          t.FTP_RESPONSE_BUFFER.take t.ftpResponseLength
            = [s.ftpHelper.currentSequenceNumber, 0x01]
          ∧ t.ftpResponseLength = 2)
      ∧ (r ≠ BL_PASS →
          t.FTP_RESPONSE_BUFFER.take t.ftpResponseLength
            = [s.ftpHelper.currentSequenceNumber, 0x05, abortCodeSpec r]
          ∧ t.ftpResponseLength = 3) := by
  obtain ⟨t, ht, -, hbytes, hl⟩ :=
    OperationalBlockExecute_write_chunk cfg fuel env s r core1 hcmd hlen hseq hproc
  refine ⟨t, ht, ?_, ?_⟩
  · intro hr
    rw [hbytes, hl, if_pos hr, if_pos hr]
    exact ⟨rfl, rfl⟩
  · intro hr
    rw [hbytes, hl, if_neg hr, if_neg hr, AbortCodeGet_table]
    exact ⟨rfl, rfl⟩

theorem write_chunk_response_mapping_witness :
    (stateWriteChunkFrame.FTP_RECEIVE_BUFFER.getD FTP_BYTE_INDEX 0 = FTP_WRITE_CHUNK
      ∧ 3 ≤ stateWriteChunkFrame.FTP_RESPONSE_BUFFER.length
      ∧ stateWriteChunkFrame.ftpHelper.currentSequenceNumber < 256
      ∧ BL_BootCommandProcess exampleConfig 0 envGetClientInfo.deviceIdRegister
          envGetClientInfo.pageWriteStatus
          (stateWriteChunkFrame.FTP_RECEIVE_BUFFER.drop FILE_DATA_INDEX)
          ((stateWriteChunkFrame.ftpReceiveCount + 4294967296 - COMMAND_DATA_SIZE
            - SEQUENCE_DATA_SIZE - FRAME_CHECK_SIZE) % 4294967296 % 65536)
          stateWriteChunkFrame.core
          = some (BL_ERROR_UNKNOWN_COMMAND, stateWriteChunkFrame.core))
    ∧ ∃ t, OperationalBlockExecute exampleConfig 0 envGetClientInfo stateWriteChunkFrame
        = some (BL_ERROR_UNKNOWN_COMMAND, t)
      ∧ (BL_ERROR_UNKNOWN_COMMAND = BL_PASS →
          t.FTP_RESPONSE_BUFFER.take t.ftpResponseLength
            = [stateWriteChunkFrame.ftpHelper.currentSequenceNumber, 0x01]
          ∧ t.ftpResponseLength = 2)
      ∧ (BL_ERROR_UNKNOWN_COMMAND ≠ BL_PASS →
          t.FTP_RESPONSE_BUFFER.take t.ftpResponseLength
            = [stateWriteChunkFrame.ftpHelper.currentSequenceNumber, 0x05,
                abortCodeSpec BL_ERROR_UNKNOWN_COMMAND]
          ∧ t.ftpResponseLength = 3) :=
  ⟨⟨by decide, by decide, by decide, by decide⟩,
    write_chunk_response_mapping exampleConfig 0 envGetClientInfo stateWriteChunkFrame
      BL_ERROR_UNKNOWN_COMMAND stateWriteChunkFrame.core (by decide) (by decide) (by decide)
      (by decide)⟩

theorem SequenceNumberValidate_accept (s : FtpState)
    (hseq : s.FTP_RECEIVE_BUFFER.getD SEQUENCE_BYTE_INDEX 0 &&& SYNC_TRANSFER_bm ≠ 0
      ∨ s.FTP_RECEIVE_BUFFER.getD SEQUENCE_BYTE_INDEX 0 &&& SEQUENCE_NUMBER_bm
          = s.ftpHelper.nextSequenceNumber) :
    SequenceNumberValidate s
      = (true, { s with ftpHelper := { s.ftpHelper with
          currentSequenceNumber :=
            s.FTP_RECEIVE_BUFFER.getD SEQUENCE_BYTE_INDEX 0 &&& SEQUENCE_NUMBER_bm
          lastSequenceNumber :=
            s.FTP_RECEIVE_BUFFER.getD SEQUENCE_BYTE_INDEX 0 &&& SEQUENCE_NUMBER_bm
          nextSequenceNumber :=
            ((s.FTP_RECEIVE_BUFFER.getD SEQUENCE_BYTE_INDEX 0 &&& SEQUENCE_NUMBER_bm) + 1)
              &&& MAX_SEQUENCE_VALUE } }) := by
  unfold SequenceNumberValidate
  dsimp only
  by_cases hs : s.FTP_RECEIVE_BUFFER.getD SEQUENCE_BYTE_INDEX 0 &&& SYNC_TRANSFER_bm ≠ 0
  · rw [if_pos hs]
  · rw [if_neg hs, if_pos (hseq.resolve_left hs)]

theorem FTP_Task_dispatch (cfg : BuildConfig) (fuel : Nat) (env : TaskEnv) (s s1 : FtpState)
    (r : bl_result_t)
    (hrun : ¬ (¬ s.isComBusy = true ∧ s.resetPending = true))
    (hcom : env.comResult = COM_PASS)
    (hcount : MIN_TRANSFER_SIZE ≤ env.receiveCount)
    (hseq : env.receiveBuffer.getD SEQUENCE_BYTE_INDEX 0 &&& SYNC_TRANSFER_bm ≠ 0
      ∨ env.receiveBuffer.getD SEQUENCE_BYTE_INDEX 0 &&& SEQUENCE_NUMBER_bm
          = s.ftpHelper.nextSequenceNumber)
    (hresend : s.ftpHelper.resendRequired = false)
    (hexec : OperationalBlockExecute cfg fuel env
        { s with
          FTP_RECEIVE_BUFFER := env.receiveBuffer
          ftpReceiveCount := env.receiveCount
          ftpHelper := { s.ftpHelper with
            currentSequenceNumber :=
              env.receiveBuffer.getD SEQUENCE_BYTE_INDEX 0 &&& SEQUENCE_NUMBER_bm
            lastSequenceNumber :=
              env.receiveBuffer.getD SEQUENCE_BYTE_INDEX 0 &&& SEQUENCE_NUMBER_bm
            nextSequenceNumber :=
              ((env.receiveBuffer.getD SEQUENCE_BYTE_INDEX 0 &&& SEQUENCE_NUMBER_bm) + 1)
                &&& MAX_SEQUENCE_VALUE } } = some (r, s1)) :
    ∃ t, FTP_Task cfg fuel env s
        = some (TaskOutcome.returned
            (if env.frameSetResult ≠ COM_PASS then BL_ERROR_COMMUNICATION_FAIL else r)
            t
            (some { bytes := s1.FTP_RESPONSE_BUFFER.take s1.ftpResponseLength
                    responseLength := s1.ftpResponseLength }))
      ∧ t.core = s1.core
      ∧ t.resetPending = s1.resetPending
      ∧ t.isComBusy = s1.isComBusy
      ∧ t.FTP_RESPONSE_BUFFER = s1.FTP_RESPONSE_BUFFER
      ∧ t.ftpHelper.resendRequired = false
      ∧ t.ftpHelper.nextSequenceNumber
          = ((env.receiveBuffer.getD SEQUENCE_BYTE_INDEX 0 &&& SEQUENCE_NUMBER_bm) + 1)
              &&& MAX_SEQUENCE_VALUE := by
  have hfr := OperationalBlockExecute_frame cfg fuel env _ s1 r hexec
  have hacc := SequenceNumberValidate_accept
    { s with FTP_RECEIVE_BUFFER := env.receiveBuffer, ftpReceiveCount := env.receiveCount }
    hseq
  have hnlt : ¬ (env.receiveCount < MIN_TRANSFER_SIZE) := by omega
  have hne : ¬ (COM_PASS = COM_BUFFER_ERROR) := by decide
  unfold FTP_Task
  rw [if_neg hrun]
  unfold ftpTaskReceive
  simp only [hcom, hne, if_false, if_true, hnlt, hacc, hexec]
  unfold ftpTaskSend
  have h1 : (ParserDataReset cfg
      { s1 with ftpHelper := { s1.ftpHelper with responseRequired := true } }).ftpHelper.resendRequired
      = false := by
    show s1.ftpHelper.resendRequired = false
    rw [hfr.1]
    exact hresend
  have h2 : (ParserDataReset cfg
      { s1 with ftpHelper := { s1.ftpHelper with responseRequired := true } }).ftpHelper.responseRequired
      = true := rfl
  simp only [h1, h2, if_true, Bool.false_eq_true, if_false]
  refine ⟨_, rfl, rfl, rfl, rfl, rfl, rfl, ?_⟩
  show s1.ftpHelper.nextSequenceNumber = _
  rw [hfr.1]

theorem OperationalBlockExecute_start_transfer (cfg : BuildConfig) (fuel : Nat) (env : TaskEnv)
    (s : FtpState)
    (hcmd : s.FTP_RECEIVE_BUFFER.getD FTP_BYTE_INDEX 0 = FTP_START_TRANSFER)
    (hlen : 2 ≤ s.FTP_RESPONSE_BUFFER.length)
    (hseq : s.ftpHelper.currentSequenceNumber < 256) :
    ∃ t, OperationalBlockExecute cfg fuel env s = some (BL_PASS, t)
      ∧ t.core = { s.core with bootloaderCoreUnlocked := false }
      ∧ t.FTP_RESPONSE_BUFFER.take t.ftpResponseLength
          = [s.ftpHelper.currentSequenceNumber, FTP_COMMAND_SUCCESS]
      ∧ t.ftpResponseLength = 2
      ∧ t.resetPending = s.resetPending
      ∧ t.isComBusy = s.isComBusy
      ∧ t.FTP_RESPONSE_BUFFER.length = s.FTP_RESPONSE_BUFFER.length := by
  have hne1 : ¬ (FTP_START_TRANSFER = FTP_GET_CLIENT_INFO) := by decide
  have hne2 : ¬ (FTP_START_TRANSFER = FTP_GET_IMAGE_STATE) := by decide
  unfold OperationalBlockExecute
  simp only [hcmd, hne1, hne2, if_false, if_true]
  refine ⟨_, rfl, rfl, ?_, ?_, rfl, rfl, ?_⟩
  · unfold responseSet
    dsimp only
    have h := ResponseSet_status s.FTP_RESPONSE_BUFFER hlen FTP_COMMAND_SUCCESS
      s.ftpHelper.currentSequenceNumber
    rw [h.2, h.1, Nat.mod_eq_of_lt hseq]
    rfl
  · unfold responseSet
    dsimp only
    exact (ResponseSet_status s.FTP_RESPONSE_BUFFER hlen FTP_COMMAND_SUCCESS
      s.ftpHelper.currentSequenceNumber).2
  · unfold responseSet
    dsimp only
    exact ResponseSet_length _ _ _ _ _

/-- C30: StartTransfer relocks.  For every engine state (latch true or false; the
response buffer has its declared size and no resend is pending) in which `FTP_Task` gets
to `COM_FrameTransfer`, when a StartTransfer frame with an accepted sequence number is
dispatched, `FTP_Task` hands to `COM_FrameSet` the response
[current sequence number, 0x01] of length 2 and leaves the unlock latch false and the
trace of flash primitives unchanged; and a frame received next whose WriteChunk command
carries a WriteFlash block is answered with the Abort response
[current sequence number, 0x05, 0x01] and invokes no flash primitive either. -/
theorem start_transfer_relocks (cfg : BuildConfig) (fuel : Nat) (env : TaskEnv) (s : FtpState)
    (hrun : ¬ (¬ s.isComBusy = true ∧ s.resetPending = true))
    (hcom : env.comResult = COM_PASS)
    (hcount : MIN_TRANSFER_SIZE ≤ env.receiveCount)
    (hseq : env.receiveBuffer.getD SEQUENCE_BYTE_INDEX 0 &&& SYNC_TRANSFER_bm ≠ 0
      ∨ env.receiveBuffer.getD SEQUENCE_BYTE_INDEX 0 &&& SEQUENCE_NUMBER_bm
          = s.ftpHelper.nextSequenceNumber)
    (hcmd : env.receiveBuffer.getD FTP_BYTE_INDEX 0 = FTP_START_TRANSFER)
    (hresend : s.ftpHelper.resendRequired = false)
    (hlen : s.FTP_RESPONSE_BUFFER.length = MAX_RESPONSE_SIZE) :
    ∃ t, FTP_Task cfg fuel env s
        = some (TaskOutcome.returned
            (if env.frameSetResult ≠ COM_PASS then BL_ERROR_COMMUNICATION_FAIL else BL_PASS)
            t
            (some { bytes := [env.receiveBuffer.getD SEQUENCE_BYTE_INDEX 0
                        &&& SEQUENCE_NUMBER_bm, 0x01]
                    responseLength := 2 }))
      ∧ t.core.bootloaderCoreUnlocked = false
      ∧ t.core.nvmOps = s.core.nvmOps
      ∧ ∀ (fuel2 : Nat) (env2 : TaskEnv),
          env2.comResult = COM_PASS →
          MIN_TRANSFER_SIZE ≤ env2.receiveCount →
          (env2.receiveBuffer.getD SEQUENCE_BYTE_INDEX 0 &&& SYNC_TRANSFER_bm ≠ 0
            ∨ env2.receiveBuffer.getD SEQUENCE_BYTE_INDEX 0 &&& SEQUENCE_NUMBER_bm
                = t.ftpHelper.nextSequenceNumber) →
          env2.receiveBuffer.getD FTP_BYTE_INDEX 0 = FTP_WRITE_CHUNK →
          (env2.receiveBuffer.drop FILE_DATA_INDEX).getD 2 0 = WRITE_FLASH →
          ∃ t2, FTP_Task cfg fuel2 env2 t
              = some (TaskOutcome.returned
                  (if env2.frameSetResult ≠ COM_PASS then BL_ERROR_COMMUNICATION_FAIL
                    else BL_ERROR_UNKNOWN_COMMAND)
                  t2
                  (some { bytes := [env2.receiveBuffer.getD SEQUENCE_BYTE_INDEX 0
                              &&& SEQUENCE_NUMBER_bm, 0x05, 0x01]
                          responseLength := 3 }))
            ∧ t2.core.bootloaderCoreUnlocked = false
            ∧ t2.core.nvmOps = s.core.nvmOps := by
  have hbyte : ∀ b : Nat, b &&& SEQUENCE_NUMBER_bm < 256 := fun b =>
    Nat.lt_of_le_of_lt Nat.and_le_right (by decide)
  have hlen2 : 2 ≤ s.FTP_RESPONSE_BUFFER.length := by rw [hlen]; decide
  obtain ⟨s1, hs1, hcore1, hbytes1, hl1, hrp1, hcb1, hlen1⟩ :=
    OperationalBlockExecute_start_transfer cfg fuel env
      { s with
        FTP_RECEIVE_BUFFER := env.receiveBuffer
        ftpReceiveCount := env.receiveCount
        ftpHelper := { s.ftpHelper with
          currentSequenceNumber :=
            env.receiveBuffer.getD SEQUENCE_BYTE_INDEX 0 &&& SEQUENCE_NUMBER_bm
          lastSequenceNumber :=
            env.receiveBuffer.getD SEQUENCE_BYTE_INDEX 0 &&& SEQUENCE_NUMBER_bm
          nextSequenceNumber :=
            ((env.receiveBuffer.getD SEQUENCE_BYTE_INDEX 0 &&& SEQUENCE_NUMBER_bm) + 1)
              &&& MAX_SEQUENCE_VALUE } }
      hcmd hlen2 (hbyte _)
  obtain ⟨t, ht, htcore, htrp, htcb, htbuf, htresend, -⟩ :=
    FTP_Task_dispatch cfg fuel env s s1 BL_PASS hrun hcom hcount hseq hresend hs1
  dsimp only at hcore1 hbytes1 hrp1 hcb1 hlen1
  rw [hbytes1, hl1] at ht
  refine ⟨t, ht, ?_, ?_, ?_⟩
  · rw [htcore, hcore1]
  · rw [htcore, hcore1]
  · intro fuel2 env2 hcom2 hcount2 hseq2 hcmd2 hblock2
    have hrun2 : ¬ (¬ t.isComBusy = true ∧ t.resetPending = true) := by
      rw [htcb, htrp, hcb1, hrp1]
      exact hrun
    have hlocked : t.core.bootloaderCoreUnlocked = false := by rw [htcore, hcore1]
    have hlen3 : 3 ≤ t.FTP_RESPONSE_BUFFER.length := by
      rw [htbuf, hlen1, hlen]
      decide
    obtain ⟨s2, hs2, hcore2, hbytes2, hl2⟩ :=
      OperationalBlockExecute_write_chunk cfg fuel2 env2
        { t with
          FTP_RECEIVE_BUFFER := env2.receiveBuffer
          ftpReceiveCount := env2.receiveCount
          ftpHelper := { t.ftpHelper with
            currentSequenceNumber :=
              env2.receiveBuffer.getD SEQUENCE_BYTE_INDEX 0 &&& SEQUENCE_NUMBER_bm
            lastSequenceNumber :=
              env2.receiveBuffer.getD SEQUENCE_BYTE_INDEX 0 &&& SEQUENCE_NUMBER_bm
            nextSequenceNumber :=
              ((env2.receiveBuffer.getD SEQUENCE_BYTE_INDEX 0 &&& SEQUENCE_NUMBER_bm) + 1)
                &&& MAX_SEQUENCE_VALUE } }
        BL_ERROR_UNKNOWN_COMMAND t.core hcmd2 hlen3 (hbyte _)
        (BL_BootCommandProcess_write_locked cfg fuel2 _ _ _ _ t.core hblock2 hlocked)
    obtain ⟨t2, ht2, ht2core, -⟩ :=
      FTP_Task_dispatch cfg fuel2 env2 t s2 BL_ERROR_UNKNOWN_COMMAND hrun2 hcom2 hcount2 hseq2
        htresend hs2
    have hne : ¬ (BL_ERROR_UNKNOWN_COMMAND = BL_PASS) := by decide
    dsimp only at hbytes2
    rw [hbytes2, hl2, if_neg hne, if_neg hne] at ht2
    refine ⟨t2, ht2, ?_, ?_⟩
    · rw [ht2core, hcore2, htcore, hcore1]
    · rw [ht2core, hcore2, htcore, hcore1]

theorem start_transfer_relocks_witness :
    (¬ (¬ stateUnlocked.isComBusy = true ∧ stateUnlocked.resetPending = true)
      ∧ envStartTransfer.comResult = COM_PASS
      ∧ MIN_TRANSFER_SIZE ≤ envStartTransfer.receiveCount
      ∧ (envStartTransfer.receiveBuffer.getD SEQUENCE_BYTE_INDEX 0 &&& SYNC_TRANSFER_bm ≠ 0
          ∨ envStartTransfer.receiveBuffer.getD SEQUENCE_BYTE_INDEX 0 &&& SEQUENCE_NUMBER_bm
              = stateUnlocked.ftpHelper.nextSequenceNumber)
      ∧ envStartTransfer.receiveBuffer.getD FTP_BYTE_INDEX 0 = FTP_START_TRANSFER
      ∧ stateUnlocked.ftpHelper.resendRequired = false
      ∧ stateUnlocked.FTP_RESPONSE_BUFFER.length = MAX_RESPONSE_SIZE
      ∧ stateUnlocked.core.bootloaderCoreUnlocked = true)
    ∧ ∃ t, FTP_Task exampleConfig 0 envStartTransfer stateUnlocked
        = some (TaskOutcome.returned
            (if envStartTransfer.frameSetResult ≠ COM_PASS then BL_ERROR_COMMUNICATION_FAIL
              else BL_PASS)
            t
            (some { bytes := [envStartTransfer.receiveBuffer.getD SEQUENCE_BYTE_INDEX 0
                        &&& SEQUENCE_NUMBER_bm, 0x01]
                    responseLength := 2 }))
      ∧ t.core.bootloaderCoreUnlocked = false
      ∧ t.core.nvmOps = stateUnlocked.core.nvmOps
      ∧ ∀ (fuel2 : Nat) (env2 : TaskEnv),
          env2.comResult = COM_PASS →
          MIN_TRANSFER_SIZE ≤ env2.receiveCount →
          (env2.receiveBuffer.getD SEQUENCE_BYTE_INDEX 0 &&& SYNC_TRANSFER_bm ≠ 0
            ∨ env2.receiveBuffer.getD SEQUENCE_BYTE_INDEX 0 &&& SEQUENCE_NUMBER_bm
                = t.ftpHelper.nextSequenceNumber) →
          env2.receiveBuffer.getD FTP_BYTE_INDEX 0 = FTP_WRITE_CHUNK →
          (env2.receiveBuffer.drop FILE_DATA_INDEX).getD 2 0 = WRITE_FLASH →
          ∃ t2, FTP_Task exampleConfig fuel2 env2 t
              = some (TaskOutcome.returned
                  (if env2.frameSetResult ≠ COM_PASS then BL_ERROR_COMMUNICATION_FAIL
                    else BL_ERROR_UNKNOWN_COMMAND)
                  t2
                  (some { bytes := [env2.receiveBuffer.getD SEQUENCE_BYTE_INDEX 0
                              &&& SEQUENCE_NUMBER_bm, 0x05, 0x01]
                          responseLength := 3 }))
            ∧ t2.core.bootloaderCoreUnlocked = false
            ∧ t2.core.nvmOps = stateUnlocked.core.nvmOps :=
  ⟨⟨by decide, by decide, by decide, by decide, by decide, by decide, by decide, by decide⟩,
    start_transfer_relocks exampleConfig 0 envStartTransfer stateUnlocked
      (by decide) (by decide) (by decide) (by decide) (by decide) (by decide) (by decide)⟩


/-! ### UART decoder: overflow, resynchronisation, frame check length -/

theorem DecoderReachable_index (M : Nat) (d : UartDecoder) (h : DecoderReachable M d) :
    d.receiveIndex ≤ d.MaxBufferLength ∧ d.MaxBufferLength = M := by
  induction h with
  | init receiveBuffer => exact ⟨Nat.zero_le _, rfl⟩
  | step rx d _ ih =>
    obtain ⟨hle, hM⟩ := ih
    unfold COM_FrameTransfer
    cases rx with
    | notReady => exact ⟨hle, hM⟩
    | byte nextByte error =>
      cases error with
      | true => exact ⟨hle, hM⟩
      | false =>
        dsimp only
        split_ifs
        all_goals first
          | exact ⟨hle, hM⟩
          | exact ⟨Nat.zero_le _, hM⟩
          | (refine ⟨?_, hM⟩
             show (d.receiveIndex + 1) % 65536 ≤ d.MaxBufferLength
             omega)
  | reset d receiveBuffer _ ih => exact ⟨Nat.zero_le _, ih.2⟩

/-- C33: UART decoder overflow.  For every decoder state with the window open and the
receive index equal to MaxBufferLength, a received data byte (not START, END or ESCAPE)
makes `COM_FrameTransfer` return COM_BUFFER_ERROR, close the window and leave the buffer
and the index unchanged; and in every decoder state reachable after `COM_Initialize` the
receive index does not exceed MaxBufferLength. -/
theorem uart_decoder_overflow (d : UartDecoder) (b : Nat)
    (hopen : d.isReceiveWindowOpen = true)
    (hidx : d.receiveIndex = d.MaxBufferLength)
    (hstart : b ≠ START_OF_PACKET_BYTE) (hend : b ≠ END_OF_PACKET_BYTE)
    (hesc : b ≠ ESCAPE_BYTE) :
    (COM_FrameTransfer (UartRx.byte b false) d).1 = COM_BUFFER_ERROR
    ∧ (COM_FrameTransfer (UartRx.byte b false) d).2.isReceiveWindowOpen = false
    ∧ (COM_FrameTransfer (UartRx.byte b false) d).2.receiveBuffer = d.receiveBuffer
    ∧ (COM_FrameTransfer (UartRx.byte b false) d).2.receiveIndex = d.receiveIndex
    ∧ ∀ (M : Nat) (r : UartDecoder), DecoderReachable M r →
        r.receiveIndex ≤ r.MaxBufferLength := by
  have hnlt : ¬ d.receiveIndex < d.MaxBufferLength := by omega
  have key : COM_FrameTransfer (UartRx.byte b false) d
      = (COM_BUFFER_ERROR, { d with isEscapedByte := false, isReceiveWindowOpen := false }) := by
    unfold COM_FrameTransfer
    simp only [hstart, hend, hesc, hopen, hnlt, if_false, if_true]
  rw [key]
  exact ⟨rfl, rfl, rfl, rfl, fun M r hr => (DecoderReachable_index M r hr).1⟩

theorem uart_decoder_overflow_witness :
    (decoderFull.isReceiveWindowOpen = true
      ∧ decoderFull.receiveIndex = decoderFull.MaxBufferLength
      ∧ 0x41 ≠ START_OF_PACKET_BYTE ∧ 0x41 ≠ END_OF_PACKET_BYTE ∧ 0x41 ≠ ESCAPE_BYTE)
    ∧ (COM_FrameTransfer (UartRx.byte 0x41 false) decoderFull).1 = COM_BUFFER_ERROR
    ∧ (COM_FrameTransfer (UartRx.byte 0x41 false) decoderFull).2.isReceiveWindowOpen = false
    ∧ (COM_FrameTransfer (UartRx.byte 0x41 false) decoderFull).2.receiveBuffer
        = decoderFull.receiveBuffer
    ∧ (COM_FrameTransfer (UartRx.byte 0x41 false) decoderFull).2.receiveIndex
        = decoderFull.receiveIndex
    ∧ ∀ (M : Nat) (r : UartDecoder), DecoderReachable M r →
        r.receiveIndex ≤ r.MaxBufferLength :=
  ⟨⟨by decide, by decide, by decide, by decide, by decide⟩,
    uart_decoder_overflow decoderFull 0x41 (by decide) (by decide) (by decide) (by decide)
      (by decide)⟩

/-- C34: UART decoder resynchronisation.  While the window is closed, every received
byte other than START (END and ESCAPE included) makes `COM_FrameTransfer` return
COM_FAIL and leave the whole decoder state unchanged; and in every state a received
START byte returns COM_BUSY and leaves the window open, the escape flag cleared and the
index 0, the buffer unchanged. -/
theorem uart_decoder_resync (d : UartDecoder) (b : Nat)
    (hclosed : d.isReceiveWindowOpen = false) (hb : b ≠ START_OF_PACKET_BYTE) :
    COM_FrameTransfer (UartRx.byte b false) d = (COM_FAIL, d)
    ∧ ∀ r : UartDecoder,
        COM_FrameTransfer (UartRx.byte START_OF_PACKET_BYTE false) r
          = (COM_BUSY,
              { r with isReceiveWindowOpen := true, isEscapedByte := false, receiveIndex := 0 }) := by
  refine ⟨?_, ?_⟩
  · unfold COM_FrameTransfer
    simp only [hb, hclosed, if_false, Bool.false_eq_true]
  · intro r
    unfold COM_FrameTransfer
    simp only [if_true]

theorem uart_decoder_resync_witness :
    (decoderClosed.isReceiveWindowOpen = false ∧ END_OF_PACKET_BYTE ≠ START_OF_PACKET_BYTE)
    ∧ COM_FrameTransfer (UartRx.byte END_OF_PACKET_BYTE false) decoderClosed
        = (COM_FAIL, decoderClosed)
    ∧ ∀ r : UartDecoder,
        COM_FrameTransfer (UartRx.byte START_OF_PACKET_BYTE false) r
          = (COM_BUSY,
              { r with isReceiveWindowOpen := true, isEscapedByte := false, receiveIndex := 0 }) :=
  ⟨⟨by decide, by decide⟩,
    uart_decoder_resync decoderClosed END_OF_PACKET_BYTE (by decide) (by decide)⟩

theorem COM_FrameTransfer_end (d : UartDecoder) (hopen : d.isReceiveWindowOpen = true) :
    COM_FrameTransfer (UartRx.byte END_OF_PACKET_BYTE false) d
      = if FrameCheckCalculate d.receiveBuffer
            ((d.receiveIndex + 65536 - FRAME_CHECK_SIZE) % 65536)
          = frameCheckSequenceRead d.receiveBuffer d.receiveIndex then
          (COM_PASS, { d with isReceiveWindowOpen := false })
        else (COM_TRANSPORT_FAILURE, { d with isReceiveWindowOpen := false }) := by
  have hne : ¬ (END_OF_PACKET_BYTE = START_OF_PACKET_BYTE) := by decide
  unfold COM_FrameTransfer
  simp only [hne, hopen, if_false, if_true]

/-- C37, the code at the failing input: fed START and then END from the initialised
state, `COM_FrameTransfer` runs the frame check with the receive index 0: the length
`index - FRAME_CHECK_SIZE` wraps to 65534, far above the 75 bytes of the buffer, and the
frame check sequence is read at the wrapped position 4294967294; with one data byte
between START and END the index is 1 and the length wraps to 65535. -/
theorem frame_check_length_wraps :
    (feedBytes decoderInitial [START_OF_PACKET_BYTE]).2.isReceiveWindowOpen = true
    ∧ (feedBytes decoderInitial [START_OF_PACKET_BYTE]).2.receiveIndex = 0
    ∧ COM_FrameTransfer (UartRx.byte END_OF_PACKET_BYTE false)
          (feedBytes decoderInitial [START_OF_PACKET_BYTE]).2
        = (if FrameCheckCalculate
                (feedBytes decoderInitial [START_OF_PACKET_BYTE]).2.receiveBuffer 65534
              = frameCheckSequenceRead
                  (feedBytes decoderInitial [START_OF_PACKET_BYTE]).2.receiveBuffer 0 then
            (COM_PASS,
              { (feedBytes decoderInitial [START_OF_PACKET_BYTE]).2 with
                isReceiveWindowOpen := false })
          else
            (COM_TRANSPORT_FAILURE,
              { (feedBytes decoderInitial [START_OF_PACKET_BYTE]).2 with
                isReceiveWindowOpen := false }))
    ∧ (0 + 4294967296 - FRAME_CHECK_SIZE) % 4294967296 = 4294967294
    ∧ (feedBytes decoderInitial [START_OF_PACKET_BYTE]).2.receiveBuffer.length = 75
    ∧ (feedBytes decoderInitial [START_OF_PACKET_BYTE, 0x11]).2.isReceiveWindowOpen = true
    ∧ (feedBytes decoderInitial [START_OF_PACKET_BYTE, 0x11]).2.receiveIndex = 1
    ∧ ((feedBytes decoderInitial [START_OF_PACKET_BYTE, 0x11]).2.receiveIndex + 65536
          - FRAME_CHECK_SIZE) % 65536 = 65535 := by
  refine ⟨by decide, by decide, ?_, by decide, by decide, by decide, by decide, by decide⟩
  exact COM_FrameTransfer_end _ (by decide)

/-! ### Sequence numbers -/

theorem SequenceNumberValidate_static (s : FtpState) :
    (SequenceNumberValidate s).2.resetPending = s.resetPending
      ∧ (SequenceNumberValidate s).2.isComBusy = s.isComBusy
      ∧ (SequenceNumberValidate s).2.FTP_RECEIVE_BUFFER = s.FTP_RECEIVE_BUFFER
      ∧ (SequenceNumberValidate s).2.core = s.core := by
  unfold SequenceNumberValidate
  dsimp only
  split_ifs <;> exact ⟨rfl, rfl, rfl, rfl⟩

theorem SequenceNumberValidate_flags (s : FtpState)
    (hresend : s.ftpHelper.resendRequired = false)
    (hresponse : s.ftpHelper.responseRequired = false) :
    ((SequenceNumberValidate s).1 = true →
        (SequenceNumberValidate s).2.ftpHelper.resendRequired = false
          ∧ (SequenceNumberValidate s).2.ftpHelper.responseRequired = false)
      ∧ ¬ ((SequenceNumberValidate s).2.ftpHelper.resendRequired = true
          ∧ (SequenceNumberValidate s).2.ftpHelper.responseRequired = true) := by
  unfold SequenceNumberValidate
  dsimp only
  split_ifs
  · exact ⟨fun _ => ⟨hresend, hresponse⟩, by rw [hresend]; simp⟩
  · exact ⟨fun _ => ⟨hresend, hresponse⟩, by rw [hresend]; simp⟩
  · exact ⟨fun h => absurd h (by simp), by rw [hresend]; simp⟩
  · refine ⟨fun h => absurd h (by simp), ?_⟩
    show ¬ (true = true ∧ s.ftpHelper.responseRequired = true)
    rw [hresponse]
    simp

theorem OperationalBlockExecute_static (cfg : BuildConfig) (fuel : Nat) (env : TaskEnv)
    (s t : FtpState) (r : bl_result_t)
    (h : OperationalBlockExecute cfg fuel env s = some (r, t)) :
    (t.resetPending = true →
        s.resetPending = true ∨ s.FTP_RECEIVE_BUFFER.getD FTP_BYTE_INDEX 0 = FTP_END_TRANSFER)
      ∧ (s.isComBusy = true → t.isComBusy = true) := by
  unfold OperationalBlockExecute at h
  simp only [] at h
  by_cases h1 : s.FTP_RECEIVE_BUFFER.getD FTP_BYTE_INDEX 0 = FTP_GET_CLIENT_INFO
  · rw [if_pos h1] at h
    simp only [Option.some.injEq, Prod.mk.injEq] at h
    obtain ⟨_, rfl⟩ := h
    unfold ClientInfoResponseSet
    exact ⟨fun hp => Or.inl hp, fun hb => hb⟩
  rw [if_neg h1] at h
  by_cases h2 : s.FTP_RECEIVE_BUFFER.getD FTP_BYTE_INDEX 0 = FTP_GET_IMAGE_STATE
  · rw [if_pos h2] at h
    simp only [Option.some.injEq, Prod.mk.injEq] at h
    obtain ⟨_, rfl⟩ := h
    exact ⟨fun hp => Or.inl hp, fun hb => hb⟩
  rw [if_neg h2] at h
  by_cases h3 : s.FTP_RECEIVE_BUFFER.getD FTP_BYTE_INDEX 0 = FTP_START_TRANSFER
  · rw [if_pos h3] at h
    simp only [Option.some.injEq, Prod.mk.injEq] at h
    obtain ⟨_, rfl⟩ := h
    exact ⟨fun hp => Or.inl hp, fun hb => hb⟩
  rw [if_neg h3] at h
  by_cases h4 : s.FTP_RECEIVE_BUFFER.getD FTP_BYTE_INDEX 0 = FTP_WRITE_CHUNK
  · rw [if_pos h4] at h
    split at h
    · exact absurd h (by simp)
    · split_ifs at h
      all_goals
        simp only [Option.some.injEq, Prod.mk.injEq] at h
        obtain ⟨_, rfl⟩ := h
        exact ⟨fun hp => Or.inl hp, fun hb => hb⟩
  rw [if_neg h4] at h
  by_cases h5 : s.FTP_RECEIVE_BUFFER.getD FTP_BYTE_INDEX 0 = FTP_END_TRANSFER
  · rw [if_pos h5] at h
    simp only [Option.some.injEq, Prod.mk.injEq] at h
    obtain ⟨_, rfl⟩ := h
    refine ⟨fun _ => Or.inr h5, fun hb => ?_⟩
    split_ifs
    · rfl
    · exact hb
  rw [if_neg h5] at h
  simp only [Option.some.injEq, Prod.mk.injEq] at h
  obtain ⟨_, rfl⟩ := h
  exact ⟨fun hp => Or.inl hp, fun hb => hb⟩

theorem ftpTaskReceive_facts (cfg : BuildConfig) (fuel : Nat) (env : TaskEnv)
    (s t : FtpState) (r : bl_result_t)
    (h : ftpTaskReceive cfg fuel env s = some (r, t)) :
    (s.ftpHelper.resendRequired = false → s.ftpHelper.responseRequired = false →
        ¬ (t.ftpHelper.resendRequired = true ∧ t.ftpHelper.responseRequired = true))
      ∧ (t.resetPending = true →
          s.resetPending = true
            ∨ (env.comResult = COM_PASS ∧ MIN_TRANSFER_SIZE ≤ s.ftpReceiveCount
                ∧ s.FTP_RECEIVE_BUFFER.getD FTP_BYTE_INDEX 0 = FTP_END_TRANSFER))
      ∧ (s.isComBusy = true → t.isComBusy = false →
          cfg.MULTI_STAGE_RESPONSE = true ∧ env.comResult = COM_SEND_COMPLETE) := by
  have hstatic := SequenceNumberValidate_static s
  unfold ftpTaskReceive at h
  simp only [] at h
  split_ifs at h with h1 h2 h3 h4 h5 h6 h7
  · simp only [Option.some.injEq, Prod.mk.injEq] at h
    obtain ⟨_, rfl⟩ := h
    refine ⟨fun _ hr => ?_, fun hp => Or.inl hp, fun hb hn => ?_⟩
    · show ¬ (true = true ∧ s.ftpHelper.responseRequired = true)
      rw [hr]
      simp
    · exact absurd (show s.isComBusy = false from hn) (by rw [hb]; simp)
  · simp only [Option.some.injEq, Prod.mk.injEq] at h
    obtain ⟨_, rfl⟩ := h
    refine ⟨fun _ hr => ?_, fun hp => Or.inl hp, fun hb hn => ?_⟩
    · show ¬ (true = true ∧ s.ftpHelper.responseRequired = true)
      rw [hr]
      simp
    · exact absurd (show s.isComBusy = false from hn) (by rw [hb]; simp)
  · split at h
    · exact absurd h (by simp)
    · rename_i pr s1 hobe
      simp only [Option.some.injEq, Prod.mk.injEq] at h
      obtain ⟨_, rfl⟩ := h
      have hf := OperationalBlockExecute_frame _ _ _ _ _ _ hobe
      have hst := OperationalBlockExecute_static _ _ _ _ _ _ hobe
      refine ⟨fun hs hr => ?_, fun hp => ?_, fun hb hn => ?_⟩
      · have hfl := (SequenceNumberValidate_flags s hs hr).1 h4
        show ¬ (s1.ftpHelper.resendRequired = true ∧ true = true)
        rw [hf.1, hfl.1]
        simp
      · rcases hst.1 hp with hp1 | hp2
        · left
          rw [← hstatic.1]
          exact hp1
        · right
          rw [hstatic.2.2.1] at hp2
          exact ⟨h2, Nat.le_of_not_lt h3, hp2⟩
      · have hb1 : (SequenceNumberValidate s).2.isComBusy = true := by
          rw [hstatic.2.1]
          exact hb
        have := hst.2 hb1
        exact absurd (show s1.isComBusy = false from hn) (by rw [this]; simp)
  · simp only [Option.some.injEq, Prod.mk.injEq] at h
    obtain ⟨_, rfl⟩ := h
    refine ⟨fun hs hr => ?_, fun hp => ?_, fun hb hn => ?_⟩
    · exact (SequenceNumberValidate_flags s hs hr).2
    · left
      rw [← hstatic.1]
      exact hp
    · have hn1 : (SequenceNumberValidate s).2.isComBusy = false := hn
      rw [hstatic.2.1, hb] at hn1
      exact absurd hn1 (by simp)
  · simp only [Option.some.injEq, Prod.mk.injEq] at h
    obtain ⟨_, rfl⟩ := h
    refine ⟨fun _ hr => ?_, fun hp => Or.inl hp, fun hb hn => ?_⟩
    · show ¬ (true = true ∧ s.ftpHelper.responseRequired = true)
      rw [hr]
      simp
    · exact absurd (show s.isComBusy = false from hn) (by rw [hb]; simp)
  · simp only [Option.some.injEq, Prod.mk.injEq] at h
    obtain ⟨_, rfl⟩ := h
    refine ⟨fun hs _ => ?_, fun hp => Or.inl hp, fun hb hn => ?_⟩
    · rw [hs]
      simp
    · exact absurd hn (by rw [hb]; simp)
  · simp only [Option.some.injEq, Prod.mk.injEq] at h
    obtain ⟨_, rfl⟩ := h
    refine ⟨fun hs _ => ?_, fun hp => Or.inl hp, fun _ _ => ⟨h7.1, h7.2⟩⟩
    show ¬ (s.ftpHelper.resendRequired = true ∧ s.ftpHelper.responseRequired = true)
    rw [hs]
    simp
  · simp only [Option.some.injEq, Prod.mk.injEq] at h
    obtain ⟨_, rfl⟩ := h
    refine ⟨fun hs _ => ?_, fun hp => Or.inl hp, fun hb hn => ?_⟩
    · rw [hs]
      simp
    · exact absurd hn (by rw [hb]; simp)

/-- The call of `COM_FrameSet` the tail of `FTP_Task` makes for the flags of a state:
the retry buffer when resendRequired is set, else the response buffer when
responseRequired is set, else none. -/
theorem ftpTaskSend_facts (env : TaskEnv) (r : bl_result_t) (s : FtpState) :
    ∃ r1 t, ftpTaskSend env r s
        = TaskOutcome.returned r1 t
            (if s.ftpHelper.resendRequired = true then
              some { bytes := s.FTP_RETRY_BUFFER.take s.ftpResponseLength
                     responseLength := s.ftpResponseLength }
            else if s.ftpHelper.responseRequired = true then
              some { bytes := s.FTP_RESPONSE_BUFFER.take s.ftpResponseLength
                     responseLength := s.ftpResponseLength }
            else none)
      ∧ t.resetPending = s.resetPending
      ∧ t.isComBusy = s.isComBusy
      ∧ t.ftpHelper.resendRequired = false
      ∧ (¬ (s.ftpHelper.resendRequired = true ∧ s.ftpHelper.responseRequired = true) →
          t.ftpHelper.responseRequired = false) := by
  unfold ftpTaskSend
  by_cases h1 : s.ftpHelper.resendRequired = true
  · rw [if_pos h1, if_pos h1]
    refine ⟨_, _, rfl, rfl, rfl, rfl, fun hn => ?_⟩
    show s.ftpHelper.responseRequired = false
    cases hr : s.ftpHelper.responseRequired
    · rfl
    · exact absurd ⟨h1, hr⟩ hn
  · have h1f : s.ftpHelper.resendRequired = false := by
      cases hr : s.ftpHelper.resendRequired
      · rfl
      · exact absurd hr h1
    rw [if_neg h1, if_neg h1]
    by_cases h2 : s.ftpHelper.responseRequired = true
    · rw [if_pos h2, if_pos h2]
      exact ⟨_, _, rfl, rfl, rfl, h1f, fun _ => rfl⟩
    · have h2f : s.ftpHelper.responseRequired = false := by
        cases hr : s.ftpHelper.responseRequired
        · rfl
        · exact absurd hr h2
      rw [if_neg h2, if_neg h2]
      exact ⟨_, _, rfl, rfl, rfl, h1f, fun _ => h2f⟩

theorem FTP_Task_cases (cfg : BuildConfig) (fuel : Nat) (env : TaskEnv) (s : FtpState)
    (out : TaskOutcome) (h : FTP_Task cfg fuel env s = some out) :
    (out = TaskOutcome.deviceReset ∧ s.isComBusy = false ∧ s.resetPending = true)
      ∨ (¬ (¬ s.isComBusy = true ∧ s.resetPending = true)
          ∧ ∃ r s2, ftpTaskReceive cfg fuel env
                { s with FTP_RECEIVE_BUFFER := env.receiveBuffer
                         ftpReceiveCount := env.receiveCount } = some (r, s2)
              ∧ out = ftpTaskSend env r s2) := by
  unfold FTP_Task at h
  simp only [] at h
  split_ifs at h with h1
  · left
    simp only [Option.some.injEq] at h
    refine ⟨h.symm, ?_, h1.2⟩
    cases hb : s.isComBusy
    · rfl
    · exact absurd hb h1.1
  · right
    refine ⟨h1, ?_⟩
    split at h
    · exact absurd h (by simp)
    · rename_i pr s2 hrecv
      simp only [Option.some.injEq] at h
      exact ⟨pr, s2, hrecv, h.symm⟩

theorem FTP_Task_flags (cfg : BuildConfig) (fuel : Nat) (env : TaskEnv) (s t : FtpState)
    (r : bl_result_t) (fs : Option FrameSetCall)
    (h : FTP_Task cfg fuel env s = some (TaskOutcome.returned r t fs))
    (hresend : s.ftpHelper.resendRequired = false)
    (hresponse : s.ftpHelper.responseRequired = false) :
    t.ftpHelper.resendRequired = false ∧ t.ftpHelper.responseRequired = false := by
  rcases FTP_Task_cases cfg fuel env s _ h with ⟨hd, -⟩ | ⟨-, pr, s2, hrecv, hout⟩
  · exact absurd hd (by simp)
  · have hboth := (ftpTaskReceive_facts cfg fuel env _ s2 pr hrecv).1 hresend hresponse
    obtain ⟨r1, t1, hsend, -, -, hr1, hr2⟩ := ftpTaskSend_facts env pr s2
    rw [hsend] at hout
    simp only [TaskOutcome.returned.injEq] at hout
    obtain ⟨-, rfl, -⟩ := hout
    exact ⟨hr1, hr2 hboth⟩

theorem Reachable_flags (cfg : BuildConfig) (s : FtpState) (h : Reachable cfg s) :
    s.ftpHelper.resendRequired = false ∧ s.ftpHelper.responseRequired = false := by
  induction h with
  | initial => exact ⟨rfl, rfl⟩
  | step fuel env s r t fs _ htask ih => exact FTP_Task_flags _ _ _ _ _ _ _ htask ih.1 ih.2

/-- C32: one response per poll.  In every state reachable from the initial state by
`FTP_Task` calls, resendRequired and responseRequired are both false; and every call of
`FTP_Task` from such a state that returns has, at the point where it examines the flags,
at most one of them set, makes the single call of `COM_FrameSet` with the retry buffer
when resendRequired is set, with the response buffer when responseRequired is set, and
none otherwise, and returns with both flags false again. -/
theorem one_response_per_poll (cfg : BuildConfig) (s : FtpState) (h : Reachable cfg s) :
    s.ftpHelper.resendRequired = false
    ∧ s.ftpHelper.responseRequired = false
    ∧ ∀ (fuel : Nat) (env : TaskEnv) (r : bl_result_t) (t : FtpState)
        (fs : Option FrameSetCall),
        FTP_Task cfg fuel env s = some (TaskOutcome.returned r t fs) →
        ∃ pr s2, ftpTaskReceive cfg fuel env
              { s with FTP_RECEIVE_BUFFER := env.receiveBuffer
                       ftpReceiveCount := env.receiveCount } = some (pr, s2)
          ∧ ¬ (s2.ftpHelper.resendRequired = true ∧ s2.ftpHelper.responseRequired = true)
          ∧ fs = (if s2.ftpHelper.resendRequired = true then
                    some { bytes := s2.FTP_RETRY_BUFFER.take s2.ftpResponseLength
                           responseLength := s2.ftpResponseLength }
                  else if s2.ftpHelper.responseRequired = true then
                    some { bytes := s2.FTP_RESPONSE_BUFFER.take s2.ftpResponseLength
                           responseLength := s2.ftpResponseLength }
                  else none)
          ∧ t.ftpHelper.resendRequired = false
          ∧ t.ftpHelper.responseRequired = false := by
  obtain ⟨hresend, hresponse⟩ := Reachable_flags cfg s h
  refine ⟨hresend, hresponse, ?_⟩
  intro fuel env r t fs htask
  rcases FTP_Task_cases cfg fuel env s _ htask with ⟨hd, -⟩ | ⟨-, pr, s2, hrecv, hout⟩
  · exact absurd hd (by simp)
  · have hboth := (ftpTaskReceive_facts cfg fuel env _ s2 pr hrecv).1 hresend hresponse
    obtain ⟨r1, t1, hsend, -, -, hr1, hr2⟩ := ftpTaskSend_facts env pr s2
    rw [hsend] at hout
    simp only [TaskOutcome.returned.injEq] at hout
    obtain ⟨-, rfl, rfl⟩ := hout
    exact ⟨pr, s2, hrecv, hboth, rfl, hr1, hr2 hboth⟩

theorem one_response_per_poll_witness :
    stateAfterClientInfo.ftpHelper.resendRequired = false
    ∧ stateAfterClientInfo.ftpHelper.responseRequired = false
    ∧ ∀ (fuel : Nat) (env : TaskEnv) (r : bl_result_t) (t : FtpState)
        (fs : Option FrameSetCall),
        FTP_Task exampleConfig fuel env stateAfterClientInfo
          = some (TaskOutcome.returned r t fs) →
        ∃ pr s2, ftpTaskReceive exampleConfig fuel env
              { stateAfterClientInfo with FTP_RECEIVE_BUFFER := env.receiveBuffer
                                          ftpReceiveCount := env.receiveCount }
              = some (pr, s2)
          ∧ ¬ (s2.ftpHelper.resendRequired = true ∧ s2.ftpHelper.responseRequired = true)
          ∧ fs = (if s2.ftpHelper.resendRequired = true then
                    some { bytes := s2.FTP_RETRY_BUFFER.take s2.ftpResponseLength
                           responseLength := s2.ftpResponseLength }
                  else if s2.ftpHelper.responseRequired = true then
                    some { bytes := s2.FTP_RESPONSE_BUFFER.take s2.ftpResponseLength
                           responseLength := s2.ftpResponseLength }
                  else none)
          ∧ t.ftpHelper.resendRequired = false
          ∧ t.ftpHelper.responseRequired = false :=
  one_response_per_poll exampleConfig stateAfterClientInfo
    (Reachable.step 0 envGetClientInfo (FtpState.initial exampleConfig) BL_PASS
      stateAfterClientInfo
      (some { bytes := [0, 1, 1, 3, 1, 2, 0, 2, 3, 71, 0, 1, 3, 3, 0, 100, 0, 4, 4, 0x60, 0xE3,
                0x16, 0]
              responseLength := 23 })
      Reachable.initial (by set_option maxRecDepth 100000 in decide))

theorem OperationalBlockExecute_end_transfer (cfg : BuildConfig) (fuel : Nat) (env : TaskEnv)
    (s : FtpState)
    (hcmd : s.FTP_RECEIVE_BUFFER.getD FTP_BYTE_INDEX 0 = FTP_END_TRANSFER)
    (hlen : 2 ≤ s.FTP_RESPONSE_BUFFER.length)
    (hseq : s.ftpHelper.currentSequenceNumber < 256) :
    ∃ t, OperationalBlockExecute cfg fuel env s = some (BL_PASS, t)
      ∧ t.FTP_RESPONSE_BUFFER.take t.ftpResponseLength
          = [s.ftpHelper.currentSequenceNumber, FTP_COMMAND_SUCCESS]
      ∧ t.ftpResponseLength = 2
      ∧ t.resetPending = true
      ∧ (cfg.MULTI_STAGE_RESPONSE = true → t.isComBusy = true)
      ∧ t.core = s.core := by
  have hne1 : ¬ (FTP_END_TRANSFER = FTP_GET_CLIENT_INFO) := by decide
  have hne2 : ¬ (FTP_END_TRANSFER = FTP_GET_IMAGE_STATE) := by decide
  have hne3 : ¬ (FTP_END_TRANSFER = FTP_START_TRANSFER) := by decide
  have hne4 : ¬ (FTP_END_TRANSFER = FTP_WRITE_CHUNK) := by decide
  have h := ResponseSet_status s.FTP_RESPONSE_BUFFER hlen FTP_COMMAND_SUCCESS
    s.ftpHelper.currentSequenceNumber
  unfold OperationalBlockExecute
  simp only [hcmd, hne1, hne2, hne3, hne4, if_false, if_true]
  by_cases hm : cfg.MULTI_STAGE_RESPONSE = true
  · rw [if_pos hm]
    refine ⟨_, rfl, ?_, ?_, rfl, fun _ => rfl, rfl⟩
    · unfold responseSet
      dsimp only
      rw [h.2, h.1, Nat.mod_eq_of_lt hseq]
      rfl
    · unfold responseSet
      dsimp only
      exact h.2
  · rw [if_neg hm]
    refine ⟨_, rfl, ?_, ?_, rfl, fun hc => absurd hc hm, rfl⟩
    · unfold responseSet
      dsimp only
      rw [h.2, h.1, Nat.mod_eq_of_lt hseq]
      rfl
    · unfold responseSet
      dsimp only
      exact h.2

theorem FTP_Task_reset_iff (cfg : BuildConfig) (fuel : Nat) (env : TaskEnv) (s : FtpState) :
    FTP_Task cfg fuel env s = some TaskOutcome.deviceReset
      ↔ (s.isComBusy = false ∧ s.resetPending = true) := by
  constructor
  · intro h
    rcases FTP_Task_cases cfg fuel env s _ h with ⟨-, hb, hp⟩ | ⟨-, pr, s2, -, hout⟩
    · exact ⟨hb, hp⟩
    · obtain ⟨r1, t1, hsend, -⟩ := ftpTaskSend_facts env pr s2
      rw [hsend] at hout
      exact absurd hout (by simp)
  · intro h
    unfold FTP_Task
    rw [if_pos]
    rw [h.1]
    exact ⟨by simp, h.2⟩

theorem FTP_Task_static (cfg : BuildConfig) (fuel : Nat) (env : TaskEnv) (s t : FtpState)
    (r : bl_result_t) (fs : Option FrameSetCall)
    (h : FTP_Task cfg fuel env s = some (TaskOutcome.returned r t fs)) :
    (t.resetPending = true →
        s.resetPending = true
          ∨ (env.comResult = COM_PASS ∧ MIN_TRANSFER_SIZE ≤ env.receiveCount
              ∧ env.receiveBuffer.getD FTP_BYTE_INDEX 0 = FTP_END_TRANSFER))
      ∧ (s.isComBusy = true → t.isComBusy = false →
          cfg.MULTI_STAGE_RESPONSE = true ∧ env.comResult = COM_SEND_COMPLETE) := by
  rcases FTP_Task_cases cfg fuel env s _ h with ⟨hd, -⟩ | ⟨-, pr, s2, hrecv, hout⟩
  · exact absurd hd (by simp)
  · obtain ⟨hf1, hf2, hf3⟩ := ftpTaskReceive_facts cfg fuel env _ s2 pr hrecv
    obtain ⟨r1, t1, hsend, hrp, hcb, -⟩ := ftpTaskSend_facts env pr s2
    rw [hsend] at hout
    simp only [TaskOutcome.returned.injEq] at hout
    obtain ⟨-, rfl, -⟩ := hout
    refine ⟨fun hp => ?_, fun hb hn => ?_⟩
    · rw [hrp] at hp
      exact hf2 hp
    · rw [hcb] at hn
      exact hf3 hb hn

/-- C31: deferred reset.  The `FTP_Task` call that dispatches an EndTransfer frame (it
got past `DeviceResetCheck`, the sequence number is accepted, no resend is pending)
returns without resetting the device, hands to `COM_FrameSet` the response
[current sequence number, 0x01] and leaves resetPending set, and isComBusy set when
MULTI_STAGE_RESPONSE is defined.  A call of `FTP_Task` ends in the device reset exactly
when at its start isComBusy is false and resetPending is true; a returning call clears
isComBusy only when MULTI_STAGE_RESPONSE is defined and the adapter reports
COM_SEND_COMPLETE; and a returning call sets resetPending only by dispatching
EndTransfer. -/
theorem end_transfer_defers_reset (cfg : BuildConfig) (fuel : Nat) (env : TaskEnv)
    (s : FtpState)
    (hrun : ¬ (¬ s.isComBusy = true ∧ s.resetPending = true))
    (hcom : env.comResult = COM_PASS)
    (hcount : MIN_TRANSFER_SIZE ≤ env.receiveCount)
    (hseq : env.receiveBuffer.getD SEQUENCE_BYTE_INDEX 0 &&& SYNC_TRANSFER_bm ≠ 0
      ∨ env.receiveBuffer.getD SEQUENCE_BYTE_INDEX 0 &&& SEQUENCE_NUMBER_bm
          = s.ftpHelper.nextSequenceNumber)
    (hcmd : env.receiveBuffer.getD FTP_BYTE_INDEX 0 = FTP_END_TRANSFER)
    (hresend : s.ftpHelper.resendRequired = false)
    (hlen : s.FTP_RESPONSE_BUFFER.length = MAX_RESPONSE_SIZE) :
    (∃ t, FTP_Task cfg fuel env s
        = some (TaskOutcome.returned
            (if env.frameSetResult ≠ COM_PASS then BL_ERROR_COMMUNICATION_FAIL else BL_PASS)
            t
            (some { bytes := [env.receiveBuffer.getD SEQUENCE_BYTE_INDEX 0
                        &&& SEQUENCE_NUMBER_bm, 0x01]
                    responseLength := 2 }))
      ∧ t.resetPending = true
      ∧ (cfg.MULTI_STAGE_RESPONSE = true → t.isComBusy = true))
    ∧ (∀ (fuel1 : Nat) (env1 : TaskEnv) (s1 : FtpState),
        FTP_Task cfg fuel1 env1 s1 = some TaskOutcome.deviceReset
          ↔ (s1.isComBusy = false ∧ s1.resetPending = true))
    ∧ (∀ (fuel1 : Nat) (env1 : TaskEnv) (s1 t1 : FtpState) (r1 : bl_result_t)
        (fs1 : Option FrameSetCall),
        FTP_Task cfg fuel1 env1 s1 = some (TaskOutcome.returned r1 t1 fs1) →
        s1.isComBusy = true → t1.isComBusy = false →
        cfg.MULTI_STAGE_RESPONSE = true ∧ env1.comResult = COM_SEND_COMPLETE)
    ∧ (∀ (fuel1 : Nat) (env1 : TaskEnv) (s1 t1 : FtpState) (r1 : bl_result_t)
        (fs1 : Option FrameSetCall),
        FTP_Task cfg fuel1 env1 s1 = some (TaskOutcome.returned r1 t1 fs1) →
        s1.resetPending = false → t1.resetPending = true →
        env1.comResult = COM_PASS ∧ MIN_TRANSFER_SIZE ≤ env1.receiveCount
          ∧ env1.receiveBuffer.getD FTP_BYTE_INDEX 0 = FTP_END_TRANSFER) := by
  have hbyte : ∀ b : Nat, b &&& SEQUENCE_NUMBER_bm < 256 := fun b =>
    Nat.lt_of_le_of_lt Nat.and_le_right (by decide)
  have hlen2 : 2 ≤ s.FTP_RESPONSE_BUFFER.length := by rw [hlen]; decide
  refine ⟨?_, fun fuel1 env1 s1 => FTP_Task_reset_iff cfg fuel1 env1 s1, ?_, ?_⟩
  · obtain ⟨s1, hs1, hbytes1, hl1, hrp1, hcb1, -⟩ :=
      OperationalBlockExecute_end_transfer cfg fuel env
        { s with
          FTP_RECEIVE_BUFFER := env.receiveBuffer
          ftpReceiveCount := env.receiveCount
          ftpHelper := { s.ftpHelper with
            currentSequenceNumber :=
              env.receiveBuffer.getD SEQUENCE_BYTE_INDEX 0 &&& SEQUENCE_NUMBER_bm
            lastSequenceNumber :=
              env.receiveBuffer.getD SEQUENCE_BYTE_INDEX 0 &&& SEQUENCE_NUMBER_bm
            nextSequenceNumber :=
              ((env.receiveBuffer.getD SEQUENCE_BYTE_INDEX 0 &&& SEQUENCE_NUMBER_bm) + 1)
                &&& MAX_SEQUENCE_VALUE } }
        hcmd hlen2 (hbyte _)
    obtain ⟨t, ht, -, htrp, htcb, -⟩ :=
      FTP_Task_dispatch cfg fuel env s s1 BL_PASS hrun hcom hcount hseq hresend hs1
    dsimp only at hbytes1
    rw [hbytes1, hl1] at ht
    refine ⟨t, ht, ?_, fun hm => ?_⟩
    · rw [htrp, hrp1]
    · rw [htcb, hcb1 hm]
  · intro fuel1 env1 s1 t1 r1 fs1 htask hb hn
    exact (FTP_Task_static cfg fuel1 env1 s1 t1 r1 fs1 htask).2 hb hn
  · intro fuel1 env1 s1 t1 r1 fs1 htask hp0 hp1
    rcases (FTP_Task_static cfg fuel1 env1 s1 t1 r1 fs1 htask).1 hp1 with hp | hp
    · rw [hp0] at hp
      exact absurd hp (by simp)
    · exact hp

theorem end_transfer_defers_reset_witness :
    (¬ (¬ (FtpState.initial exampleConfig).isComBusy = true
          ∧ (FtpState.initial exampleConfig).resetPending = true)
      ∧ envEndTransfer.comResult = COM_PASS
      ∧ MIN_TRANSFER_SIZE ≤ envEndTransfer.receiveCount
      ∧ (envEndTransfer.receiveBuffer.getD SEQUENCE_BYTE_INDEX 0 &&& SYNC_TRANSFER_bm ≠ 0
          ∨ envEndTransfer.receiveBuffer.getD SEQUENCE_BYTE_INDEX 0 &&& SEQUENCE_NUMBER_bm
              = (FtpState.initial exampleConfig).ftpHelper.nextSequenceNumber)
      ∧ envEndTransfer.receiveBuffer.getD FTP_BYTE_INDEX 0 = FTP_END_TRANSFER
      ∧ (FtpState.initial exampleConfig).ftpHelper.resendRequired = false
      ∧ (FtpState.initial exampleConfig).FTP_RESPONSE_BUFFER.length = MAX_RESPONSE_SIZE)
    ∧ (∃ t, FTP_Task exampleConfig 0 envEndTransfer (FtpState.initial exampleConfig)
        = some (TaskOutcome.returned
            (if envEndTransfer.frameSetResult ≠ COM_PASS then BL_ERROR_COMMUNICATION_FAIL
              else BL_PASS)
            t
            (some { bytes := [envEndTransfer.receiveBuffer.getD SEQUENCE_BYTE_INDEX 0
                        &&& SEQUENCE_NUMBER_bm, 0x01]
                    responseLength := 2 }))
      ∧ t.resetPending = true
      ∧ (exampleConfig.MULTI_STAGE_RESPONSE = true → t.isComBusy = true))
    ∧ (∀ (fuel1 : Nat) (env1 : TaskEnv) (s1 : FtpState),
        FTP_Task exampleConfig fuel1 env1 s1 = some TaskOutcome.deviceReset
          ↔ (s1.isComBusy = false ∧ s1.resetPending = true))
    ∧ (∀ (fuel1 : Nat) (env1 : TaskEnv) (s1 t1 : FtpState) (r1 : bl_result_t)
        (fs1 : Option FrameSetCall),
        FTP_Task exampleConfig fuel1 env1 s1 = some (TaskOutcome.returned r1 t1 fs1) →
        s1.isComBusy = true → t1.isComBusy = false →
        exampleConfig.MULTI_STAGE_RESPONSE = true ∧ env1.comResult = COM_SEND_COMPLETE)
    ∧ (∀ (fuel1 : Nat) (env1 : TaskEnv) (s1 t1 : FtpState) (r1 : bl_result_t)
        (fs1 : Option FrameSetCall),
        FTP_Task exampleConfig fuel1 env1 s1 = some (TaskOutcome.returned r1 t1 fs1) →
        s1.resetPending = false → t1.resetPending = true →
        env1.comResult = COM_PASS ∧ MIN_TRANSFER_SIZE ≤ env1.receiveCount
          ∧ env1.receiveBuffer.getD FTP_BYTE_INDEX 0 = FTP_END_TRANSFER) :=
  ⟨⟨by decide, by decide, by decide, by decide, by decide, by decide, by decide⟩,
    end_transfer_defers_reset exampleConfig 0 envEndTransfer (FtpState.initial exampleConfig)
      (by decide) (by decide) (by decide) (by decide) (by decide) (by decide) (by decide)⟩

/-- C36, the code at the failing input: the wire bytes START 0xFA 0x05 0xFF END decode
to a checksum-valid frame with receive count 3 (one payload byte and its frame check
0xFF05).  `FTP_Task` does not answer it with the too-short retry response: it calls
`OperationalBlockExecute`, which reads the frame check byte 0x05 as the EndTransfer
command, answers [0x3A, 0x01], sets resetPending and changes the sequence numbers.  The
frame START 0xFF 0xFF END with receive count 2 is dispatched as well (command byte 0xFF,
answered as not supported) and changes the sequence numbers. -/
theorem short_frame_dispatched :
    feedBytes decoderInitial [START_OF_PACKET_BYTE, 0xFA, 0x05, 0xFF, END_OF_PACKET_BYTE]
        = ([COM_BUSY, COM_BUSY, COM_BUSY, COM_BUSY, COM_PASS],
            { MaxBufferLength := 75
              isReceiveWindowOpen := false
              isEscapedByte := false
              receiveBuffer := envThreeByteFrame.receiveBuffer
              receiveIndex := envThreeByteFrame.receiveCount })
    ∧ envThreeByteFrame.receiveCount = 3
    ∧ outcomeFrameSet (FTP_Task uartConfig 0 envThreeByteFrame (FtpState.initial uartConfig))
        = some { bytes := [0x3A, 0x01], responseLength := 2 }
    ∧ (outcomeState (FtpState.initial uartConfig)
        (FTP_Task uartConfig 0 envThreeByteFrame
          (FtpState.initial uartConfig))).dispatchCount = 1
    ∧ (outcomeState (FtpState.initial uartConfig)
        (FTP_Task uartConfig 0 envThreeByteFrame
          (FtpState.initial uartConfig))).resetPending = true
    ∧ (outcomeState (FtpState.initial uartConfig)
        (FTP_Task uartConfig 0 envThreeByteFrame
          (FtpState.initial uartConfig))).ftpHelper.lastSequenceNumber = 0x3A
    ∧ (outcomeState (FtpState.initial uartConfig)
        (FTP_Task uartConfig 0 envThreeByteFrame
          (FtpState.initial uartConfig))).ftpHelper.nextSequenceNumber = 0x1B
    ∧ (FtpState.initial uartConfig).ftpHelper.lastSequenceNumber = 0
    ∧ (FtpState.initial uartConfig).ftpHelper.nextSequenceNumber = 1
    ∧ (FtpState.initial uartConfig).resetPending = false
    ∧ feedBytes decoderInitial [START_OF_PACKET_BYTE, 0xFF, 0xFF, END_OF_PACKET_BYTE]
        = ([COM_BUSY, COM_BUSY, COM_BUSY, COM_PASS],
            { MaxBufferLength := 75
              isReceiveWindowOpen := false
              isEscapedByte := false
              receiveBuffer := envTwoByteFrame.receiveBuffer
              receiveIndex := envTwoByteFrame.receiveCount })
    ∧ envTwoByteFrame.receiveCount = 2
    ∧ outcomeFrameSet (FTP_Task uartConfig 0 envTwoByteFrame (FtpState.initial uartConfig))
        = some { bytes := [0x3F, 0x02], responseLength := 2 }
    ∧ (outcomeState (FtpState.initial uartConfig)
        (FTP_Task uartConfig 0 envTwoByteFrame
          (FtpState.initial uartConfig))).dispatchCount = 1
    ∧ (outcomeState (FtpState.initial uartConfig)
        (FTP_Task uartConfig 0 envTwoByteFrame
          (FtpState.initial uartConfig))).ftpHelper.nextSequenceNumber = 0 := by
  refine ⟨?_, ?_, ?_, ?_, ?_, ?_, ?_, ?_, ?_, ?_, ?_, ?_, ?_, ?_, ?_⟩
  all_goals decide!

/-! ### Write path: destination range -/

theorem BL_BootCommandProcess_write_open (cfg : BuildConfig) (fuel h : Nat)
    (bootDataPtr : List Nat) (commandLength : Nat) (c : CoreState)
    (hty : bootDataPtr.getD 2 0 = WRITE_FLASH) (hopen : c.bootloaderCoreUnlocked = true)
    (hd : BL_STAGING_IMAGE_START
      ≤ (le32 bootDataPtr BL_BLOCK_HEADER_SIZE
          + (BL_STAGING_IMAGE_START + 4294967296 - BL_APPLICATION_START_ADDRESS) % 4294967296)
        % 4294967296) :
    BL_BootCommandProcess cfg fuel h true bootDataPtr commandLength c
      = some (BL_PASS,
          { c with
            writeBuffer := blockCopy c.writeBuffer bootDataPtr
              (BL_COMMAND_HEADER_SIZE + BL_BLOCK_HEADER_SIZE) (writeCopyLength commandLength)
            nvmOps := c.nvmOps ++
              [NvmOp.RegionUnlock
                  ((le32 bootDataPtr BL_BLOCK_HEADER_SIZE
                    + (BL_STAGING_IMAGE_START + 4294967296 - BL_APPLICATION_START_ADDRESS)
                        % 4294967296) % 4294967296),
                NvmOp.PageWrite
                  (blockCopy c.writeBuffer bootDataPtr
                    (BL_COMMAND_HEADER_SIZE + BL_BLOCK_HEADER_SIZE)
                    (writeCopyLength commandLength))
                  ((le32 bootDataPtr BL_BLOCK_HEADER_SIZE
                    + (BL_STAGING_IMAGE_START + 4294967296 - BL_APPLICATION_START_ADDRESS)
                        % 4294967296) % 4294967296),
                NvmOp.RegionLock
                  ((le32 bootDataPtr BL_BLOCK_HEADER_SIZE
                    + (BL_STAGING_IMAGE_START + 4294967296 - BL_APPLICATION_START_ADDRESS)
                        % 4294967296) % 4294967296)] }) := by
  have hne : ¬ (WRITE_FLASH = UNLOCK_BOOTLOADER) := by decide
  unfold BL_BootCommandProcess
  simp only [hty, hne, hopen, if_false, if_true, ge_iff_le]
  rw [if_pos hd]

/-- C38, the code at the failing input: after an accepted Unlock block, a WriteFlash
block with start address 0x20000 is accepted: `BL_BootCommandProcess` returns BL_PASS
and issues the page write of its 64 data bytes at 0x20000, above
BL_STAGING_IMAGE_END = 0x1FFFF.  The only check on the destination is the lower bound
BL_STAGING_IMAGE_START. -/
theorem write_flash_outside_staging :
    ∃ c1 c2 : CoreState,
      BL_BootCommandProcess exampleConfig 131071 0x11070200 true unlockBlockValid 16 lockedCore
        = some (BL_PASS, c1)
      ∧ c1.bootloaderCoreUnlocked = true
      ∧ BL_BootCommandProcess exampleConfig 0 0x11070200 true writeBlockOutside 71 c1
        = some (BL_PASS, c2)
      ∧ c2.nvmOps = c1.nvmOps ++
          [NvmOp.RegionUnlock 0x20000, NvmOp.PageWrite (List.replicate 64 0xAB) 0x20000,
            NvmOp.RegionLock 0x20000]
      ∧ le32 writeBlockOutside BL_BLOCK_HEADER_SIZE = 0x20000
      ∧ ¬ (0x20000 + BL_WRITE_BYTE_LENGTH exampleConfig - 1 ≤ BL_STAGING_IMAGE_END)
      ∧ BL_STAGING_IMAGE_END = 0x1FFFF := by
  obtain ⟨ops, -, hacc⟩ := BootloaderProcessorUnlock_accept exampleConfig 131071 0x11070200
    unlockBlockValid lockedCore (by decide) (by decide) (by decide) (by decide)
  have hun := BL_BootCommandProcess_unlock exampleConfig 131071 0x11070200 true
    unlockBlockValid 16 lockedCore (by decide)
  have hwr := BL_BootCommandProcess_write_open exampleConfig 0 0x11070200 writeBlockOutside 71
    { lockedCore with bootloaderCoreUnlocked := true, nvmOps := ops } (by decide) rfl
    (by decide)
  refine ⟨_, _, hun.trans hacc, rfl, hwr, ?_, by decide, by decide, by decide⟩
  show ops ++ _ = ops ++ _
  congr 1

/-! ### I2C adapter: response buffer -/

theorem ResponseSet_responseLength (buffer : List Nat) (responsePayload : Option (List Nat))
    (responseStatus sequenceByte responsePayloadLength : Nat) :
    (ResponseSet buffer responsePayload responseStatus sequenceByte responsePayloadLength).2
      = (responsePayloadLength + SEQUENCE_DATA_SIZE + COMMAND_DATA_SIZE) % 65536 := by
  unfold ResponseSet
  cases responsePayload <;> rfl

theorem OperationalBlockExecute_length (cfg : BuildConfig) (fuel : Nat) (env : TaskEnv)
    (s t : FtpState) (r : bl_result_t)
    (h : OperationalBlockExecute cfg fuel env s = some (r, t)) :
    t.ftpResponseLength = 2 ∨ t.ftpResponseLength = 3 ∨ t.ftpResponseLength = 23 := by
  unfold OperationalBlockExecute at h
  simp only [] at h
  by_cases h1 : s.FTP_RECEIVE_BUFFER.getD FTP_BYTE_INDEX 0 = FTP_GET_CLIENT_INFO
  · rw [if_pos h1] at h
    simp only [Option.some.injEq, Prod.mk.injEq] at h
    obtain ⟨_, rfl⟩ := h
    exact Or.inr (Or.inr rfl)
  rw [if_neg h1] at h
  by_cases h2 : s.FTP_RECEIVE_BUFFER.getD FTP_BYTE_INDEX 0 = FTP_GET_IMAGE_STATE
  · rw [if_pos h2] at h
    simp only [Option.some.injEq, Prod.mk.injEq] at h
    obtain ⟨_, rfl⟩ := h
    simp only [responseSet, ResponseSet_responseLength]
    decide
  rw [if_neg h2] at h
  by_cases h3 : s.FTP_RECEIVE_BUFFER.getD FTP_BYTE_INDEX 0 = FTP_START_TRANSFER
  · rw [if_pos h3] at h
    simp only [Option.some.injEq, Prod.mk.injEq] at h
    obtain ⟨_, rfl⟩ := h
    simp only [responseSet, ResponseSet_responseLength]
    decide
  rw [if_neg h3] at h
  by_cases h4 : s.FTP_RECEIVE_BUFFER.getD FTP_BYTE_INDEX 0 = FTP_WRITE_CHUNK
  · rw [if_pos h4] at h
    split at h
    · exact absurd h (by simp)
    · split_ifs at h
      all_goals
        simp only [Option.some.injEq, Prod.mk.injEq] at h
        obtain ⟨_, rfl⟩ := h
        simp only [responseSet, ResponseSet_responseLength]
        decide
  rw [if_neg h4] at h
  by_cases h5 : s.FTP_RECEIVE_BUFFER.getD FTP_BYTE_INDEX 0 = FTP_END_TRANSFER
  · rw [if_pos h5] at h
    simp only [Option.some.injEq, Prod.mk.injEq] at h
    obtain ⟨_, rfl⟩ := h
    split_ifs
    all_goals
      simp only [responseSet, ResponseSet_responseLength]
      decide
  rw [if_neg h5] at h
  simp only [Option.some.injEq, Prod.mk.injEq] at h
  obtain ⟨_, rfl⟩ := h
  simp only [responseSet, ResponseSet_responseLength]
  decide

theorem ftpTaskReceive_length (cfg : BuildConfig) (fuel : Nat) (env : TaskEnv)
    (s t : FtpState) (r : bl_result_t)
    (h : ftpTaskReceive cfg fuel env s = some (r, t)) :
    t.ftpResponseLength = s.ftpResponseLength
      ∨ t.ftpResponseLength = 2 ∨ t.ftpResponseLength = 3 ∨ t.ftpResponseLength = 23 := by
  have hseq : (SequenceNumberValidate s).2.ftpResponseLength = s.ftpResponseLength
      ∨ (SequenceNumberValidate s).2.ftpResponseLength = 3 := by
    unfold SequenceNumberValidate
    dsimp only
    split_ifs
    · exact Or.inl rfl
    · exact Or.inl rfl
    · exact Or.inl rfl
    · right
      simp only [retryResponseSet, ResponseSet_responseLength]
      decide
  unfold ftpTaskReceive at h
  simp only [] at h
  split_ifs at h with h1 h2 h3 h4 h5 h6 h7
  · simp only [Option.some.injEq, Prod.mk.injEq] at h
    obtain ⟨_, rfl⟩ := h
    right
    simp only [ParserDataReset, retryResponseSet, ResponseSet_responseLength]
    decide
  · simp only [Option.some.injEq, Prod.mk.injEq] at h
    obtain ⟨_, rfl⟩ := h
    right
    simp only [ParserDataReset, retryResponseSet, ResponseSet_responseLength]
    decide
  · split at h
    · exact absurd h (by simp)
    · rename_i pr s1 hobe
      simp only [Option.some.injEq, Prod.mk.injEq] at h
      obtain ⟨_, rfl⟩ := h
      exact Or.inr (OperationalBlockExecute_length cfg fuel env _ s1 pr hobe)
  · simp only [Option.some.injEq, Prod.mk.injEq] at h
    obtain ⟨_, rfl⟩ := h
    rcases hseq with hq | hq
    · exact Or.inl hq
    · exact Or.inr (Or.inr (Or.inl hq))
  · simp only [Option.some.injEq, Prod.mk.injEq] at h
    obtain ⟨_, rfl⟩ := h
    right
    simp only [retryResponseSet, ResponseSet_responseLength]
    decide
  · simp only [Option.some.injEq, Prod.mk.injEq] at h
    obtain ⟨_, rfl⟩ := h
    exact Or.inl rfl
  · simp only [Option.some.injEq, Prod.mk.injEq] at h
    obtain ⟨_, rfl⟩ := h
    exact Or.inl rfl
  · simp only [Option.some.injEq, Prod.mk.injEq] at h
    obtain ⟨_, rfl⟩ := h
    exact Or.inl rfl

theorem FTP_Task_frameSet_length (cfg : BuildConfig) (fuel : Nat) (env : TaskEnv)
    (s t : FtpState) (r : bl_result_t) (fs : Option FrameSetCall)
    (h : FTP_Task cfg fuel env s = some (TaskOutcome.returned r t fs))
    (hs : s.ftpResponseLength = 0 ∨ s.ftpResponseLength = 2 ∨ s.ftpResponseLength = 3
      ∨ s.ftpResponseLength = 23) :
    (t.ftpResponseLength = 0 ∨ t.ftpResponseLength = 2 ∨ t.ftpResponseLength = 3
        ∨ t.ftpResponseLength = 23)
      ∧ ∀ call, fs = some call →
          call.responseLength = 0 ∨ call.responseLength = 2 ∨ call.responseLength = 3
            ∨ call.responseLength = 23 := by
  rcases FTP_Task_cases cfg fuel env s _ h with ⟨hd, -⟩ | ⟨-, pr, s2, hrecv, hout⟩
  · exact absurd hd (by simp)
  · have hlen := ftpTaskReceive_length cfg fuel env _ s2 pr hrecv
    have hs2 : s2.ftpResponseLength = 0 ∨ s2.ftpResponseLength = 2 ∨ s2.ftpResponseLength = 3
        ∨ s2.ftpResponseLength = 23 := by
      rcases hlen with hq | hq
      · rw [hq]
        exact hs
      · exact Or.inr hq
    unfold ftpTaskSend at hout
    split_ifs at hout
    all_goals
      simp only [TaskOutcome.returned.injEq] at hout
      obtain ⟨-, rfl, rfl⟩ := hout
      refine ⟨hs2, fun call hc => ?_⟩
      first
        | (simp only [Option.some.injEq] at hc
           rw [← hc]
           exact hs2)
        | exact absurd hc (by simp)

theorem Reachable_frameSet_length (cfg : BuildConfig) (s : FtpState) (h : Reachable cfg s) :
    (s.ftpResponseLength = 0 ∨ s.ftpResponseLength = 2 ∨ s.ftpResponseLength = 3
        ∨ s.ftpResponseLength = 23)
      ∧ ∀ (fuel : Nat) (env : TaskEnv) (r : bl_result_t) (t : FtpState)
          (fs : Option FrameSetCall) (call : FrameSetCall),
          FTP_Task cfg fuel env s = some (TaskOutcome.returned r t fs) → fs = some call →
          call.responseLength = 0 ∨ call.responseLength = 2 ∨ call.responseLength = 3
            ∨ call.responseLength = 23 := by
  have hinv : s.ftpResponseLength = 0 ∨ s.ftpResponseLength = 2 ∨ s.ftpResponseLength = 3
      ∨ s.ftpResponseLength = 23 := by
    induction h with
    | initial => exact Or.inl rfl
    | step fuel env s r t fs _ htask ih =>
      exact (FTP_Task_frameSet_length _ _ _ _ _ _ _ htask ih).1
  exact ⟨hinv, fun fuel env r t fs call htask hc =>
    (FTP_Task_frameSet_length cfg fuel env s t r fs htask hinv).2 call hc⟩

theorem aligned_rows_apart (x y R : Nat) (hx : x % R = 0) (hy : y % R = 0) (hlt : x < y) :
    x + R ≤ y := by
  have hdx : R ∣ x := Nat.dvd_of_mod_eq_zero hx
  have hdy : R ∣ y := Nat.dvd_of_mod_eq_zero hy
  have hd : R ∣ y - x := Nat.dvd_sub' hdy hdx
  have hpos : 0 < y - x := by omega
  have := Nat.le_of_dvd hpos hd
  omega

theorem BL_FlashCopy_row_trace (cfg : BuildConfig) (src dest : Nat)
    (hpage : 0 < cfg.NVMCTRL_FLASH_PAGESIZE)
    (hrow : cfg.NVMCTRL_FLASH_ROWSIZE = 4 * cfg.NVMCTRL_FLASH_PAGESIZE)
    (hsrc : src % cfg.NVMCTRL_FLASH_ROWSIZE = 0)
    (hdest : dest % cfg.NVMCTRL_FLASH_ROWSIZE = 0)
    (hsrange : src + cfg.NVMCTRL_FLASH_ROWSIZE ≤ 0x20000)
    (hdrange : dest + cfg.NVMCTRL_FLASH_ROWSIZE ≤ 0x20000)
    (hne : src ≠ dest) :
    BL_FlashCopy cfg healthyMemEnv src dest cfg.NVMCTRL_FLASH_ROWSIZE []
      = (BL_MEM_PASS,
          [MemOp.Read src cfg.NVMCTRL_FLASH_ROWSIZE true,
            MemOp.RegionUnlock dest, MemOp.RowErase dest true, MemOp.RegionLock dest,
            MemOp.RegionUnlock dest,
            MemOp.PageWrite 0 dest true,
            MemOp.RegionLock dest,
            MemOp.RegionUnlock dest,
            MemOp.PageWrite (cfg.NVMCTRL_FLASH_PAGESIZE / 4)
              (dest + cfg.NVMCTRL_FLASH_PAGESIZE) true,
            MemOp.RegionLock dest,
            MemOp.RegionUnlock dest,
            MemOp.PageWrite (2 * cfg.NVMCTRL_FLASH_PAGESIZE / 4)
              (dest + 2 * cfg.NVMCTRL_FLASH_PAGESIZE) true,
            MemOp.RegionLock dest,
            MemOp.RegionUnlock dest,
            MemOp.PageWrite (3 * cfg.NVMCTRL_FLASH_PAGESIZE / 4)
              (dest + 3 * cfg.NVMCTRL_FLASH_PAGESIZE) true,
            MemOp.RegionLock dest]) := by
  have hapart : src + cfg.NVMCTRL_FLASH_ROWSIZE ≤ dest
      ∨ dest + cfg.NVMCTRL_FLASH_ROWSIZE ≤ src := by
    rcases Nat.lt_or_gt_of_ne hne with h | h
    · exact Or.inl (aligned_rows_apart _ _ _ hsrc hdest h)
    · exact Or.inr (aligned_rows_apart _ _ _ hdest hsrc h)
  have hrange : List.range 4 = [0, 1, 2, 3] := by decide
  have hs : (src + cfg.NVMCTRL_FLASH_ROWSIZE) % 4294967296 = src + cfg.NVMCTRL_FLASH_ROWSIZE := by
    omega
  have hd : (dest + cfg.NVMCTRL_FLASH_ROWSIZE) % 4294967296
      = dest + cfg.NVMCTRL_FLASH_ROWSIZE := by
    omega
  have c1 : ¬ (src > 0x20000 ∨ dest > 0x20000) := by omega
  have c2 : ¬ (src = dest
      ∨ (src + cfg.NVMCTRL_FLASH_ROWSIZE > dest
          ∧ src + cfg.NVMCTRL_FLASH_ROWSIZE < dest + cfg.NVMCTRL_FLASH_ROWSIZE)
      ∨ (dest + cfg.NVMCTRL_FLASH_ROWSIZE > src
          ∧ dest + cfg.NVMCTRL_FLASH_ROWSIZE < src + cfg.NVMCTRL_FLASH_ROWSIZE)) := by
    omega
  have c3 : ¬ (cfg.NVMCTRL_FLASH_ROWSIZE ≤ 0
      ∨ src + cfg.NVMCTRL_FLASH_ROWSIZE > 0x20000 + 1
      ∨ dest + cfg.NVMCTRL_FLASH_ROWSIZE > 0x20000 + 1) := by
    omega
  have p0 : (0 * cfg.NVMCTRL_FLASH_PAGESIZE) % 4294967296 = 0 := by omega
  have p1 : (1 * cfg.NVMCTRL_FLASH_PAGESIZE) % 4294967296 = cfg.NVMCTRL_FLASH_PAGESIZE := by
    omega
  have p2 : (2 * cfg.NVMCTRL_FLASH_PAGESIZE) % 4294967296
      = 2 * cfg.NVMCTRL_FLASH_PAGESIZE := by
    omega
  have p3 : (3 * cfg.NVMCTRL_FLASH_PAGESIZE) % 4294967296
      = 3 * cfg.NVMCTRL_FLASH_PAGESIZE := by
    omega
  have a0 : (dest + 0) % 4294967296 = dest := by omega
  have a1 : (dest + cfg.NVMCTRL_FLASH_PAGESIZE) % 4294967296
      = dest + cfg.NVMCTRL_FLASH_PAGESIZE := by
    omega
  have a2 : (dest + 2 * cfg.NVMCTRL_FLASH_PAGESIZE) % 4294967296
      = dest + 2 * cfg.NVMCTRL_FLASH_PAGESIZE := by
    omega
  have a3 : (dest + 3 * cfg.NVMCTRL_FLASH_PAGESIZE) % 4294967296
      = dest + 3 * cfg.NVMCTRL_FLASH_PAGESIZE := by
    omega
  unfold BL_FlashCopy
  simp only [hs, hd, if_neg c1, if_neg c2, if_neg c3, hrange]
  simp only [healthyMemEnv, boolAsMemResult, if_true, List.flatMap_cons, List.flatMap_nil,
    pageWriteOps, p0, p1, p2, p3, a0, a1, a2, a3, List.nil_append, List.cons_append,
    List.append_nil, Nat.zero_div]

/-- C39: flash copy result.  In a flash where a read returns the stored bytes, a row
erase sets the addressed row to 0xFF and a page write stores one page, with the page
size a positive number of 32-bit words and the row size 4 pages, for all row-aligned
`src` and `dest` whose rows lie below 0x20000 and differ,
`BL_FlashCopy(src, dest, row size)` returns BL_MEM_PASS, and after its driver calls the
bytes at dest .. dest + row size - 1 are the bytes that were at src .. src + row size - 1
before the call, while every byte outside the destination row is unchanged. -/
theorem flash_copy_result (cfg : BuildConfig) (st : FlashState) (src dest : Nat)
    (hpage : 0 < cfg.NVMCTRL_FLASH_PAGESIZE)
    (hword : cfg.NVMCTRL_FLASH_PAGESIZE % 4 = 0)
    (hrow : cfg.NVMCTRL_FLASH_ROWSIZE = 4 * cfg.NVMCTRL_FLASH_PAGESIZE)
    (hsrc : src % cfg.NVMCTRL_FLASH_ROWSIZE = 0)
    (hdest : dest % cfg.NVMCTRL_FLASH_ROWSIZE = 0)
    (hsrange : src + cfg.NVMCTRL_FLASH_ROWSIZE ≤ 0x20000)
    (hdrange : dest + cfg.NVMCTRL_FLASH_ROWSIZE ≤ 0x20000)
    (hne : src ≠ dest) :
    (BL_FlashCopy cfg healthyMemEnv src dest cfg.NVMCTRL_FLASH_ROWSIZE []).1 = BL_MEM_PASS
    ∧ (∀ i, i < cfg.NVMCTRL_FLASH_ROWSIZE →
        (runMemOps cfg st
          (BL_FlashCopy cfg healthyMemEnv src dest cfg.NVMCTRL_FLASH_ROWSIZE []).2).flash
            (dest + i)
          = st.flash (src + i))
    ∧ (∀ a, ¬ (dest ≤ a ∧ a < dest + cfg.NVMCTRL_FLASH_ROWSIZE) →
        (runMemOps cfg st
          (BL_FlashCopy cfg healthyMemEnv src dest cfg.NVMCTRL_FLASH_ROWSIZE []).2).flash a
          = st.flash a) := by
  rw [BL_FlashCopy_row_trace cfg src dest hpage hrow hsrc hdest hsrange hdrange hne]
  have hrs : dest - dest % cfg.NVMCTRL_FLASH_ROWSIZE = dest := by rw [hdest]; rfl
  refine ⟨rfl, ?_, ?_⟩
  · intro i hi
    simp only [runMemOps, List.foldl, runMemOp, flashPageWrite, flashRowErase, flashRead, hrs]
    split_ifs
    all_goals first
      | omega
      | (congr 1
         omega)
  · intro a ha
    simp only [runMemOps, List.foldl, runMemOp, flashPageWrite, flashRowErase, flashRead, hrs]
    split_ifs
    all_goals first
      | rfl
      | omega

theorem flash_copy_result_witness :
    (0 < exampleConfig.NVMCTRL_FLASH_PAGESIZE
      ∧ exampleConfig.NVMCTRL_FLASH_PAGESIZE % 4 = 0
      ∧ exampleConfig.NVMCTRL_FLASH_ROWSIZE = 4 * exampleConfig.NVMCTRL_FLASH_PAGESIZE
      ∧ 0x11000 % exampleConfig.NVMCTRL_FLASH_ROWSIZE = 0
      ∧ 0x2000 % exampleConfig.NVMCTRL_FLASH_ROWSIZE = 0
      ∧ 0x11000 + exampleConfig.NVMCTRL_FLASH_ROWSIZE ≤ 0x20000
      ∧ 0x2000 + exampleConfig.NVMCTRL_FLASH_ROWSIZE ≤ 0x20000
      ∧ 0x11000 ≠ 0x2000)
    ∧ (BL_FlashCopy exampleConfig healthyMemEnv 0x11000 0x2000
        exampleConfig.NVMCTRL_FLASH_ROWSIZE []).1 = BL_MEM_PASS
    ∧ (∀ i, i < exampleConfig.NVMCTRL_FLASH_ROWSIZE →
        (runMemOps exampleConfig patternFlash
          (BL_FlashCopy exampleConfig healthyMemEnv 0x11000 0x2000
            exampleConfig.NVMCTRL_FLASH_ROWSIZE []).2).flash (0x2000 + i)
          = patternFlash.flash (0x11000 + i))
    ∧ (∀ a, ¬ (0x2000 ≤ a ∧ a < 0x2000 + exampleConfig.NVMCTRL_FLASH_ROWSIZE) →
        (runMemOps exampleConfig patternFlash
          (BL_FlashCopy exampleConfig healthyMemEnv 0x11000 0x2000
            exampleConfig.NVMCTRL_FLASH_ROWSIZE []).2).flash a
          = patternFlash.flash a) :=
  ⟨⟨by decide, by decide, by decide, by decide, by decide, by decide, by decide, by decide⟩,
    flash_copy_result exampleConfig patternFlash 0x11000 0x2000 (by decide) (by decide)
      (by decide) (by decide) (by decide) (by decide) (by decide) (by decide)⟩

end MDFU
